import Mathlib

/-!
# Verification development for the genie-rs binary codecs

Shallow embedding of the recorded-game `Player` block decoder
(`crates/genie-rec/src/player.rs`) and of the fixed-layout codecs of
`crates/genie-dat/src/color_table.rs` and `crates/genie-dat/src/random_map.rs`.

Modelling conventions:
* A byte stream is a `List Nat` of byte values together with a running
  position counter (`Rd`), mirroring `RecordingHeaderReader`'s byte source
  and its `position()` used for diagnostics.
* Machine integers are `Nat`/`Int`; wrapping 32-bit arithmetic is written
  with an explicit `% 4294967296` (release-profile Rust semantics).
* IEEE-754 `f32` fields that the codec merely transports are kept as their
  raw little-endian 32-bit word (a `Nat`); the codec never interprets them.
* The format version (`f32` in the source) is modelled as a rational number;
  every comparison in the source is a `>=` against a two-decimal literal,
  which the `f32`/`Rat` correspondence preserves at the thresholds used.
* Fallible reads return `Except Err`; a Rust `panic!` (from `assert_eq!` or
  a failed `try_into().unwrap()`) is modelled by the distinguished outcome
  `Err.panicAssert`, which is not an error *value* returned by the decoder.
-/

namespace GenieSpec

/-- Reader state: the running byte position (used only for diagnostics, like
`RecordingHeaderReader::position`) and the remaining bytes of the stream. -/
structure Rd where
  pos : Nat
  data : List Nat
deriving DecidableEq

/-- Failure outcomes of the decoder.  `unexpectedEnd`, `missingMarker` and
`headerError` mirror the `Error` variants used by `player.rs`
(`MissingMarker` carries version, expected marker, observed byte and the
skip distance counted by the `assert_marker!` macro; the source's `file!()`
and `line!()` components are location metadata and are not modelled).
`panicAssert` stands for a Rust panic (`assert_eq!` failure or a failed
`try_into().unwrap()`). -/
inductive Err where
  | unexpectedEnd
  | missingMarker (version : Rat) (expected : Nat) (found : Nat) (skipped : Nat)
  | headerError (offset : Nat) (cause : Err)
  | panicAssert
deriving DecidableEq

/-- Modelled from the spec: the `GameVariant` edition discriminant
(`{ HereticDawn, UserPatch, DefinitiveEdition, … }`, totally ordered by
release) lives in the crate root, which is not among the provided sources.
`laterEdition` stands for any edition ordered strictly after
`DefinitiveEdition`. -/
inductive GameVariant where
  | hereticDawn
  | userPatch
  | definitiveEdition
  | laterEdition
deriving DecidableEq

/-- Release order of the editions, as an index. -/
def GameVariant.idx : GameVariant → Nat
  | .hereticDawn => 0
  | .userPatch => 1
  | .definitiveEdition => 2
  | .laterEdition => 3

/-- The `variant >= DefinitiveEdition` comparison used by the decoder. -/
def variantGeDE (v : GameVariant) : Bool := GameVariant.definitiveEdition.idx ≤ v.idx

/-- Versioned reader context carried by `RecordingHeaderReader`: format
version, edition tag, and the match player count. -/
structure Ctx where
  version : Rat
  variant : GameVariant
  numPlayers : Nat

/-- A two-decimal format-version value: `ver 1055` is the version the source
writes as the float literal `10.55`.  (`mkRat` is used instead of a decimal
literal so that version comparisons are kernel-computable; the lemmas named
`ver_eq_*` below identify these values with the decimal literals.) -/
def ver (n : Nat) : Rat := mkRat n 100

/-- Read one byte (`read_u8`). -/
def readU8 (r : Rd) : Except Err (Nat × Rd) :=
  match r.data with
  | [] => .error .unexpectedEnd
  | b :: rest => .ok (b, ⟨r.pos + 1, rest⟩)

/-- Read `n` raw bytes into a buffer (`read_exact`). -/
def readBytes (n : Nat) (r : Rd) : Except Err (List Nat × Rd) :=
  if n ≤ r.data.length then .ok (r.data.take n, ⟨r.pos + n, r.data.drop n⟩)
  else .error .unexpectedEnd

/-- Read a little-endian 16-bit unsigned integer (`read_u16::<LE>`). -/
def readU16 (r : Rd) : Except Err (Nat × Rd) :=
  match r.data with
  | b0 :: b1 :: rest => .ok (b0 + 256 * b1, ⟨r.pos + 2, rest⟩)
  | _ => .error .unexpectedEnd

/-- Read a little-endian 32-bit unsigned integer (`read_u32::<LE>`). -/
def readU32 (r : Rd) : Except Err (Nat × Rd) :=
  match r.data with
  | b0 :: b1 :: b2 :: b3 :: rest =>
      .ok (b0 + 256 * b1 + 65536 * b2 + 16777216 * b3, ⟨r.pos + 4, rest⟩)
  | _ => .error .unexpectedEnd

/-- Two's-complement reading of an 8-bit word as a signed value. -/
def toI8 (b : Nat) : Int := if b < 128 then (b : Int) else (b : Int) - 256

/-- Two's-complement reading of a 16-bit word as a signed value. -/
def toI16 (w : Nat) : Int := if w < 32768 then (w : Int) else (w : Int) - 65536

/-- Two's-complement reading of a 32-bit word as a signed value. -/
def toI32 (w : Nat) : Int :=
  if w < 2147483648 then (w : Int) else (w : Int) - 4294967296

/-- Read a signed 8-bit integer (`read_i8`). -/
def readI8 (r : Rd) : Except Err (Int × Rd) :=
  (readU8 r).map (fun p => (toI8 p.1, p.2))

/-- Read a little-endian signed 16-bit integer (`read_i16::<LE>`). -/
def readI16 (r : Rd) : Except Err (Int × Rd) :=
  (readU16 r).map (fun p => (toI16 p.1, p.2))

/-- Read a little-endian signed 32-bit integer (`read_i32::<LE>`). -/
def readI32 (r : Rd) : Except Err (Int × Rd) :=
  (readU32 r).map (fun p => (toI32 p.1, p.2))

/-- Read a little-endian `f32` as its raw 32-bit word: the codec only
transports the bit pattern (`read_f32::<LE>`). -/
def readF32 (r : Rd) : Except Err (Nat × Rd) := readU32 r

/-- Modelled from the spec: the `skip(n)` primitive of `genie-support`'s
`ReadSkipExt` (not among the provided sources) "consumes and discards `n`
bytes" and "fails with `UnexpectedEnd` when the underlying source cannot
supply the requested bytes". -/
def skipN (n : Nat) (r : Rd) : Except Err Rd :=
  if n ≤ r.data.length then .ok ⟨r.pos + n, r.data.drop n⟩ else .error .unexpectedEnd

/-- Read `n` little-endian u16 values (`read_u16_into` into an `n`-buffer). -/
def readListU16 : Nat → Rd → Except Err (List Nat × Rd)
  | 0, r => .ok ([], r)
  | n + 1, r => do
    let (x, r) ← readU16 r
    let (xs, r) ← readListU16 n r
    .ok (x :: xs, r)

/-- Read `n` little-endian u32 values (`read_u32_into` into an `n`-buffer). -/
def readListU32 : Nat → Rd → Except Err (List Nat × Rd)
  | 0, r => .ok ([], r)
  | n + 1, r => do
    let (x, r) ← readU32 r
    let (xs, r) ← readListU32 n r
    .ok (x :: xs, r)

/-- Read `n` `f32` values as raw words (`read_f32_into` into an `n`-buffer). -/
def readListF32 : Nat → Rd → Except Err (List Nat × Rd)
  | 0, r => .ok ([], r)
  | n + 1, r => do
    let (x, r) ← readF32 r
    let (xs, r) ← readListF32 n r
    .ok (x :: xs, r)

/-- Read `n` signed 8-bit values (`read_i8_into` into an `n`-buffer). -/
def readListI8 : Nat → Rd → Except Err (List Int × Rd)
  | 0, r => .ok ([], r)
  | n + 1, r => do
    let (x, r) ← readI8 r
    let (xs, r) ← readListI8 n r
    .ok (x :: xs, r)

/-- Read `n` little-endian signed 16-bit values (`read_i16_into`). -/
def readListI16 : Nat → Rd → Except Err (List Int × Rd)
  | 0, r => .ok ([], r)
  | n + 1, r => do
    let (x, r) ← readI16 r
    let (xs, r) ← readListI16 n r
    .ok (x :: xs, r)

/-- Read `n` pairs of `f32` raw words (the saved-view pair loop). -/
def readPairsF32 : Nat → Rd → Except Err (List (Nat × Nat) × Rd)
  | 0, r => .ok ([], r)
  | n + 1, r => do
    let (x, r) ← readF32 r
    let (y, r) ← readF32 r
    let (xs, r) ← readPairsF32 n r
    .ok ((x, y) :: xs, r)

/-- Read `count` records with the element reader `f` (the `for` loops that
fill a preallocated vector element by element). -/
def readCount {α : Type} (f : Rd → Except Err (α × Rd)) : Nat → Rd → Except Err (List α × Rd)
  | 0, r => .ok ([], r)
  | n + 1, r => do
    let (x, r) ← f r
    let (xs, r) ← readCount f n r
    .ok (x :: xs, r)

/-- Modelled from the spec: `read_opt_u32` of `genie-support` (not among the
provided sources); "optional object ids are encoded as signed 32-bit with −1
meaning absent", i.e. the word `0xFFFFFFFF` decodes to `none`. -/
def readOptU32 (r : Rd) : Except Err (Option Nat × Rd) := do
  let (n, r) ← readU32 r
  .ok (if n = 4294967295 then none else some n, r)

/-- Modelled from the spec: `read_u16_length_prefixed_str` of `genie-support`
(not among the provided sources): a u16 length prefix followed by that many
UTF-8 bytes; "a zero length decodes to empty/absent".  The bytes are kept
raw. -/
def readU16LengthPrefixedStr (r : Rd) : Except Err (Option (List Nat) × Rd) := do
  let (len, r) ← readU16 r
  if len = 0 then .ok (none, r)
  else do
    let (s, r) ← readBytes len r
    .ok (some s, r)

/-- Modelled from the spec: `read_str(len)` of `genie-support` (not among the
provided sources): `len` UTF-8 bytes, zero length decoding to absent. -/
def readStr (len : Nat) (r : Rd) : Except Err (Option (List Nat) × Rd) :=
  if len = 0 then .ok (none, r)
  else do
    let (s, r) ← readBytes len r
    .ok (some s, r)

/-- Serialize a little-endian 16-bit unsigned integer (`write_u16::<LE>`). -/
def wU16 (n : Nat) : List Nat := [n % 256, n / 256 % 256]

/-- Serialize a little-endian 32-bit unsigned integer (`write_u32::<LE>`). -/
def wU32 (n : Nat) : List Nat :=
  [n % 256, n / 256 % 256, n / 65536 % 256, n / 16777216 % 256]

/-- Serialize a little-endian 32-bit signed integer (`write_i32::<LE>`). -/
def wI32 (i : Int) : List Nat := wU32 ((i.emod 4294967296).toNat)

/-- Serialize a signed 8-bit integer (`write_i8`). -/
def wI8 (i : Int) : List Nat := [(i.emod 256).toNat]

/-- The value fits in a signed 32-bit integer (the range of a Rust `i32`). -/
def inI32 (i : Int) : Prop := -2147483648 ≤ i ∧ i < 2147483648

/-- The value fits in a signed 8-bit integer (the range of a Rust `i8`). -/
def inI8 (i : Int) : Prop := -128 ≤ i ∧ i < 128

/-- Every entry of the list is a byte value. -/
def validBytes (l : List Nat) : Prop := ∀ b ∈ l, b < 256

instance (l : List Nat) : Decidable (validBytes l) :=
  inferInstanceAs (Decidable (∀ b ∈ l, b < 256))

/-! ## genie-dat: `color_table.rs` -/

/-- Player colour data (`ColorTable`): nine signed 32-bit fields. -/
structure ColorTable where
  id : Int
  base : Int
  unit_outline_color : Int
  unit_selection_colors : Int × Int
  minimap_colors : Int × Int × Int
  statistics_text_color : Int
deriving DecidableEq

/-- Decoder `ColorTable::from` (renamed `read_from`; `from` is reserved). -/
def ColorTable.read_from (r : Rd) : Except Err (ColorTable × Rd) := do
  let (id, r) ← readI32 r
  let (base, r) ← readI32 r
  let (unit_outline_color, r) ← readI32 r
  let (sel0, r) ← readI32 r
  let (sel1, r) ← readI32 r
  let (mini0, r) ← readI32 r
  let (mini1, r) ← readI32 r
  let (mini2, r) ← readI32 r
  let (statistics_text_color, r) ← readI32 r
  .ok ({ id, base, unit_outline_color, unit_selection_colors := (sel0, sel1),
         minimap_colors := (mini0, mini1, mini2), statistics_text_color }, r)

/-- Encoder `ColorTable::write_to`. -/
def ColorTable.write_to (c : ColorTable) : List Nat :=
  wI32 c.id ++ wI32 c.base ++ wI32 c.unit_outline_color ++
  wI32 c.unit_selection_colors.1 ++ wI32 c.unit_selection_colors.2 ++
  wI32 c.minimap_colors.1 ++ wI32 c.minimap_colors.2.1 ++ wI32 c.minimap_colors.2.2 ++
  wI32 c.statistics_text_color

/-- The well-formedness a Rust `ColorTable` value carries by typing: every
field is an `i32`. -/
def ColorTable.wf (c : ColorTable) : Prop :=
  inI32 c.id ∧ inI32 c.base ∧ inI32 c.unit_outline_color ∧
  inI32 c.unit_selection_colors.1 ∧ inI32 c.unit_selection_colors.2 ∧
  inI32 c.minimap_colors.1 ∧ inI32 c.minimap_colors.2.1 ∧ inI32 c.minimap_colors.2.2 ∧
  inI32 c.statistics_text_color

/-! ## genie-dat: `random_map.rs` -/

/-- `RandomMapLand`: land placement record with three in-record padding
holes (u16+u8, u16, u16) that the encoder writes as zero. -/
structure RandomMapLand where
  id : Int
  terrain_type : Nat
  land_avoidance_tiles : Int
  base_square_radius : Int
  zone : Int
  placement_type : Int
  x : Int
  y : Int
  amount_of_land_used_percent : Int
  by_player_flag : Int
  radius : Int
  fade : Int
  clumpiness_factor : Int
deriving DecidableEq

instance : Inhabited RandomMapLand := ⟨⟨0, 0, 0, 0, 0, 0, 0, 0, 0, 0, 0, 0, 0⟩⟩

/-- Decoder `RandomMapLand::from` (renamed `read_from`). -/
def RandomMapLand.read_from (r : Rd) : Except Err (RandomMapLand × Rd) := do
  let (id, r) ← readI32 r
  let (terrain_type, r) ← readU8 r
  let (_padding, r) ← readU16 r
  let (_padding, r) ← readU8 r
  let (land_avoidance_tiles, r) ← readI32 r
  let (base_square_radius, r) ← readI32 r
  let (zone, r) ← readI8 r
  let (placement_type, r) ← readI8 r
  let (_padding, r) ← readU16 r
  let (x, r) ← readI32 r
  let (y, r) ← readI32 r
  let (amount_of_land_used_percent, r) ← readI8 r
  let (by_player_flag, r) ← readI8 r
  let (_padding, r) ← readU16 r
  let (radius, r) ← readI32 r
  let (fade, r) ← readI32 r
  let (clumpiness_factor, r) ← readI32 r
  .ok ({ id, terrain_type, land_avoidance_tiles, base_square_radius, zone,
         placement_type, x, y, amount_of_land_used_percent, by_player_flag,
         radius, fade, clumpiness_factor }, r)

/-- Encoder `RandomMapLand::write_to`. -/
def RandomMapLand.write_to (l : RandomMapLand) : List Nat :=
  wI32 l.id ++ [l.terrain_type % 256] ++ wU16 0 ++ [0] ++
  wI32 l.land_avoidance_tiles ++ wI32 l.base_square_radius ++
  wI8 l.zone ++ wI8 l.placement_type ++ wU16 0 ++
  wI32 l.x ++ wI32 l.y ++
  wI8 l.amount_of_land_used_percent ++ wI8 l.by_player_flag ++ wU16 0 ++
  wI32 l.radius ++ wI32 l.fade ++ wI32 l.clumpiness_factor

/-- Typing-level well-formedness of a `RandomMapLand` value. -/
def RandomMapLand.wf (l : RandomMapLand) : Prop :=
  inI32 l.id ∧ l.terrain_type < 256 ∧ inI32 l.land_avoidance_tiles ∧
  inI32 l.base_square_radius ∧ inI8 l.zone ∧ inI8 l.placement_type ∧
  inI32 l.x ∧ inI32 l.y ∧ inI8 l.amount_of_land_used_percent ∧
  inI8 l.by_player_flag ∧ inI32 l.radius ∧ inI32 l.fade ∧ inI32 l.clumpiness_factor

/-- `RandomMapTerrain`: six signed 32-bit fields. -/
structure RandomMapTerrain where
  percent : Int
  terrain_type : Int
  clumps : Int
  spacing : Int
  base_terrain_type : Int
  clumpiness_factor : Int
deriving DecidableEq

instance : Inhabited RandomMapTerrain := ⟨⟨0, 0, 0, 0, 0, 0⟩⟩

/-- Decoder `RandomMapTerrain::from` (renamed `read_from`). -/
def RandomMapTerrain.read_from (r : Rd) : Except Err (RandomMapTerrain × Rd) := do
  let (percent, r) ← readI32 r
  let (terrain_type, r) ← readI32 r
  let (clumps, r) ← readI32 r
  let (spacing, r) ← readI32 r
  let (base_terrain_type, r) ← readI32 r
  let (clumpiness_factor, r) ← readI32 r
  .ok ({ percent, terrain_type, clumps, spacing, base_terrain_type,
         clumpiness_factor }, r)

/-- Encoder `RandomMapTerrain::write_to`. -/
def RandomMapTerrain.write_to (t : RandomMapTerrain) : List Nat :=
  wI32 t.percent ++ wI32 t.terrain_type ++ wI32 t.clumps ++ wI32 t.spacing ++
  wI32 t.base_terrain_type ++ wI32 t.clumpiness_factor

/-- Typing-level well-formedness of a `RandomMapTerrain` value. -/
def RandomMapTerrain.wf (t : RandomMapTerrain) : Prop :=
  inI32 t.percent ∧ inI32 t.terrain_type ∧ inI32 t.clumps ∧ inI32 t.spacing ∧
  inI32 t.base_terrain_type ∧ inI32 t.clumpiness_factor

/-- `RandomMapObject`.  The `unit_type` field is modelled from the spec as a
32-bit unit-type id (`UnitTypeID` lives in `unit_type.rs`, which is not among
the provided sources; the spec describes the field as "a unit-type id
(32-bit)"), so the source's `u32 → UnitTypeID` conversion is the identity. -/
structure RandomMapObject where
  unit_type : Nat
  terrain_type : Int
  group_flag : Int
  scale_flag : Int
  group_size : Int
  group_size_variance : Int
  group_count : Int
  group_area : Int
  player_id : Int
  land_id : Int
  min_distance_to_players : Int
  max_distance_to_players : Int
deriving DecidableEq

instance : Inhabited RandomMapObject := ⟨⟨0, 0, 0, 0, 0, 0, 0, 0, 0, 0, 0, 0⟩⟩

/-- Decoder `RandomMapObject::from` (renamed `read_from`). -/
def RandomMapObject.read_from (r : Rd) : Except Err (RandomMapObject × Rd) := do
  let (unit_type, r) ← readU32 r
  let (terrain_type, r) ← readI32 r
  let (group_flag, r) ← readI8 r
  let (scale_flag, r) ← readI8 r
  let (_padding, r) ← readU16 r
  let (group_size, r) ← readI32 r
  let (group_size_variance, r) ← readI32 r
  let (group_count, r) ← readI32 r
  let (group_area, r) ← readI32 r
  let (player_id, r) ← readI32 r
  let (land_id, r) ← readI32 r
  let (min_distance_to_players, r) ← readI32 r
  let (max_distance_to_players, r) ← readI32 r
  .ok ({ unit_type, terrain_type, group_flag, scale_flag, group_size,
         group_size_variance, group_count, group_area, player_id, land_id,
         min_distance_to_players, max_distance_to_players }, r)

/-- Encoder `RandomMapObject::write_to`. -/
def RandomMapObject.write_to (o : RandomMapObject) : List Nat :=
  wU32 o.unit_type ++ wI32 o.terrain_type ++ wI8 o.group_flag ++ wI8 o.scale_flag ++
  wU16 0 ++ wI32 o.group_size ++ wI32 o.group_size_variance ++ wI32 o.group_count ++
  wI32 o.group_area ++ wI32 o.player_id ++ wI32 o.land_id ++
  wI32 o.min_distance_to_players ++ wI32 o.max_distance_to_players

/-- Typing-level well-formedness of a `RandomMapObject` value. -/
def RandomMapObject.wf (o : RandomMapObject) : Prop :=
  o.unit_type < 4294967296 ∧ inI32 o.terrain_type ∧ inI8 o.group_flag ∧
  inI8 o.scale_flag ∧ inI32 o.group_size ∧ inI32 o.group_size_variance ∧
  inI32 o.group_count ∧ inI32 o.group_area ∧ inI32 o.player_id ∧
  inI32 o.land_id ∧ inI32 o.min_distance_to_players ∧ inI32 o.max_distance_to_players

/-- `RandomMapElevation`: six signed 32-bit fields. -/
structure RandomMapElevation where
  percent : Int
  height : Int
  clumps : Int
  spacing : Int
  base_terrain_type : Int
  base_elevation_type : Int
deriving DecidableEq

instance : Inhabited RandomMapElevation := ⟨⟨0, 0, 0, 0, 0, 0⟩⟩

/-- Decoder `RandomMapElevation::from` (renamed `read_from`).  The source
reads `percent` with `read_u32` and converts with `try_into().unwrap()` into
an `i32`, which panics when the word has its high bit set. -/
def RandomMapElevation.read_from (r : Rd) : Except Err (RandomMapElevation × Rd) := do
  let (pw, r) ← readU32 r
  if pw < 2147483648 then do
    let (height, r) ← readI32 r
    let (clumps, r) ← readI32 r
    let (spacing, r) ← readI32 r
    let (base_terrain_type, r) ← readI32 r
    let (base_elevation_type, r) ← readI32 r
    .ok ({ percent := (pw : Int), height, clumps, spacing, base_terrain_type,
           base_elevation_type }, r)
  else .error .panicAssert

/-- Encoder `RandomMapElevation::write_to`. -/
def RandomMapElevation.write_to (e : RandomMapElevation) : List Nat :=
  wI32 e.percent ++ wI32 e.height ++ wI32 e.clumps ++ wI32 e.spacing ++
  wI32 e.base_terrain_type ++ wI32 e.base_elevation_type

/-- Typing-level well-formedness of a `RandomMapElevation` value; the
decoder can only ever produce a non-negative `percent`. -/
def RandomMapElevation.wf (e : RandomMapElevation) : Prop :=
  0 ≤ e.percent ∧ e.percent < 2147483648 ∧ inI32 e.height ∧ inI32 e.clumps ∧
  inI32 e.spacing ∧ inI32 e.base_terrain_type ∧ inI32 e.base_elevation_type

/-- `RandomMapInfo`: header scalars plus the four child sequences. -/
structure RandomMapInfo where
  id : Int
  borders : Int × Int × Int × Int
  border_fade : Int
  water_border : Int
  base_terrain : Int
  land_percent : Int
  lands : List RandomMapLand
  terrains : List RandomMapTerrain
  objects : List RandomMapObject
  elevations : List RandomMapElevation
deriving DecidableEq

/-- Phase-1 decoder `RandomMapInfo::from` (renamed `read_from`): the nine
scalars, a discarded id, then four `(count, pointer)` pairs; each child
vector is preallocated to its declared length with default elements. -/
def RandomMapInfo.read_from (r : Rd) : Except Err (RandomMapInfo × Rd) := do
  let (id, r) ← readI32 r
  let (b0, r) ← readI32 r
  let (b1, r) ← readI32 r
  let (b2, r) ← readI32 r
  let (b3, r) ← readI32 r
  let (border_fade, r) ← readI32 r
  let (water_border, r) ← readI32 r
  let (base_terrain, r) ← readI32 r
  let (land_percent, r) ← readI32 r
  let (_some_id, r) ← readI32 r
  let (num_lands, r) ← readU32 r
  let (_pointer, r) ← readU32 r
  let (num_terrains, r) ← readU32 r
  let (_pointer, r) ← readU32 r
  let (num_objects, r) ← readU32 r
  let (_pointer, r) ← readU32 r
  let (num_elevations, r) ← readU32 r
  let (_pointer, r) ← readU32 r
  .ok ({ id, borders := (b0, b1, b2, b3), border_fade, water_border,
         base_terrain, land_percent,
         lands := List.replicate num_lands default,
         terrains := List.replicate num_terrains default,
         objects := List.replicate num_objects default,
         elevations := List.replicate num_elevations default }, r)

/-- The payload-phase skip: `std::io::copy(&mut input.by_ref().take(n),
&mut sink())` consumes up to `n` bytes and never fails on a short stream. -/
def skipUpTo (n : Nat) (r : Rd) : Except Err Rd :=
  .ok ⟨r.pos + min n r.data.length, r.data.drop n⟩

/-- Phase-2 decoder `RandomMapInfo::finish`: per-section duplicate-data skip
(44, 8, 8, 8 bytes) followed by the declared number of child records. -/
def RandomMapInfo.finish (v : RandomMapInfo) (r : Rd) : Except Err (RandomMapInfo × Rd) := do
  let r ← skipUpTo 44 r
  let (lands, r) ← readCount RandomMapLand.read_from v.lands.length r
  let r ← skipUpTo 8 r
  let (terrains, r) ← readCount RandomMapTerrain.read_from v.terrains.length r
  let r ← skipUpTo 8 r
  let (objects, r) ← readCount RandomMapObject.read_from v.objects.length r
  let r ← skipUpTo 8 r
  let (elevations, r) ← readCount RandomMapElevation.read_from v.elevations.length r
  .ok ({ v with lands, terrains, objects, elevations }, r)

/-- Header encoder `RandomMapInfo::write_to`: scalars, zero some-id, then
`(count, zero pointer)` pairs.  The length-to-u32 conversions wrap where the
source would panic past `u32::MAX`; theorems assume lengths below `2^32`. -/
def RandomMapInfo.write_to (v : RandomMapInfo) : List Nat :=
  wI32 v.id ++ wI32 v.borders.1 ++ wI32 v.borders.2.1 ++ wI32 v.borders.2.2.1 ++
  wI32 v.borders.2.2.2 ++ wI32 v.border_fade ++ wI32 v.water_border ++
  wI32 v.base_terrain ++ wI32 v.land_percent ++
  wI32 0 ++
  wU32 v.lands.length ++ wU32 0 ++
  wU32 v.terrains.length ++ wU32 0 ++
  wU32 v.objects.length ++ wU32 0 ++
  wU32 v.elevations.length ++ wU32 0

/-- Commands encoder `RandomMapInfo::write_commands_to`: the eight scalars
(without the id), a zero word, then for each of the four sections its count,
a zero pointer, and the section payload. -/
def RandomMapInfo.write_commands_to (v : RandomMapInfo) : List Nat :=
  wI32 v.borders.1 ++ wI32 v.borders.2.1 ++ wI32 v.borders.2.2.1 ++
  wI32 v.borders.2.2.2 ++ wI32 v.border_fade ++ wI32 v.water_border ++
  wI32 v.base_terrain ++ wI32 v.land_percent ++ wU32 0 ++
  wU32 v.lands.length ++ wU32 0 ++ (v.lands.map RandomMapLand.write_to).flatten ++
  wU32 v.terrains.length ++ wU32 0 ++ (v.terrains.map RandomMapTerrain.write_to).flatten ++
  wU32 v.objects.length ++ wU32 0 ++ (v.objects.map RandomMapObject.write_to).flatten ++
  wU32 v.elevations.length ++ wU32 0 ++ (v.elevations.map RandomMapElevation.write_to).flatten

/-- Typing-level well-formedness of a `RandomMapInfo` value. -/
def RandomMapInfo.wf (v : RandomMapInfo) : Prop :=
  inI32 v.id ∧ inI32 v.borders.1 ∧ inI32 v.borders.2.1 ∧ inI32 v.borders.2.2.1 ∧
  inI32 v.borders.2.2.2 ∧ inI32 v.border_fade ∧ inI32 v.water_border ∧
  inI32 v.base_terrain ∧ inI32 v.land_percent ∧
  v.lands.length < 4294967296 ∧ v.terrains.length < 4294967296 ∧
  v.objects.length < 4294967296 ∧ v.elevations.length < 4294967296 ∧
  (∀ l ∈ v.lands, l.wf) ∧ (∀ t ∈ v.terrains, t.wf) ∧
  (∀ o ∈ v.objects, o.wf) ∧ (∀ e ∈ v.elevations, e.wf)

/-! ## genie-rec: `player.rs` sub-records -/

/-- `GaiaCreature`: two `f32` words and a u32. -/
structure GaiaCreature where
  growth_rate : Nat
  remainder : Nat
  max : Nat
deriving DecidableEq

instance : Inhabited GaiaCreature := ⟨⟨0, 0, 0⟩⟩

/-- Decoder `GaiaCreature::read_from`. -/
def GaiaCreature.read_from (r : Rd) : Except Err (GaiaCreature × Rd) := do
  let (growth_rate, r) ← readF32 r
  let (remainder, r) ← readF32 r
  let (max, r) ← readU32 r
  .ok ({ growth_rate, remainder, max }, r)

/-- Encoder `GaiaCreature::write_to`. -/
def GaiaCreature.write_to (c : GaiaCreature) : List Nat :=
  wU32 c.growth_rate ++ wU32 c.remainder ++ wU32 c.max

/-- Typing-level well-formedness of a `GaiaCreature` value. -/
def GaiaCreature.wf (c : GaiaCreature) : Prop :=
  c.growth_rate < 4294967296 ∧ c.remainder < 4294967296 ∧ c.max < 4294967296

/-- `GaiaWolfInfo`: a u32 id and an `f32` word. -/
structure GaiaWolfInfo where
  id : Nat
  distance : Nat
deriving DecidableEq

instance : Inhabited GaiaWolfInfo := ⟨⟨0, 0⟩⟩

/-- Decoder `GaiaWolfInfo::read_from`. -/
def GaiaWolfInfo.read_from (r : Rd) : Except Err (GaiaWolfInfo × Rd) := do
  let (id, r) ← readU32 r
  let (distance, r) ← readF32 r
  .ok ({ id, distance }, r)

/-- Encoder `GaiaWolfInfo::write_to`. -/
def GaiaWolfInfo.write_to (w : GaiaWolfInfo) : List Nat :=
  wU32 w.id ++ wU32 w.distance

/-- Typing-level well-formedness of a `GaiaWolfInfo` value. -/
def GaiaWolfInfo.wf (w : GaiaWolfInfo) : Prop :=
  w.id < 4294967296 ∧ w.distance < 4294967296

/-- `GaiaData`: the neutral-player record read when `player_type == 2`. -/
structure GaiaData where
  update_time : Nat
  update_nature : Nat
  creatures : List GaiaCreature
  next_wolf_attack_update_time : Nat
  wolf_attack_update_interval : Nat
  wolf_attack_stop_time : Nat
  min_villager_distance : Nat
  tc_positions : List (Nat × Nat)
  wolf_current_player : Nat
  wolf_current_villagers : List Nat
  wolf_current_villager : Option Nat
  wolf_villager_count : Nat
  wolves : List GaiaWolfInfo
  current_wolf : Option Nat
  wolf_counts : List Nat
deriving DecidableEq

/-- Decoder `GaiaData::read_from`.  The source fills the x components of the
nine town-centre positions first and then the y components; the model zips
the two passes into pairs. -/
def GaiaData.read_from (r : Rd) : Except Err (GaiaData × Rd) := do
  let (update_time, r) ← readU32 r
  let (update_nature, r) ← readU32 r
  let (creatures, r) ← readCount GaiaCreature.read_from 5 r
  let (next_wolf_attack_update_time, r) ← readU32 r
  let (wolf_attack_update_interval, r) ← readU32 r
  let (wolf_attack_stop_time, r) ← readU32 r
  let (min_villager_distance, r) ← readF32 r
  let (tcx, r) ← readListF32 9 r
  let (tcy, r) ← readListF32 9 r
  let (wolf_current_player, r) ← readU32 r
  let (wolf_current_villagers, r) ← readListU32 10 r
  let (wolf_current_villager, r) ← readOptU32 r
  let (wolf_villager_count, r) ← readU32 r
  let (wolves, r) ← readCount GaiaWolfInfo.read_from 25 r
  let (current_wolf, r) ← readOptU32 r
  let (wolf_counts, r) ← readListU32 10 r
  .ok ({ update_time, update_nature, creatures, next_wolf_attack_update_time,
         wolf_attack_update_interval, wolf_attack_stop_time,
         min_villager_distance, tc_positions := tcx.zip tcy,
         wolf_current_player, wolf_current_villagers, wolf_current_villager,
         wolf_villager_count, wolves, current_wolf, wolf_counts }, r)

/-- `DiplomacyOffer`: fixed fields plus a u8-length-prefixed message. -/
structure DiplomacyOffer where
  sequence : Nat
  started_by : Nat
  actual_time : Nat
  game_time : Nat
  declare : Nat
  old_diplomacy : Nat
  new_diplomacy : Nat
  old_intelligence : Nat
  new_intelligence : Nat
  old_trade : Nat
  new_trade : Nat
  demand : Nat
  gold : Nat
  message : Option (List Nat)
  status : Nat
deriving DecidableEq

/-- Decoder `DiplomacyOffer::read_from` (`actual_time` is set to 0, not
read, exactly as in the source). -/
def DiplomacyOffer.read_from (r : Rd) : Except Err (DiplomacyOffer × Rd) := do
  let (sequence, r) ← readU8 r
  let (started_by, r) ← readU8 r
  let (game_time, r) ← readU32 r
  let (declare, r) ← readU8 r
  let (old_diplomacy, r) ← readU8 r
  let (new_diplomacy, r) ← readU8 r
  let (old_intelligence, r) ← readU8 r
  let (new_intelligence, r) ← readU8 r
  let (old_trade, r) ← readU8 r
  let (new_trade, r) ← readU8 r
  let (demand, r) ← readU8 r
  let (gold, r) ← readU32 r
  let (message_len, r) ← readU8 r
  let (message, r) ← readStr message_len r
  let (status, r) ← readU8 r
  .ok ({ sequence, started_by, actual_time := 0, game_time, declare,
         old_diplomacy, new_diplomacy, old_intelligence, new_intelligence,
         old_trade, new_trade, demand, gold, message, status }, r)

/-- `HistoryEntry`: civilian and military population counts. -/
structure HistoryEntry where
  civilian_population : Nat
  military_population : Nat
deriving DecidableEq

/-- Decoder `HistoryEntry::read_from`. -/
def HistoryEntry.read_from (r : Rd) : Except Err (HistoryEntry × Rd) := do
  let (civilian_population, r) ← readU16 r
  let (military_population, r) ← readU16 r
  .ok ({ civilian_population, military_population }, r)

/-- `HistoryEvent`: event type, two times, three `f32` parameters. -/
structure HistoryEvent where
  event_type : Int
  time_slice : Nat
  world_time : Nat
  params : Nat × Nat × Nat
deriving DecidableEq

/-- Decoder `HistoryEvent::read_from`. -/
def HistoryEvent.read_from (r : Rd) : Except Err (HistoryEvent × Rd) := do
  let (event_type, r) ← readI8 r
  let (time_slice, r) ← readU32 r
  let (world_time, r) ← readU32 r
  let (p0, r) ← readF32 r
  let (p1, r) ← readF32 r
  let (p2, r) ← readF32 r
  .ok ({ event_type, time_slice, world_time, params := (p0, p1, p2) }, r)

/-- `HistoryInfo`: the retained entries and events. -/
structure HistoryInfo where
  entries : List HistoryEntry
  events : List HistoryEvent
deriving DecidableEq

/-- Decoder `HistoryInfo::read_from`: header counts, the entries, a stored
discriminator byte, the events, and the discarded statistics bank
(17 i32, four 8-element arrays, three i32, two i16, one padding byte). -/
def HistoryInfo.read_from (r : Rd) : Except Err (HistoryInfo × Rd) := do
  let (num_entries, r) ← readU32 r
  let (_num_events, r) ← readU32 r
  let (_entries_capacity, r) ← readU32 r
  let (entries, r) ← readCount HistoryEntry.read_from num_entries r
  let (_value, r) ← readU8 r
  let (num_events, r) ← readU32 r
  let (events, r) ← readCount HistoryEvent.read_from num_events r
  let (_stats, r) ← readListU32 17 r
  let (_old_kills, r) ← readListU16 8 r
  let (_old_kill_bvs, r) ← readListU32 8 r
  let (_old_razings, r) ← readListU16 8 r
  let (_old_razing_bvs, r) ← readListU32 8 r
  let (_running_average_bv_percent, r) ← readU32 r
  let (_running_total_bv_kills, r) ← readU32 r
  let (_running_total_bv_razings, r) ← readU32 r
  let (_running_total_kills, r) ← readU16 r
  let (_running_total_razings, r) ← readU16 r
  let (_padding, r) ← readU8 r
  .ok ({ entries, events }, r)

/-- `TechState`: progress word, state, three modifiers, time modifier. -/
structure TechState where
  progress : Nat
  state : Int
  modifiers : Int × Int × Int
  time_modifier : Int
deriving DecidableEq

/-- Decoder `TechState::read_from`; on `DefinitiveEdition` and later there
is an extra 15-byte skip. -/
def TechState.read_from (c : Ctx) (r : Rd) : Except Err (TechState × Rd) := do
  let (progress, r) ← readF32 r
  let (state, r) ← readI16 r
  let (m0, r) ← readI16 r
  let (m1, r) ← readI16 r
  let (m2, r) ← readI16 r
  let (time_modifier, r) ← readI16 r
  let r ← (if variantGeDE c.variant then skipN 15 r else .ok r)
  .ok ({ progress, state, modifiers := (m0, m1, m2), time_modifier }, r)

/-- `PlayerTech`: a u16 count followed by that many `TechState` records. -/
structure PlayerTech where
  tech_states : List TechState
deriving DecidableEq

/-- Decoder `PlayerTech::read_from`. -/
def PlayerTech.read_from (c : Ctx) (r : Rd) : Except Err (PlayerTech × Rd) := do
  let (num_techs, r) ← readU16 r
  let (tech_states, r) ← readCount (TechState.read_from c) num_techs r
  .ok ({ tech_states }, r)

/-- `UserPatchData`: the payload is consumed and discarded, so the record
retains nothing. -/
structure UserPatchData where
deriving DecidableEq

/-- Decoder `UserPatchData::read_from`: 4080 opaque bytes, 900 u16 category
priorities, 100 u16 group priorities, 2096 further opaque bytes. -/
def UserPatchData.read_from (r : Rd) : Except Err (UserPatchData × Rd) := do
  let (_bytes, r) ← readBytes 4080 r
  let (_category_priorities, r) ← readListU16 900 r
  let (_group_priorities, r) ← readListU16 100 r
  let (_bytes, r) ← readBytes 2096 r
  .ok ({}, r)

/-- `VisibleMap`: explored-tile map of one player. -/
structure VisibleMap where
  width : Nat
  height : Nat
  explored_tiles_count : Nat
  player_id : Nat
  tiles : List Int
deriving DecidableEq

/-- Decoder `VisibleMap::read_from`.  The tile count is the wrapping u32
product `width * height`; on `DefinitiveEdition` and later the tiles are
signed 16-bit, otherwise signed 8-bit widened to 16-bit.  The `player_id`
is kept as the raw u16 (the `PlayerID` newtype lives outside the provided
sources; the spec calls the field "a 16-bit player id"). -/
def VisibleMap.read_from (c : Ctx) (r : Rd) : Except Err (VisibleMap × Rd) := do
  let (width, r) ← readU32 r
  let (height, r) ← readU32 r
  let (explored_tiles_count, r) ←
    (if ver 670 ≤ c.version then readU32 r else .ok (0, r))
  let (player_id, r) ← readU16 r
  let (tiles, r) ←
    (if variantGeDE c.variant then readListI16 (width * height % 4294967296) r
     else readListI8 (width * height % 4294967296) r)
  .ok ({ width, height, explored_tiles_count, player_id, tiles }, r)

/-- `VisibleResource`: one sighted-resource record. -/
structure VisibleResource where
  object_id : Nat
  distance : Nat
  zone : Int
  location : Nat × Nat
deriving DecidableEq

/-- Decoder `VisibleResource::read_from`. -/
def VisibleResource.read_from (r : Rd) : Except Err (VisibleResource × Rd) := do
  let (object_id, r) ← readU32 r
  let (distance, r) ← readU8 r
  let (zone, r) ← readI8 r
  let (loc0, r) ← readU8 r
  let (loc1, r) ← readU8 r
  .ok ({ object_id, distance, zone, location := (loc0, loc1) }, r)

/-- `VisibleResources`: a list count, per-list capacity and size headers,
then the per-list payloads. -/
structure VisibleResources where
  lists : List (List VisibleResource)
deriving DecidableEq

/-- Reader for the `(capacity, size)` header pair of one list. -/
def readVisResSize (r : Rd) : Except Err (Nat × Rd) := do
  let (_capacity, r) ← readU32 r
  let (size, r) ← readU32 r
  .ok (size, r)

/-- Reader folding the per-list payload phase of `VisibleResources`. -/
def readVisResLists : List Nat → Rd → Except Err (List (List VisibleResource) × Rd)
  | [], r => .ok ([], r)
  | size :: sizes, r => do
    let (list, r) ← readCount VisibleResource.read_from size r
    let (lists, r) ← readVisResLists sizes r
    .ok (list :: lists, r)

/-- Decoder `VisibleResources::read_from`. -/
def VisibleResources.read_from (r : Rd) : Except Err (VisibleResources × Rd) := do
  let (num_lists, r) ← readU32 r
  let (sizes, r) ← readCount readVisResSize num_lists r
  let (lists, r) ← readVisResLists sizes r
  .ok ({ lists }, r)

/-! ## genie-rec: marker discipline and version-gated field groups -/

/-- The scan loop inside the `assert_marker!` macro: after a mismatch it
keeps reading bytes, counting them in `skipped`, until the expected marker
value is observed (or the stream ends). -/
def scanForAux (marker : Nat) : Nat → Nat → List Nat → Except Err (Nat × Rd)
  | _, _, [] => .error .unexpectedEnd
  | skipped, pos, b :: rest =>
    if b = marker then .ok (skipped, ⟨pos + 1, rest⟩)
    else scanForAux marker (skipped + 1) (pos + 1) rest

/-- The `assert_marker!(input, marker)` macro: read one byte; on mismatch,
scan forward to the marker and return `HeaderError(position - skipped,
MissingMarker(version, expected, found, skipped))`. -/
def assertMarker (version : Rat) (marker : Nat) (r : Rd) : Except Err Rd :=
  match readU8 r with
  | .error e => .error e
  | .ok (found, r1) =>
    if found = marker then .ok r1
    else
      match scanForAux marker 1 r1.pos r1.data with
      | .error e => .error e
      | .ok (skipped, r2) =>
        .error (.headerError (r2.pos - skipped)
          (.missingMarker version marker found skipped))

/-- An `assert_marker!` guarded by `if input.version() >= threshold`. -/
def assertMarkerIf (threshold : Rat) (c : Ctx) (marker : Nat) (r : Rd) : Except Err Rd :=
  if threshold ≤ c.version then assertMarker c.version marker r else .ok r

/-- The `assert_eq!(input.read_u8()?, marker)` joints guarded by
`version >= 10.55`: a mismatch is a Rust panic, not an error return. -/
def assertEqMarkerIf (c : Ctx) (marker : Nat) (r : Rd) : Except Err Rd :=
  if ver 1055 ≤ c.version then
    match readU8 r with
    | .error e => .error e
    | .ok (found, r1) => if found = marker then .ok r1 else .error .panicAssert
  else .ok r

/-- The duplicate attribute block skipped on `DefinitiveEdition` and later:
`skip(num_attributes * 4)`, a wrapping u32 multiplication. -/
def skipAttrDup (c : Ctx) (numAttributes : Nat) (r : Rd) : Except Err Rd :=
  if variantGeDE c.variant then skipN (numAttributes * 4 % 4294967296) r else .ok r

/-- Saved views (version ≥ 11.62): a signed count, clamped to zero via
`try_into().unwrap_or(0)`, then that many `f32` pairs. -/
def readSavedViews (c : Ctx) (r : Rd) : Except Err (List (Nat × Nat) × Rd) :=
  if ver 1162 ≤ c.version then do
    let (num_saved_views, r) ← readI32 r
    readPairsF32 (if num_saved_views < 0 then 0 else num_saved_views.toNat) r
  else .ok ([], r)

/-- The per-version widths of the unit-count sparse vectors:
`(900, 100)` at ≥ 11.65, `(850, 100)` at ≥ 11.51, `(750, 100)` before. -/
def unitCountWidths (v : Rat) : Nat × Nat :=
  if ver 1165 ≤ v then (900, 100)
  else if ver 1151 ≤ v then (850, 100)
  else (750, 100)

/-- The unit-count block: four u16 sparse vectors with widths `(a, b, a, b)`
followed by four u16 totals (all discarded). -/
def readUnitCounts (c : Ctx) (r : Rd) : Except Err Rd := do
  let (_object_categories_count, r) ← readListU16 (unitCountWidths c.version).1 r
  let (_object_groups_count, r) ← readListU16 (unitCountWidths c.version).2 r
  let (_built_object_categories_count, r) ← readListU16 (unitCountWidths c.version).1 r
  let (_built_object_groups_count, r) ← readListU16 (unitCountWidths c.version).2 r
  let (_total_units_count, r) ← readU16 r
  let (_total_buildings_count, r) ← readU16 r
  let (_built_units_count, r) ← readU16 r
  let (_built_buildings_count, r) ← readU16 r
  .ok r

/-- The formations group: five u32, one `f32`, plus one more `f32` at
version ≥ 10.81. -/
def readFormations (c : Ctx) (r : Rd) : Except Err Rd := do
  let (_words, r) ← readListU32 5 r
  let (_formations_influence_distance, r) ← readF32 r
  let r ← (if ver 1081 ≤ c.version then (readF32 r).map (fun p => p.2) else .ok r)
  .ok r

/-- The escrow group: pending debits, amounts and percents, 12 `f32`. -/
def readEscrow (r : Rd) : Except Err Rd := do
  let (_words, r) ← readListF32 12 r
  .ok r

/-- The view-scrolling group (version ≥ 10.51): eight `f32`. -/
def readViewScroll (c : Ctx) (r : Rd) : Except Err Rd :=
  if ver 1051 ≤ c.version then do
    let (_words, r) ← readListF32 8 r
    .ok r
  else .ok r

/-- The AI-state group (version ≥ 11.45): two `f32` and a byte. -/
def readAIReactions (c : Ctx) (r : Rd) : Except Err Rd :=
  if ver 1145 ≤ c.version then do
    let (_easiest_reaction_percent, r) ← readF32 r
    let (_easier_reaction_percent, r) ← readF32 r
    let (_task_ungrouped_soldiers, r) ← readU8 r
    .ok r
  else .ok r

/-- The selected-units group (version ≥ 11.72): a count and, when it is
positive, an object id, a property word and the selected ids. -/
def readSelectedUnits (c : Ctx) (r : Rd) : Except Err Rd :=
  if ver 1172 ≤ c.version then do
    let (num_selections, r) ← readU32 r
    if 0 < num_selections then do
      let (_object_id, r) ← readU32 r
      let (_object_properties, r) ← readU32 r
      let (_selected_ids, r) ← readListU32 num_selections r
      .ok r
    else .ok r
  else .ok r

/-- Modelled from the spec: the `DesyncRecovered{skipped}` diagnostic of the
error-handling design ("resync consumed bytes before a marker … surfaced as
a warning in a diagnostic channel").  The `player.rs` resync loop never
emits it; the decoder's diagnostic output is therefore always empty. -/
inductive Diag where
  | desyncRecovered (skipped : Nat)
deriving DecidableEq

/-- The version-dependent pre-skip of the definitive-edition resync:
32435, +8 at ≥ 13.00, +1 at ≥ 13.07, +5 at ≥ 13.13, +4 at ≥ 13.34. -/
def deResyncPreSkip (v : Rat) : Nat :=
  32435 + (if ver 1300 ≤ v then 8 else 0) + (if ver 1307 ≤ v then 1 else 0) +
  (if ver 1313 ≤ v then 5 else 0) + (if ver 1334 ≤ v then 4 else 0)

/-- The resync scan: consume bytes until two consecutive bytes of value 11
are read (the `loop` with `first`/`second` in the source). -/
def scanDoubleMarker : Nat → List Nat → Except Err Rd
  | _, [] => .error .unexpectedEnd
  | pos, b :: rest =>
    if b = 11 then
      match rest with
      | [] => .error .unexpectedEnd
      | b2 :: rest2 =>
        if b2 = 11 then .ok ⟨pos + 2, rest2⟩ else scanDoubleMarker (pos + 2) rest2
    else scanDoubleMarker (pos + 1) rest
termination_by _ l => l.length

/-- The resync-or-strict joint after the selection group: on exactly
`DefinitiveEdition` the pre-skip followed by the double-11 scan, otherwise
(at version ≥ 10.55) a strict pair of 11 markers.  The diagnostic list is
the decoder's `DesyncRecovered` output channel; the source emits nothing
into it. -/
def deResyncBlock (c : Ctx) (r : Rd) : Except Err (List Diag × Rd) :=
  if c.variant = .definitiveEdition then do
    let r ← skipN (deResyncPreSkip c.version) r
    let r ← scanDoubleMarker r.pos r.data
    .ok ([], r)
  else if ver 1055 ≤ c.version then do
    let r ← assertMarker c.version 11 r
    let r ← assertMarker c.version 11 r
    .ok ([], r)
  else .ok ([], r)

/-- The ai-attack-data group (version ≥ 10.02). -/
def readAIAttackData (c : Ctx) (r : Rd) : Except Err Rd :=
  if ver 1002 ≤ c.version then do
    let (_alerted_enemy_count, r) ← readU32 r
    let (_regular_attack_count, r) ← readU32 r
    let (_regular_attack_mode, r) ← readU8 r
    let (_rloc, r) ← readPairsF32 1 r
    let (_town_attack_count, r) ← readU32 r
    let (_town_attack_mode, r) ← readU8 r
    let (_tloc, r) ← readPairsF32 1 r
    .ok r
  else .ok r

/-- Modelled from the spec: `genie_support::f32_eq!` (not among the provided
sources) is "an equality-with-epsilon comparison … used for the single
UserPatch discriminator version 11.97", with the `f32` machine epsilon
`2^-23 = 1/8388608`.  The comparison `|a - b| < 1/8388608` is expressed by
cross-multiplication over the numerators and denominators so that it is
kernel-computable; `f32Eq_iff_abs_lt` below proves the two forms equal. -/
def f32Eq (a b : Rat) : Bool :=
  (a.num * b.den - b.num * a.den).natAbs * 8388608 < a.den * b.den

/-- The UserPatch gate: `UserPatchData` is read exactly when
`f32_eq!(version, 11.97)` holds. -/
def readUserPatchGate (c : Ctx) (r : Rd) : Except Err (Option UserPatchData × Rd) :=
  if f32Eq c.version (ver 1197) then
    (UserPatchData.read_from r).map (fun p => (some p.1, p.2))
  else .ok (none, r)

/-- The objectives group (version ≥ 5.30): ruin and artifact held times. -/
def readObjectives (c : Ctx) (r : Rd) : Except Err Rd :=
  if ver 530 ≤ c.version then do
    let (_ruin_held_time, r) ← readU32 r
    let (_artifact_held_time, r) ← readU32 r
    .ok r
  else .ok r

/-- One iteration of the diplomacy-detail loop: three bytes plus an offer. -/
def readDiplomacyDetailOne (r : Rd) : Except Err (DiplomacyOffer × Rd) := do
  let (_diplomacy, r) ← readU8 r
  let (_intelligence, r) ← readU8 r
  let (_trade, r) ← readU8 r
  DiplomacyOffer.read_from r

/-- The diplomacy-detail group (version ≥ 9.13): nine iterations of the
per-player loop followed by the fealty word. -/
def readDiplomacyDetail (c : Ctx) (r : Rd) : Except Err Rd :=
  if ver 913 ≤ c.version then do
    let (_offers, r) ← readCount readDiplomacyDetailOne 9 r
    let (_fealty, r) ← readU16 r
    .ok r
  else .ok r

/-- The off-map-trade group: a 20-byte array at ≥ 9.17 and another at ≥ 9.18. -/
def readOffMapTrade (c : Ctx) (r : Rd) : Except Err Rd := do
  let r ← (if ver 917 ≤ c.version then (readBytes 20 r).map (fun p => p.2) else .ok r)
  let r ← (if ver 918 ≤ c.version then (readBytes 20 r).map (fun p => p.2) else .ok r)
  .ok r

/-- The market-trading group (version ≥ 9.22): eleven 32-bit fields. -/
def readMarketTrading (c : Ctx) (r : Rd) : Except Err Rd :=
  if ver 922 ≤ c.version then do
    let (_words, r) ← readListU32 11 r
    .ok r
  else .ok r

/-- The production-queue flag (version ≥ 9.67). -/
def readProdQueue (c : Ctx) (r : Rd) : Except Err Rd :=
  if ver 967 ≤ c.version then (readU8 r).map (fun p => p.2) else .ok r

/-- The ai-dodging group (version ≥ 9.90): two bytes. -/
def readDodging (c : Ctx) (r : Rd) : Except Err Rd :=
  if ver 990 ≤ c.version then do
    let (_chance_to_dodge_missiles, r) ← readU8 r
    let (_chance_for_archers_to_maintain_distance, r) ← readU8 r
    .ok r
  else .ok r

/-- The late counters: open-gates (≥ 11.42), farm-queue (≥ 11.57) and
nomad-build-lock (≥ 11.75) words. -/
def readLateCounters (c : Ctx) (r : Rd) : Except Err Rd := do
  let r ← (if ver 1142 ≤ c.version then (readU32 r).map (fun p => p.2) else .ok r)
  let r ← (if ver 1157 ≤ c.version then (readU32 r).map (fun p => p.2) else .ok r)
  let r ← (if ver 1175 ≤ c.version then (readU32 r).map (fun p => p.2) else .ok r)
  .ok r

/-- The statistics groups: six u32 at ≥ 9.30, two at ≥ 9.31, nine at ≥ 9.32. -/
def readStatistics (c : Ctx) (r : Rd) : Except Err Rd := do
  let r ← (if ver 930 ≤ c.version then (readListU32 6 r).map (fun p => p.2) else .ok r)
  let r ← (if ver 931 ≤ c.version then (readListU32 2 r).map (fun p => p.2) else .ok r)
  let r ← (if ver 932 ≤ c.version then (readListU32 9 r).map (fun p => p.2) else .ok r)
  .ok r

/-- The 11-byte pad skipped on `DefinitiveEdition` and later, before the
tech tree. -/
def readDEPadEleven (c : Ctx) (r : Rd) : Except Err Rd :=
  if variantGeDE c.variant then skipN 11 r else .ok r

/-- The pads skipped on `DefinitiveEdition` and later after the tech tree:
4 bytes, plus 4 further bytes when `player_type ≠ 2`. -/
def readDEPadFour (c : Ctx) (playerType : Nat) (r : Rd) : Except Err Rd :=
  if variantGeDE c.variant then do
    let r ← skipN 4 r
    if playerType ≠ 2 then skipN 4 r else .ok r
  else .ok r

/-- The gaia gate: `GaiaData` is read exactly when `player_type == 2`. -/
def readGaiaGate (playerType : Nat) (r : Rd) : Except Err (Option GaiaData × Rd) :=
  if playerType = 2 then (GaiaData.read_from r).map (fun p => (some p.1, p.2))
  else .ok (none, r)

/-! ## genie-rec: peer codecs and the `Player` entity -/

/-- The peer codecs invoked by the player decoder (`CompactUnitType`,
`TechTree`, `PlayerAI`, `Unit`), treated as opaque callables per the spec's
external-interface section; their sources are in other crates/modules.
`Unit::read_from` returns `none` to signal end-of-list, and must consume
input when it yields a unit (the Rust reader always advances on success),
which the `unit_consumes` field records so that the read loop terminates. -/
structure Peers (TT CU AI UN : Type) where
  techTree : Rd → Except Err (TT × Rd)
  compactUnitType : Rd → Except Err (CU × Rd)
  playerAI : Rd → Except Err (AI × Rd)
  unit : Rd → Except Err (Option UN × Rd)
  unit_consumes : ∀ r u r', unit r = .ok (some u, r') → r'.data.length < r.data.length

/-- The tech-tree gate: the peer decoder runs at version ≥ 9.38. -/
def readTechTreeGate {TT CU AI UN : Type} (P : Peers TT CU AI UN) (c : Ctx) (r : Rd) :
    Except Err (Option TT × Rd) :=
  if ver 938 ≤ c.version then (P.techTree r).map (fun p => (some p.1, p.2))
  else .ok (none, r)

/-- The player-ai gate: `player.player_type == 3 && input.read_u32()? == 1`;
the probe word is read only when the short-circuiting first conjunct holds. -/
def readPlayerAIGuard {TT CU AI UN : Type} (P : Peers TT CU AI UN) (playerType : Nat)
    (r : Rd) : Except Err (Option AI × Rd) :=
  if playerType = 3 then do
    let (probe, r) ← readU32 r
    if probe = 1 then (P.playerAI r).map (fun p => (some p.1, p.2))
    else .ok (none, r)
  else .ok (none, r)

/-- The per-entry loop of the unit-types block: absent mask entries push
`none`; present ones read a `CompactUnitType` bracketed by the 22 and 33
markers at version ≥ 10.55. -/
def readUnitTypesLoop {TT CU AI UN : Type} (P : Peers TT CU AI UN) (c : Ctx) :
    List Bool → Rd → Except Err (List (Option CU) × Rd)
  | [], r => .ok ([], r)
  | false :: ms, r =>
    (readUnitTypesLoop P c ms r).map (fun p => (none :: p.1, p.2))
  | true :: ms, r => do
    let r ← assertMarkerIf (ver 1055) c 22 r
    let (ty, r) ← P.compactUnitType r
    let r ← assertMarkerIf (ver 1055) c 33 r
    let (rest, r) ← readUnitTypesLoop P c ms r
    .ok (some ty :: rest, r)

/-- The unit-types block: availability-mask count and words, the 11 marker,
then the per-entry loop. -/
def readUnitTypesBlock {TT CU AI UN : Type} (P : Peers TT CU AI UN) (c : Ctx) (r : Rd) :
    Except Err (List (Option CU) × Rd) := do
  let (num_unit_types, r) ← readU32 r
  let (mask_words, r) ← readListU32 num_unit_types r
  let r ← assertMarkerIf (ver 1055) c 11 r
  readUnitTypesLoop P c (mask_words.map (fun w => w != 0)) r

/-- The unit-list loop: `Unit::read_from` until it yields absent. -/
def readUnits {TT CU AI UN : Type} (P : Peers TT CU AI UN) (r : Rd) :
    Except Err (List UN × Rd) :=
  match h : P.unit r with
  | .error e => .error e
  | .ok (none, r') => .ok ([], r')
  | .ok (some u, r') =>
    match readUnits P r' with
    | .error e => .error e
    | .ok (units, r'') => .ok (u :: units, r'')
termination_by r.data.length
decreasing_by exact P.unit_consumes r u r' h

/-- One unit list: discarded size and grow-size words, then the loop. -/
def readUnitList {TT CU AI UN : Type} (P : Peers TT CU AI UN) (r : Rd) :
    Except Err (List UN × Rd) := do
  let (_list_size, r) ← readU32 r
  let (_grow_size, r) ← readU32 r
  readUnits P r

/-- The decoded `Player` entity.  The `victory` field of the source is set
only by the separate `Player::read_info` entry point, never by `read_from`,
and is omitted. -/
structure Player (TT CU UN : Type) where
  player_type : Nat
  relations : List Nat
  diplomacy : List Nat
  allied_los : Bool
  allied_victory : Bool
  name : List Nat
  attributes : List Nat
  initial_view : Nat × Nat
  saved_views : List (Nat × Nat)
  spawn_location : Nat × Nat
  culture_id : Nat
  civilization_id : Nat
  game_status : Nat
  resigned : Bool
  userpatch_data : Option UserPatchData
  tech_state : PlayerTech
  history_info : HistoryInfo
  tech_tree : Option TT
  gaia : Option GaiaData
  unit_types : List (Option CU)
  visible_map : VisibleMap
  visible_resources : VisibleResources
  units : List UN
  sleeping_units : List UN
  doppelganger_units : List UN
deriving DecidableEq

/-- Decoder `Player::read_from`: the strictly linear, version-gated pull
over the byte stream, in source order. -/
def playerReadFrom {TT CU AI UN : Type} (P : Peers TT CU AI UN) (c : Ctx) (r : Rd) :
    Except Err (Player TT CU UN × Rd) := do
  let (player_type, r) ← readU8 r
  let r ← assertMarkerIf (ver 1055) c 11 r
  let (relations, r) ← readBytes c.numPlayers r
  let (diplomacy, r) ← readListU32 9 r
  let (allied_los_word, r) ← readU32 r
  let (allied_victory_byte, r) ← readU8 r
  let (name_opt, r) ← readU16LengthPrefixedStr r
  let r ← assertMarkerIf (ver 1055) c 22 r
  let (num_attributes, r) ← readU32 r
  let r ← assertMarkerIf (ver 1055) c 33 r
  let (attributes, r) ← readListF32 num_attributes r
  let r ← skipAttrDup c num_attributes r
  let r ← assertMarkerIf (ver 1055) c 11 r
  let (iv0, r) ← readF32 r
  let (iv1, r) ← readF32 r
  let (saved_views, r) ← readSavedViews c r
  let (sp0, r) ← readU16 r
  let (sp1, r) ← readU16 r
  let (culture_id, r) ← readU8 r
  let (civilization_id, r) ← readU8 r
  let (game_status, r) ← readU8 r
  let (resigned_byte, r) ← readU8 r
  let r ← assertEqMarkerIf c 11 r
  let (_color, r) ← readU8 r
  let r ← assertEqMarkerIf c 11 r
  let (_pathing_attempt_cap, r) ← readU32 r
  let (_pathing_delay_cap, r) ← readU32 r
  let r ← readUnitCounts c r
  let r ← readFormations c r
  let r ← readEscrow r
  let r ← readViewScroll c r
  let r ← readAIReactions c r
  let r ← readSelectedUnits c r
  let (_diags, r) ← deResyncBlock c r
  let (_ty, r) ← readU8 r
  let (_update_count, r) ← readU32 r
  let (_update_count_need_help, r) ← readU32 r
  let r ← readAIAttackData c r
  let (_fog_update, r) ← readU32 r
  let (_update_time, r) ← readF32 r
  let (userpatch_data, r) ← readUserPatchGate c r
  let (tech_state, r) ← PlayerTech.read_from c r
  let (_update_history_count, r) ← readU32 r
  let r ← assertMarker c.version 11 r
  let (history_info, r) ← HistoryInfo.read_from r
  let r ← readObjectives c r
  let r ← assertMarkerIf (ver 1055) c 11 r
  let r ← readDiplomacyDetail c r
  let r ← assertMarkerIf (ver 1055) c 11 r
  let r ← readOffMapTrade c r
  let r ← assertMarkerIf (ver 1055) c 11 r
  let r ← readMarketTrading c r
  let r ← readProdQueue c r
  let r ← readDodging c r
  let r ← readLateCounters c r
  let r ← readStatistics c r
  let r ← readDEPadEleven c r
  let (tech_tree, r) ← readTechTreeGate P c r
  let r ← readDEPadFour c player_type r
  let r ← assertMarkerIf (ver 1055) c 11 r
  let (_player_ai, r) ← readPlayerAIGuard P player_type r
  let r ← assertMarkerIf (ver 1055) c 11 r
  let (gaia, r) ← readGaiaGate player_type r
  let r ← assertMarkerIf (ver 1055) c 11 r
  let (unit_types, r) ← readUnitTypesBlock P c r
  let r ← assertEqMarkerIf c 11 r
  let (visible_map, r) ← VisibleMap.read_from c r
  let (visible_resources, r) ← VisibleResources.read_from r
  let r ← assertEqMarkerIf c 11 r
  let (units, r) ← readUnitList P r
  let r ← assertMarkerIf (ver 1055) c 11 r
  let (sleeping_units, r) ← readUnitList P r
  let r ← assertEqMarkerIf c 11 r
  let (doppelganger_units, r) ← readUnitList P r
  let r ← assertEqMarkerIf c 11 r
  .ok ({ player_type, relations, diplomacy,
         allied_los := allied_los_word != 0,
         allied_victory := allied_victory_byte != 0,
         name := name_opt.getD [],
         attributes, initial_view := (iv0, iv1), saved_views,
         spawn_location := (sp0, sp1), culture_id, civilization_id,
         game_status, resigned := resigned_byte != 0,
         userpatch_data, tech_state, history_info, tech_tree, gaia,
         unit_types, visible_map, visible_resources, units,
         sleeping_units, doppelganger_units }, r)

/-! ## Concrete instances used by witnesses -/

/-- Whether the list contains two consecutive bytes of value 11 (used to
characterise what the resync scan consumes). -/
def hasPair11 : List Nat → Bool
  | b1 :: b2 :: rest => (b1 == 11 && b2 == 11) || hasPair11 (b2 :: rest)
  | _ => false

/-- A version-10.55 UserPatch-edition reader context with one player. -/
def ctx1055 : Ctx := ⟨ver 1055, .userPatch, 1⟩

/-- A version-11.97 UserPatch-edition reader context with one player. -/
def ctx1197 : Ctx := ⟨ver 1197, .userPatch, 1⟩

/-- A 70-byte player-block prefix, valid at version 10.55 up to the
sentinel joint after the `resigned` byte, where the byte is 12 instead of
the expected marker 11: the joint the source checks with `assert_eq!`. -/
def c1PanicBytes : List Nat :=
  [2, 11, 0] ++ List.replicate 36 0 ++ [0, 0, 0, 0, 0, 0, 0, 22] ++
  [0, 0, 0, 0, 33, 11] ++ List.replicate 8 0 ++ [0, 0, 0, 0, 0, 0, 0, 0, 12]

/-- Test whether a decoder outcome is the `HeaderError`-wrapped
`MissingMarker` failure that the spec's sentinel-strictness property
demands. -/
def isMissingMarkerFailure {α : Type} : Except Err α → Bool
  | .error (.headerError _ (.missingMarker _ _ _ _)) => true
  | _ => false

/-- Equality of decoder outcomes is decidable (used by concrete runs). -/
instance {ε α : Type} [DecidableEq ε] [DecidableEq α] : DecidableEq (Except ε α) := fun x y =>
  match x, y with
  | .ok a, .ok b => if h : a = b then .isTrue (by rw [h]) else .isFalse (by simp [h])
  | .error a, .error b => if h : a = b then .isTrue (by rw [h]) else .isFalse (by simp [h])
  | .ok _, .error _ => .isFalse (by simp)
  | .error _, .ok _ => .isFalse (by simp)

/-- A trivial unit-list peer decoder for concrete runs: a zero byte ends the
list, any other byte yields one (unit-valued) entry. -/
def unitW (r : Rd) : Except Err (Option Unit × Rd) :=
  match r.data with
  | [] => .error .unexpectedEnd
  | b :: rest => if b = 0 then .ok (none, ⟨r.pos + 1, rest⟩) else .ok (some (), ⟨r.pos + 1, rest⟩)

/-- Trivial peer codecs for concrete runs: the tech-tree, unit-type and
player-ai peers consume nothing, the unit peer is `unitW`. -/
def peersW : Peers Unit Unit Unit Unit where
  techTree := fun r => .ok ((), r)
  compactUnitType := fun r => .ok ((), r)
  playerAI := fun r => .ok ((), r)
  unit := unitW
  unit_consumes := by
    intro r u r' h
    rcases r with ⟨p, data⟩
    cases data with
    | nil => simp [unitW] at h
    | cons b rest =>
      by_cases hb : b = 0
      · simp [unitW, hb] at h
      · simp [unitW, hb] at h
        subst h
        simp

/-- Backward-chained suffixes of the sample version-10.55 player block:
`smpK` is the unconsumed stream at the start of decode stage `K`, so each
stage consumes exactly its leading chunk. -/
def smp75 : List Nat := [11] ++ ([] : List Nat)
def smp74 : List Nat := (List.replicate 8 0 ++ [0]) ++ smp75
def smp73 : List Nat := [11] ++ smp74
def smp72 : List Nat := (List.replicate 8 0 ++ [0]) ++ smp73
def smp71 : List Nat := [11] ++ smp72
def smp70 : List Nat := (List.replicate 8 0 ++ [0]) ++ smp71
def smp69 : List Nat := [11] ++ smp70
def smp68 : List Nat := List.replicate 4 0 ++ smp69
def smp67 : List Nat := List.replicate 14 0 ++ smp68
def smp66 : List Nat := [11] ++ smp67
def smp65 : List Nat := [0, 0, 0, 0, 11] ++ smp66
def smp64 : List Nat := [11] ++ smp65
def smp63 : List Nat := List.replicate 452 0 ++ smp64
def smp62 : List Nat := [11] ++ smp63
def smp60 : List Nat := [11] ++ smp62
def smp56 : List Nat := List.replicate 68 0 ++ smp60
def smp54 : List Nat := [0, 0] ++ smp56
def smp53 : List Nat := [0] ++ smp54
def smp52 : List Nat := List.replicate 44 0 ++ smp53
def smp51 : List Nat := [11] ++ smp52
def smp50 : List Nat := List.replicate 40 0 ++ smp51
def smp49 : List Nat := [11] ++ smp50
def smp48 : List Nat := List.replicate 209 0 ++ smp49
def smp47 : List Nat := [11] ++ smp48
def smp46 : List Nat := List.replicate 8 0 ++ smp47
def smp45 : List Nat := List.replicate 198 0 ++ smp46
def smp44 : List Nat := [11] ++ smp45
def smp43 : List Nat := List.replicate 4 0 ++ smp44
def smp42 : List Nat := [0, 0] ++ smp43
def smp40 : List Nat := List.replicate 4 0 ++ smp42
def smp39 : List Nat := List.replicate 4 0 ++ smp40
def smp38 : List Nat := List.replicate 30 0 ++ smp39
def smp37 : List Nat := List.replicate 4 0 ++ smp38
def smp36 : List Nat := List.replicate 4 0 ++ smp37
def smp35 : List Nat := [0] ++ smp36
def smp34 : List Nat := [11, 11] ++ smp35
def smp31 : List Nat := List.replicate 32 0 ++ smp34
def smp30 : List Nat := List.replicate 48 0 ++ smp31
def smp29 : List Nat := List.replicate 24 0 ++ smp30
def smp28 : List Nat := List.replicate 3408 0 ++ smp29
def smp27 : List Nat := List.replicate 4 0 ++ smp28
def smp26 : List Nat := List.replicate 4 0 ++ smp27
def smp25 : List Nat := [11] ++ smp26
def smp24 : List Nat := [0] ++ smp25
def smp23 : List Nat := [11] ++ smp24
def smp22 : List Nat := [0] ++ smp23
def smp21 : List Nat := [0] ++ smp22
def smp20 : List Nat := [0] ++ smp21
def smp19 : List Nat := [0] ++ smp20
def smp18 : List Nat := [0, 0] ++ smp19
def smp17 : List Nat := [0, 0] ++ smp18
def smp15 : List Nat := List.replicate 4 0 ++ smp17
def smp14 : List Nat := List.replicate 4 0 ++ smp15
def smp13 : List Nat := [11] ++ smp14
def smp10 : List Nat := [33] ++ smp13
def smp9 : List Nat := List.replicate 4 0 ++ smp10
def smp8 : List Nat := [22] ++ smp9
def smp7 : List Nat := [0, 0] ++ smp8
def smp6 : List Nat := [0] ++ smp7
def smp5 : List Nat := List.replicate 4 0 ++ smp6
def smp4 : List Nat := List.replicate 36 0 ++ smp5
def smp3 : List Nat := [0] ++ smp4
def smp2 : List Nat := [11] ++ smp3
def smp1 : List Nat := [2] ++ smp2

/-- The all-zero `GaiaData` value decoded from 452 zero bytes. -/
def gaiaZero : GaiaData :=
  { update_time := 0, update_nature := 0,
    creatures := List.replicate 5 ⟨0, 0, 0⟩,
    next_wolf_attack_update_time := 0, wolf_attack_update_interval := 0,
    wolf_attack_stop_time := 0, min_villager_distance := 0,
    tc_positions := List.replicate 9 (0, 0),
    wolf_current_player := 0, wolf_current_villagers := List.replicate 10 0,
    wolf_current_villager := some 0, wolf_villager_count := 0,
    wolves := List.replicate 25 ⟨0, 0⟩, current_wolf := some 0,
    wolf_counts := List.replicate 10 0 }

/-- The `Player` value decoded from the sample version-10.55 block `smp1`. -/
def samplePlayer1055 : Player Unit Unit Unit :=
  { player_type := 2, relations := [0], diplomacy := List.replicate 9 0,
    allied_los := false, allied_victory := false, name := [],
    attributes := [], initial_view := (0, 0), saved_views := [],
    spawn_location := (0, 0), culture_id := 0, civilization_id := 0,
    game_status := 0, resigned := false, userpatch_data := none,
    tech_state := ⟨[]⟩, history_info := ⟨[], []⟩, tech_tree := some (),
    gaia := some gaiaZero, unit_types := [],
    visible_map := ⟨0, 0, 0, 0, []⟩, visible_resources := ⟨[]⟩,
    units := [], sleeping_units := [], doppelganger_units := [] }

/-! ## Theorems -/

theorem ver_eq_1055 : ver 1055 = (10.55 : Rat) := by norm_num [ver, mkRat, Rat.normalize]

theorem ver_eq_1162 : ver 1162 = (11.62 : Rat) := by norm_num [ver, mkRat, Rat.normalize]

theorem ver_eq_1197 : ver 1197 = (11.97 : Rat) := by norm_num [ver, mkRat, Rat.normalize]

theorem ver_eq_1196 : ver 1196 = (11.96 : Rat) := by norm_num [ver, mkRat, Rat.normalize]

theorem ver_eq_1198 : ver 1198 = (11.98 : Rat) := by norm_num [ver, mkRat, Rat.normalize]

theorem ver_eq_1334 : ver 1334 = (13.34 : Rat) := by norm_num [ver, mkRat, Rat.normalize]

theorem ver_eq_670 : ver 670 = (6.70 : Rat) := by norm_num [ver, mkRat, Rat.normalize]

/-- The cross-multiplied `f32Eq` is exactly the epsilon comparison
`|a - b| < 1/8388608` of the source's `f32_eq!` macro. -/
theorem f32Eq_iff_abs_lt (a b : Rat) : f32Eq a b = true ↔ |a - b| < 1 / 8388608 := by
  rw [f32Eq, decide_eq_true_eq]
  have hbd : (0 : Rat) < (b.den : Rat) := by exact_mod_cast b.pos
  have had : (0 : Rat) < (a.den : Rat) := by exact_mod_cast a.pos
  have hab : a - b = ((a.num * b.den - b.num * a.den : Int) : Rat) / ((a.den : Rat) * b.den) := by
    conv_lhs => rw [← Rat.num_div_den a, ← Rat.num_div_den b]
    field_simp
    ring
  rw [hab, abs_div,
      abs_of_pos (show (0 : Rat) < (a.den : Rat) * (b.den : Rat) from mul_pos had hbd),
      div_lt_div_iff (mul_pos had hbd) (show (0 : Rat) < 8388608 by norm_num), one_mul]
  rw [show |((a.num * b.den - b.num * a.den : Int) : Rat)| =
        (((a.num * b.den - b.num * a.den).natAbs : Int) : Rat) from by
      rw [← Int.cast_abs, Int.abs_eq_natAbs]]
  exact ⟨fun h => by exact_mod_cast h, fun h => by exact_mod_cast h⟩

theorem ebind_ok_iff {α β : Type} {x : Except Err α} {f : α → Except Err β} {b : β} :
    x >>= f = .ok b ↔ ∃ a, x = .ok a ∧ f a = .ok b := by
  cases x <;> simp [Bind.bind, Except.bind]

theorem ebind_ok {α β : Type} (a : α) (f : α → Except Err β) :
    (Except.ok a : Except Err α) >>= f = f a := rfl

theorem ebind_err {α β : Type} (e : Err) (f : α → Except Err β) :
    (Except.error e : Except Err α) >>= f = .error e := rfl

theorem ebind_step {α β : Type} {x : Except Err α} {a : α} {f : α → Except Err β}
    {r : Except Err β} (hx : x = .ok a) (hf : f a = r) : x >>= f = r := by
  rw [hx, ebind_ok, hf]

theorem readU8_ok {r : Rd} {b : Nat} {r' : Rd} (h : readU8 r = .ok (b, r')) :
    r.data = b :: r'.data ∧ r'.pos = r.pos + 1 := by
  unfold readU8 at h
  split at h
  · exact absurd h (by simp)
  · simp only [Except.ok.injEq, Prod.mk.injEq] at h
    obtain ⟨rfl, rfl⟩ := h
    simp_all

theorem readU16_ok {r : Rd} {w : Nat} {r' : Rd} (h : readU16 r = .ok (w, r')) :
    r'.pos = r.pos + 2 ∧ r.data.length = r'.data.length + 2 := by
  unfold readU16 at h
  split at h
  · simp only [Except.ok.injEq, Prod.mk.injEq] at h
    obtain ⟨rfl, rfl⟩ := h
    simp_all
  · exact absurd h (by simp)

theorem readU32_ok {r : Rd} {w : Nat} {r' : Rd} (h : readU32 r = .ok (w, r')) :
    r'.pos = r.pos + 4 ∧ r.data.length = r'.data.length + 4 := by
  unfold readU32 at h
  split at h
  · simp only [Except.ok.injEq, Prod.mk.injEq] at h
    obtain ⟨rfl, rfl⟩ := h
    simp_all
  · exact absurd h (by simp)

theorem readBytes_ok {n : Nat} {r : Rd} {l : List Nat} {r' : Rd}
    (h : readBytes n r = .ok (l, r')) :
    l.length = n ∧ r'.pos = r.pos + n := by
  unfold readBytes at h
  split at h
  next hle =>
    simp only [Except.ok.injEq, Prod.mk.injEq] at h
    obtain ⟨rfl, rfl⟩ := h
    refine ⟨?_, rfl⟩
    rw [List.length_take]
    omega
  next => exact absurd h (by simp)

theorem readListU32_ok {n : Nat} {r : Rd} {l : List Nat} {r' : Rd}
    (h : readListU32 n r = .ok (l, r')) :
    l.length = n ∧ r'.pos = r.pos + 4 * n := by
  induction n generalizing r l r' with
  | zero =>
    unfold readListU32 at h
    simp only [Except.ok.injEq, Prod.mk.injEq] at h
    obtain ⟨rfl, rfl⟩ := h
    simp
  | succ k ih =>
    unfold readListU32 at h
    rw [ebind_ok_iff] at h
    obtain ⟨⟨x, r1⟩, hx, h⟩ := h
    simp only [ebind_ok_iff] at h
    obtain ⟨⟨xs, r2⟩, hxs, h⟩ := h
    simp only [Except.ok.injEq, Prod.mk.injEq] at h
    obtain ⟨rfl, rfl⟩ := h
    have h1 := readU32_ok hx
    have h2 := ih hxs
    constructor
    · simp [h2.1]
    · omega

theorem readListF32_ok {n : Nat} {r : Rd} {l : List Nat} {r' : Rd}
    (h : readListF32 n r = .ok (l, r')) :
    l.length = n ∧ r'.pos = r.pos + 4 * n := by
  induction n generalizing r l r' with
  | zero =>
    unfold readListF32 at h
    simp only [Except.ok.injEq, Prod.mk.injEq] at h
    obtain ⟨rfl, rfl⟩ := h
    simp
  | succ k ih =>
    unfold readListF32 at h
    rw [ebind_ok_iff] at h
    obtain ⟨⟨x, r1⟩, hx, h⟩ := h
    simp only [ebind_ok_iff] at h
    obtain ⟨⟨xs, r2⟩, hxs, h⟩ := h
    simp only [Except.ok.injEq, Prod.mk.injEq] at h
    obtain ⟨rfl, rfl⟩ := h
    have h1 := readU32_ok hx
    have h2 := ih hxs
    constructor
    · simp [h2.1]
    · omega

theorem readPairsF32_ok {n : Nat} {r : Rd} {l : List (Nat × Nat)} {r' : Rd}
    (h : readPairsF32 n r = .ok (l, r')) :
    l.length = n ∧ r'.pos = r.pos + 8 * n := by
  induction n generalizing r l r' with
  | zero =>
    unfold readPairsF32 at h
    simp only [Except.ok.injEq, Prod.mk.injEq] at h
    obtain ⟨rfl, rfl⟩ := h
    simp
  | succ k ih =>
    unfold readPairsF32 at h
    rw [ebind_ok_iff] at h
    obtain ⟨⟨x, r1⟩, hx, h⟩ := h
    simp only [ebind_ok_iff] at h
    obtain ⟨⟨y, r2⟩, hy, h⟩ := h
    simp only [ebind_ok_iff] at h
    obtain ⟨⟨xs, r3⟩, hxs, h⟩ := h
    simp only [Except.ok.injEq, Prod.mk.injEq] at h
    obtain ⟨rfl, rfl⟩ := h
    have h1 := readU32_ok hx
    have h2 := readU32_ok hy
    have h3 := ih hxs
    constructor
    · simp [h3.1]
    · omega

theorem readListU16_ok {n : Nat} {r : Rd} {l : List Nat} {r' : Rd}
    (h : readListU16 n r = .ok (l, r')) :
    l.length = n ∧ r'.pos = r.pos + 2 * n := by
  induction n generalizing r l r' with
  | zero =>
    unfold readListU16 at h
    simp only [Except.ok.injEq, Prod.mk.injEq] at h
    obtain ⟨rfl, rfl⟩ := h
    simp
  | succ k ih =>
    unfold readListU16 at h
    rw [ebind_ok_iff] at h
    obtain ⟨⟨x, r1⟩, hx, h⟩ := h
    simp only [ebind_ok_iff] at h
    obtain ⟨⟨xs, r2⟩, hxs, h⟩ := h
    simp only [Except.ok.injEq, Prod.mk.injEq] at h
    obtain ⟨rfl, rfl⟩ := h
    have h1 := readU16_ok hx
    have h2 := ih hxs
    exact ⟨by simp [h2.1], by omega⟩

theorem upReadFrom_ok {r : Rd} {u : UserPatchData} {r' : Rd}
    (h : UserPatchData.read_from r = .ok (u, r')) :
    r'.pos = r.pos + 8176 := by
  unfold UserPatchData.read_from at h
  simp only [ebind_ok_iff, Prod.exists] at h
  obtain ⟨a1, r1, h1, a2, r2, h2, a3, r3, h3, a4, r4, h4, h5⟩ := h
  simp only [Except.ok.injEq, Prod.mk.injEq] at h5
  obtain ⟨-, rfl⟩ := h5
  have b1 := readBytes_ok h1
  have b2 := readListU16_ok h2
  have b3 := readListU16_ok h3
  have b4 := readBytes_ok h4
  omega

theorem readUserPatchGate_ok {c : Ctx} {r : Rd} {up : Option UserPatchData} {r' : Rd}
    (h : readUserPatchGate c r = .ok (up, r')) :
    up.isSome = f32Eq c.version (ver 1197) ∧
    (f32Eq c.version (ver 1197) = false → up = none ∧ r' = r) ∧
    (f32Eq c.version (ver 1197) = true → r'.pos = r.pos + 8176) := by
  unfold readUserPatchGate at h
  by_cases hf : f32Eq c.version (ver 1197)
  · rw [if_pos hf] at h
    cases hg : UserPatchData.read_from r with
    | error e => rw [hg] at h; exact absurd h (by simp [Except.map])
    | ok a =>
      rw [hg] at h
      obtain ⟨u1, r1⟩ := a
      simp only [Except.map, Except.ok.injEq, Prod.mk.injEq] at h
      obtain ⟨rfl, rfl⟩ := h
      refine ⟨by simp [hf], by simp [hf], fun _ => upReadFrom_ok hg⟩
  · rw [if_neg hf] at h
    simp only [Except.ok.injEq, Prod.mk.injEq] at h
    obtain ⟨rfl, rfl⟩ := h
    simp [hf]

theorem readGaiaGate_ok {pt : Nat} {r : Rd} {g : Option GaiaData} {r' : Rd}
    (h : readGaiaGate pt r = .ok (g, r')) :
    (g.isSome = true ↔ pt = 2) ∧ (pt ≠ 2 → g = none ∧ r' = r) := by
  unfold readGaiaGate at h
  by_cases hpt : pt = 2
  · rw [if_pos hpt] at h
    cases hg : GaiaData.read_from r with
    | error e => rw [hg] at h; exact absurd h (by simp [Except.map])
    | ok a =>
      rw [hg] at h
      obtain ⟨g1, r1⟩ := a
      simp only [Except.map, Except.ok.injEq, Prod.mk.injEq] at h
      obtain ⟨rfl, rfl⟩ := h
      exact ⟨by simp [hpt], fun hc => absurd hpt hc⟩
  · rw [if_neg hpt] at h
    simp only [Except.ok.injEq, Prod.mk.injEq] at h
    obtain ⟨rfl, rfl⟩ := h
    exact ⟨by simp [hpt], fun _ => ⟨rfl, rfl⟩⟩

theorem readPlayerAIGuard_ok {TT CU AI UN : Type} {P : Peers TT CU AI UN}
    {pt : Nat} {r : Rd} {o : Option AI} {r' : Rd}
    (h : readPlayerAIGuard P pt r = .ok (o, r')) :
    (o.isSome = true → pt = 3) ∧
    (pt ≠ 3 → o = none ∧ r' = r) ∧
    (pt = 3 → ∃ w r1, readU32 r = .ok (w, r1) ∧
      (w = 1 → o.isSome = true) ∧ (w ≠ 1 → o = none ∧ r' = r1)) := by
  unfold readPlayerAIGuard at h
  by_cases hpt : pt = 3
  · rw [if_pos hpt] at h
    simp only [ebind_ok_iff, Prod.exists] at h
    obtain ⟨w, r1, hw, h⟩ := h
    refine ⟨fun _ => hpt, fun hc => absurd hpt hc, fun _ => ⟨w, r1, hw, ?_, ?_⟩⟩
    · intro h1
      rw [if_pos h1] at h
      cases hai : P.playerAI r1 with
      | error e => rw [hai] at h; exact absurd h (by simp [Except.map])
      | ok a =>
        rw [hai] at h
        obtain ⟨a1, r2⟩ := a
        simp only [Except.map, Except.ok.injEq, Prod.mk.injEq] at h
        obtain ⟨rfl, rfl⟩ := h
        rfl
    · intro h1
      rw [if_neg h1] at h
      simp only [Except.ok.injEq, Prod.mk.injEq] at h
      obtain ⟨rfl, rfl⟩ := h
      exact ⟨rfl, rfl⟩
  · rw [if_neg hpt] at h
    simp only [Except.ok.injEq, Prod.mk.injEq] at h
    obtain ⟨rfl, rfl⟩ := h
    exact ⟨fun hc => by simp at hc, fun _ => ⟨rfl, rfl⟩, fun hc => absurd hc hpt⟩

theorem getD_map_bne : ∀ (ws : List Nat) (i : Nat),
    ((ws.map (fun w => w != 0)).getD i false) = (ws.getD i 0 != 0) := by
  intro ws
  induction ws with
  | nil => intro i; simp [List.getD]
  | cons w t ih =>
    intro i
    cases i with
    | zero => rfl
    | succ j => simpa using ih j

theorem readUnitTypesLoop_ok {TT CU AI UN : Type} {P : Peers TT CU AI UN} {c : Ctx} :
    ∀ {ms : List Bool} {r : Rd} {uts : List (Option CU)} {r' : Rd},
    readUnitTypesLoop P c ms r = .ok (uts, r') →
    uts.length = ms.length ∧ ∀ i, (uts.getD i none).isSome = ms.getD i false := by
  intro ms
  induction ms with
  | nil =>
    intro r uts r' h
    unfold readUnitTypesLoop at h
    simp only [Except.ok.injEq, Prod.mk.injEq] at h
    obtain ⟨rfl, rfl⟩ := h
    exact ⟨rfl, fun i => by cases i <;> rfl⟩
  | cons m ms ih =>
    intro r uts r' h
    cases m with
    | false =>
      unfold readUnitTypesLoop at h
      cases hrec : readUnitTypesLoop P c ms r with
      | error e => rw [hrec] at h; exact absurd h (by simp [Except.map])
      | ok a =>
        rw [hrec] at h
        obtain ⟨l, r2⟩ := a
        simp only [Except.map, Except.ok.injEq, Prod.mk.injEq] at h
        obtain ⟨rfl, rfl⟩ := h
        have hih := ih hrec
        refine ⟨by simp [hih.1], fun i => ?_⟩
        cases i with
        | zero => rfl
        | succ j => exact hih.2 j
    | true =>
      unfold readUnitTypesLoop at h
      simp only [ebind_ok_iff, Prod.exists] at h
      obtain ⟨r1, h1, ty, r2, h2, r3, h3, restl, r4, h4, h5⟩ := h
      simp only [Except.ok.injEq, Prod.mk.injEq] at h5
      obtain ⟨rfl, rfl⟩ := h5
      have hih := ih h4
      refine ⟨by simp [hih.1], fun i => ?_⟩
      cases i with
      | zero => rfl
      | succ j => exact hih.2 j

theorem readUnitTypesBlock_ok {TT CU AI UN : Type} {P : Peers TT CU AI UN} {c : Ctx}
    {r : Rd} {uts : List (Option CU)} {r' : Rd}
    (h : readUnitTypesBlock P c r = .ok (uts, r')) :
    ∃ n r1 ws r2 r3, readU32 r = .ok (n, r1) ∧ readListU32 n r1 = .ok (ws, r2) ∧
      assertMarkerIf (ver 1055) c 11 r2 = .ok r3 ∧ ws.length = n ∧
      uts.length = ws.length ∧
      ∀ i, (uts.getD i none).isSome = (ws.getD i 0 != 0) := by
  unfold readUnitTypesBlock at h
  simp only [ebind_ok_iff, Prod.exists] at h
  obtain ⟨n, r1, h1, ws, r2, h2, r3, h3, h4⟩ := h
  have hloop := readUnitTypesLoop_ok h4
  refine ⟨n, r1, ws, r2, r3, h1, h2, h3, (readListU32_ok h2).1, ?_, ?_⟩
  · rw [hloop.1, List.length_map]
  · intro i
    rw [hloop.2 i, getD_map_bne]

theorem readBytes_append (n p : Nat) (a rest : List Nat) (ha : a.length = n) :
    readBytes n ⟨p, a ++ rest⟩ = .ok (a, ⟨p + n, rest⟩) := by
  unfold readBytes
  rw [if_pos (by simp [ha])]
  subst ha
  rw [List.take_left, List.drop_left]

theorem readListU16_zeros : ∀ (n p : Nat) (rest : List Nat),
    readListU16 n ⟨p, List.replicate (2 * n) 0 ++ rest⟩ =
      .ok (List.replicate n 0, ⟨p + 2 * n, rest⟩) := by
  intro n
  induction n with
  | zero => intro p rest; simp [readListU16]
  | succ k ih =>
    intro p rest
    have hrep : (List.replicate (2 * (k + 1)) (0 : Nat)) =
        0 :: 0 :: List.replicate (2 * k) 0 := by
      rw [show 2 * (k + 1) = (2 * k + 1) + 1 by ring, List.replicate_succ,
          List.replicate_succ]
    rw [hrep]
    show readListU16 (k + 1) ⟨p, 0 :: 0 :: (List.replicate (2 * k) 0 ++ rest)⟩ = _
    unfold readListU16
    have h1 : readU16 ⟨p, 0 :: 0 :: (List.replicate (2 * k) 0 ++ rest)⟩ =
        .ok (0, ⟨p + 2, List.replicate (2 * k) 0 ++ rest⟩) := rfl
    rw [h1, ebind_ok]
    dsimp only
    rw [ih (p + 2) rest, ebind_ok]
    dsimp only
    rw [show List.replicate (k + 1) (0 : Nat) = 0 :: List.replicate k 0 from
      List.replicate_succ 0 k]
    simp only [Except.ok.injEq, Prod.mk.injEq, Rd.mk.injEq, and_true, true_and]
    omega

theorem readUnitCounts_zeros (p : Nat) (rest : List Nat) :
    readUnitCounts ctx1055 ⟨p, List.replicate 3408 0 ++ rest⟩ = .ok ⟨p + 3408, rest⟩ := by
  have hsplit : (List.replicate 3408 (0 : Nat)) ++ rest =
      List.replicate 1500 0 ++ (List.replicate 200 0 ++ (List.replicate 1500 0 ++
        (List.replicate 200 0 ++ (List.replicate 8 0 ++ rest)))) := by
    rw [show (3408 : Nat) = 1500 + (200 + (1500 + (200 + 8))) by norm_num,
        List.replicate_add, List.replicate_add, List.replicate_add, List.replicate_add]
    simp only [List.append_assoc]
  rw [hsplit]
  have z1 : readListU16 750 ⟨p, List.replicate 1500 0 ++ (List.replicate 200 0 ++
      (List.replicate 1500 0 ++ (List.replicate 200 0 ++ (List.replicate 8 0 ++ rest))))⟩ =
      .ok (List.replicate 750 0, ⟨p + 1500, List.replicate 200 0 ++
        (List.replicate 1500 0 ++ (List.replicate 200 0 ++ (List.replicate 8 0 ++ rest)))⟩) := by
    have := readListU16_zeros 750 p (List.replicate 200 0 ++
      (List.replicate 1500 0 ++ (List.replicate 200 0 ++ (List.replicate 8 0 ++ rest))))
    norm_num at this
    exact this
  have z2 : readListU16 100 ⟨p + 1500, List.replicate 200 0 ++
      (List.replicate 1500 0 ++ (List.replicate 200 0 ++ (List.replicate 8 0 ++ rest)))⟩ =
      .ok (List.replicate 100 0, ⟨p + 1700, List.replicate 1500 0 ++
        (List.replicate 200 0 ++ (List.replicate 8 0 ++ rest))⟩) := by
    have := readListU16_zeros 100 (p + 1500) (List.replicate 1500 0 ++
      (List.replicate 200 0 ++ (List.replicate 8 0 ++ rest)))
    norm_num at this
    exact this
  have z3 : readListU16 750 ⟨p + 1700, List.replicate 1500 0 ++
      (List.replicate 200 0 ++ (List.replicate 8 0 ++ rest))⟩ =
      .ok (List.replicate 750 0, ⟨p + 3200, List.replicate 200 0 ++
        (List.replicate 8 0 ++ rest)⟩) := by
    have := readListU16_zeros 750 (p + 1700) (List.replicate 200 0 ++
      (List.replicate 8 0 ++ rest))
    norm_num at this
    exact this
  have z4 : readListU16 100 ⟨p + 3200, List.replicate 200 0 ++
      (List.replicate 8 0 ++ rest)⟩ =
      .ok (List.replicate 100 0, ⟨p + 3400, List.replicate 8 0 ++ rest⟩) := by
    have := readListU16_zeros 100 (p + 3200) (List.replicate 8 0 ++ rest)
    norm_num at this
    exact this
  have t1 : readU16 ⟨p + 3400, List.replicate 8 0 ++ rest⟩ =
      .ok (0, ⟨p + 3400 + 2, List.replicate 6 0 ++ rest⟩) := rfl
  have t2 : readU16 ⟨p + 3400 + 2, List.replicate 6 0 ++ rest⟩ =
      .ok (0, ⟨p + 3400 + 2 + 2, List.replicate 4 0 ++ rest⟩) := rfl
  have t3 : readU16 ⟨p + 3400 + 2 + 2, List.replicate 4 0 ++ rest⟩ =
      .ok (0, ⟨p + 3400 + 2 + 2 + 2, List.replicate 2 0 ++ rest⟩) := rfl
  have t4 : readU16 ⟨p + 3400 + 2 + 2 + 2, List.replicate 2 0 ++ rest⟩ =
      .ok (0, ⟨p + 3400 + 2 + 2 + 2 + 2, rest⟩) := rfl
  have hw : unitCountWidths ctx1055.version = (750, 100) := by decide
  unfold readUnitCounts
  rw [hw]
  dsimp only
  simp only [z1, ebind_ok, z2, z3, z4, t1, t2, t3, t4]

theorem readUnitList_nilW (p : Nat) (rest : List Nat) :
    readUnitList peersW ⟨p, (List.replicate 8 0 ++ [0]) ++ rest⟩ =
      .ok ([], ⟨p + 9, rest⟩) := by
  have hu : readUnits peersW ⟨p + 8, 0 :: rest⟩ = .ok ([], ⟨p + 9, rest⟩) := by
    unfold readUnits
    simp [peersW, unitW]
  have h1 : readU32 ⟨p, (List.replicate 8 0 ++ [0]) ++ rest⟩ =
      .ok (0, ⟨p + 4, (List.replicate 4 0 ++ [0]) ++ rest⟩) := rfl
  have h2 : readU32 ⟨p + 4, (List.replicate 4 0 ++ [0]) ++ rest⟩ =
      .ok (0, ⟨p + 8, 0 :: rest⟩) := rfl
  unfold readUnitList
  simp only [h1, ebind_ok, h2, hu]

set_option maxHeartbeats 1600000 in
set_option maxRecDepth 4000 in
theorem sample1055_decode :
    playerReadFrom peersW ctx1055 ⟨0, smp1⟩ =
      .ok (samplePlayer1055, ⟨4731, []⟩) := by
  have e1 : readU8 ⟨0, smp1⟩ = .ok (2, ⟨1, smp2⟩) := rfl
  have e2 : assertMarkerIf (ver 1055) ctx1055 11 ⟨1, smp2⟩ = .ok ⟨2, smp3⟩ := rfl
  have e3 : readBytes ctx1055.numPlayers ⟨2, smp3⟩ = .ok ([0], ⟨3, smp4⟩) := by
    show readBytes 1 ⟨2, [0] ++ smp4⟩ = .ok ([0], ⟨3, smp4⟩)
    exact readBytes_append 1 2 [0] smp4 rfl
  have e4 : readListU32 9 ⟨3, smp4⟩ = .ok (List.replicate 9 0, ⟨39, smp5⟩) := rfl
  have e5 : readU32 ⟨39, smp5⟩ = .ok (0, ⟨43, smp6⟩) := rfl
  have e6 : readU8 ⟨43, smp6⟩ = .ok (0, ⟨44, smp7⟩) := rfl
  have e7 : readU16LengthPrefixedStr ⟨44, smp7⟩ = .ok (none, ⟨46, smp8⟩) := rfl
  have e8 : assertMarkerIf (ver 1055) ctx1055 22 ⟨46, smp8⟩ = .ok ⟨47, smp9⟩ := rfl
  have e9 : readU32 ⟨47, smp9⟩ = .ok (0, ⟨51, smp10⟩) := rfl
  have e10 : assertMarkerIf (ver 1055) ctx1055 33 ⟨51, smp10⟩ = .ok ⟨52, smp13⟩ := rfl
  have e11 : readListF32 0 ⟨52, smp13⟩ = .ok ([], ⟨52, smp13⟩) := rfl
  have e12 : skipAttrDup ctx1055 0 ⟨52, smp13⟩ = .ok ⟨52, smp13⟩ := rfl
  have e13 : assertMarkerIf (ver 1055) ctx1055 11 ⟨52, smp13⟩ = .ok ⟨53, smp14⟩ := rfl
  have e14 : readF32 ⟨53, smp14⟩ = .ok (0, ⟨57, smp15⟩) := rfl
  have e15 : readF32 ⟨57, smp15⟩ = .ok (0, ⟨61, smp17⟩) := rfl
  have e16 : readSavedViews ctx1055 ⟨61, smp17⟩ = .ok ([], ⟨61, smp17⟩) := rfl
  have e17 : readU16 ⟨61, smp17⟩ = .ok (0, ⟨63, smp18⟩) := rfl
  have e18 : readU16 ⟨63, smp18⟩ = .ok (0, ⟨65, smp19⟩) := rfl
  have e19 : readU8 ⟨65, smp19⟩ = .ok (0, ⟨66, smp20⟩) := rfl
  have e20 : readU8 ⟨66, smp20⟩ = .ok (0, ⟨67, smp21⟩) := rfl
  have e21 : readU8 ⟨67, smp21⟩ = .ok (0, ⟨68, smp22⟩) := rfl
  have e22 : readU8 ⟨68, smp22⟩ = .ok (0, ⟨69, smp23⟩) := rfl
  have e23 : assertEqMarkerIf ctx1055 11 ⟨69, smp23⟩ = .ok ⟨70, smp24⟩ := rfl
  have e24 : readU8 ⟨70, smp24⟩ = .ok (0, ⟨71, smp25⟩) := rfl
  have e25 : assertEqMarkerIf ctx1055 11 ⟨71, smp25⟩ = .ok ⟨72, smp26⟩ := rfl
  have e26 : readU32 ⟨72, smp26⟩ = .ok (0, ⟨76, smp27⟩) := rfl
  have e27 : readU32 ⟨76, smp27⟩ = .ok (0, ⟨80, smp28⟩) := rfl
  have e28 : readUnitCounts ctx1055 ⟨80, smp28⟩ = .ok ⟨3488, smp29⟩ := readUnitCounts_zeros 80 smp29
  have e29 : readFormations ctx1055 ⟨3488, smp29⟩ = .ok ⟨3512, smp30⟩ := rfl
  have e30 : readEscrow ⟨3512, smp30⟩ = .ok ⟨3560, smp31⟩ := rfl
  have e31 : readViewScroll ctx1055 ⟨3560, smp31⟩ = .ok ⟨3592, smp34⟩ := rfl
  have e32 : readAIReactions ctx1055 ⟨3592, smp34⟩ = .ok ⟨3592, smp34⟩ := rfl
  have e33 : readSelectedUnits ctx1055 ⟨3592, smp34⟩ = .ok ⟨3592, smp34⟩ := rfl
  have e34 : deResyncBlock ctx1055 ⟨3592, smp34⟩ = .ok ([], ⟨3594, smp35⟩) := rfl
  have e35 : readU8 ⟨3594, smp35⟩ = .ok (0, ⟨3595, smp36⟩) := rfl
  have e36 : readU32 ⟨3595, smp36⟩ = .ok (0, ⟨3599, smp37⟩) := rfl
  have e37 : readU32 ⟨3599, smp37⟩ = .ok (0, ⟨3603, smp38⟩) := rfl
  have e38 : readAIAttackData ctx1055 ⟨3603, smp38⟩ = .ok ⟨3633, smp39⟩ := rfl
  have e39 : readU32 ⟨3633, smp39⟩ = .ok (0, ⟨3637, smp40⟩) := rfl
  have e40 : readF32 ⟨3637, smp40⟩ = .ok (0, ⟨3641, smp42⟩) := rfl
  have e41 : readUserPatchGate ctx1055 ⟨3641, smp42⟩ = .ok (none, ⟨3641, smp42⟩) := rfl
  have e42 : PlayerTech.read_from ctx1055 ⟨3641, smp42⟩ = .ok (PlayerTech.mk [], ⟨3643, smp43⟩) := rfl
  have e43 : readU32 ⟨3643, smp43⟩ = .ok (0, ⟨3647, smp44⟩) := rfl
  have e44 : assertMarker ctx1055.version 11 ⟨3647, smp44⟩ = .ok ⟨3648, smp45⟩ := rfl
  have e45 : HistoryInfo.read_from ⟨3648, smp45⟩ = .ok (HistoryInfo.mk [] [], ⟨3846, smp46⟩) := rfl
  have e46 : readObjectives ctx1055 ⟨3846, smp46⟩ = .ok ⟨3854, smp47⟩ := rfl
  have e47 : assertMarkerIf (ver 1055) ctx1055 11 ⟨3854, smp47⟩ = .ok ⟨3855, smp48⟩ := rfl
  have e48 : readDiplomacyDetail ctx1055 ⟨3855, smp48⟩ = .ok ⟨4064, smp49⟩ := rfl
  have e49 : assertMarkerIf (ver 1055) ctx1055 11 ⟨4064, smp49⟩ = .ok ⟨4065, smp50⟩ := rfl
  have e50 : readOffMapTrade ctx1055 ⟨4065, smp50⟩ = .ok ⟨4105, smp51⟩ := rfl
  have e51 : assertMarkerIf (ver 1055) ctx1055 11 ⟨4105, smp51⟩ = .ok ⟨4106, smp52⟩ := rfl
  have e52 : readMarketTrading ctx1055 ⟨4106, smp52⟩ = .ok ⟨4150, smp53⟩ := rfl
  have e53 : readProdQueue ctx1055 ⟨4150, smp53⟩ = .ok ⟨4151, smp54⟩ := rfl
  have e54 : readDodging ctx1055 ⟨4151, smp54⟩ = .ok ⟨4153, smp56⟩ := rfl
  have e55 : readLateCounters ctx1055 ⟨4153, smp56⟩ = .ok ⟨4153, smp56⟩ := rfl
  have e56 : readStatistics ctx1055 ⟨4153, smp56⟩ = .ok ⟨4221, smp60⟩ := rfl
  have e57 : readDEPadEleven ctx1055 ⟨4221, smp60⟩ = .ok ⟨4221, smp60⟩ := rfl
  have e58 : readTechTreeGate peersW ctx1055 ⟨4221, smp60⟩ = .ok (some (), ⟨4221, smp60⟩) := rfl
  have e59 : readDEPadFour ctx1055 2 ⟨4221, smp60⟩ = .ok ⟨4221, smp60⟩ := rfl
  have e60 : assertMarkerIf (ver 1055) ctx1055 11 ⟨4221, smp60⟩ = .ok ⟨4222, smp62⟩ := rfl
  have e61 : readPlayerAIGuard peersW 2 ⟨4222, smp62⟩ = .ok (none, ⟨4222, smp62⟩) := rfl
  have e62 : assertMarkerIf (ver 1055) ctx1055 11 ⟨4222, smp62⟩ = .ok ⟨4223, smp63⟩ := rfl
  have e63 : readGaiaGate 2 ⟨4223, smp63⟩ = .ok (some gaiaZero, ⟨4675, smp64⟩) := rfl
  have e64 : assertMarkerIf (ver 1055) ctx1055 11 ⟨4675, smp64⟩ = .ok ⟨4676, smp65⟩ := rfl
  have e65 : readUnitTypesBlock peersW ctx1055 ⟨4676, smp65⟩ = .ok ([], ⟨4681, smp66⟩) := rfl
  have e66 : assertEqMarkerIf ctx1055 11 ⟨4681, smp66⟩ = .ok ⟨4682, smp67⟩ := rfl
  have e67 : VisibleMap.read_from ctx1055 ⟨4682, smp67⟩ = .ok (VisibleMap.mk 0 0 0 0 [], ⟨4696, smp68⟩) := rfl
  have e68 : VisibleResources.read_from ⟨4696, smp68⟩ = .ok (VisibleResources.mk [], ⟨4700, smp69⟩) := rfl
  have e69 : assertEqMarkerIf ctx1055 11 ⟨4700, smp69⟩ = .ok ⟨4701, smp70⟩ := rfl
  have e70 : readUnitList peersW ⟨4701, smp70⟩ = .ok ([], ⟨4710, smp71⟩) := readUnitList_nilW 4701 smp71
  have e71 : assertMarkerIf (ver 1055) ctx1055 11 ⟨4710, smp71⟩ = .ok ⟨4711, smp72⟩ := rfl
  have e72 : readUnitList peersW ⟨4711, smp72⟩ = .ok ([], ⟨4720, smp73⟩) := readUnitList_nilW 4711 smp73
  have e73 : assertEqMarkerIf ctx1055 11 ⟨4720, smp73⟩ = .ok ⟨4721, smp74⟩ := rfl
  have e74 : readUnitList peersW ⟨4721, smp74⟩ = .ok ([], ⟨4730, smp75⟩) := readUnitList_nilW 4721 smp75
  have e75 : assertEqMarkerIf ctx1055 11 ⟨4730, smp75⟩ = .ok ⟨4731, ([] : List Nat)⟩ := rfl
  exact ebind_step e1 (ebind_step e2 (ebind_step e3 (ebind_step e4 (ebind_step e5
    (ebind_step e6 (ebind_step e7 (ebind_step e8 (ebind_step e9 (ebind_step e10
    (ebind_step e11 (ebind_step e12 (ebind_step e13 (ebind_step e14 (ebind_step e15
    (ebind_step e16 (ebind_step e17 (ebind_step e18 (ebind_step e19 (ebind_step e20
    (ebind_step e21 (ebind_step e22 (ebind_step e23 (ebind_step e24 (ebind_step e25
    (ebind_step e26 (ebind_step e27 (ebind_step e28 (ebind_step e29 (ebind_step e30
    (ebind_step e31 (ebind_step e32 (ebind_step e33 (ebind_step e34 (ebind_step e35
    (ebind_step e36 (ebind_step e37 (ebind_step e38 (ebind_step e39 (ebind_step e40
    (ebind_step e41 (ebind_step e42 (ebind_step e43 (ebind_step e44 (ebind_step e45
    (ebind_step e46 (ebind_step e47 (ebind_step e48 (ebind_step e49 (ebind_step e50
    (ebind_step e51 (ebind_step e52 (ebind_step e53 (ebind_step e54 (ebind_step e55
    (ebind_step e56 (ebind_step e57 (ebind_step e58 (ebind_step e59 (ebind_step e60
    (ebind_step e61 (ebind_step e62 (ebind_step e63 (ebind_step e64 (ebind_step e65
    (ebind_step e66 (ebind_step e67 (ebind_step e68 (ebind_step e69 (ebind_step e70
    (ebind_step e71 (ebind_step e72 (ebind_step e73 (ebind_step e74 (ebind_step e75
    (rfl)))))))))))))))))))))))))))))))))))))))))))))))))))))))))))))))))))))))))))

set_option maxHeartbeats 1600000 in
set_option maxRecDepth 8000 in
theorem playerReadFrom_inv {TT CU AI UN : Type} {P : Peers TT CU AI UN} {c : Ctx}
    {r : Rd} {p : Player TT CU UN} {rE : Rd}
    (h : playerReadFrom P c r = .ok (p, rE)) :
    (∃ pt r1 r2 rel r3 dip r4 w1 r5 b1 r6 nm r7 r8 nAttr r9 r10 attrs r11,
      readU8 r = .ok (pt, r1) ∧
      assertMarkerIf (ver 1055) c 11 r1 = .ok r2 ∧
      readBytes c.numPlayers r2 = .ok (rel, r3) ∧
      readListU32 9 r3 = .ok (dip, r4) ∧
      readU32 r4 = .ok (w1, r5) ∧
      readU8 r5 = .ok (b1, r6) ∧
      readU16LengthPrefixedStr r6 = .ok (nm, r7) ∧
      assertMarkerIf (ver 1055) c 22 r7 = .ok r8 ∧
      readU32 r8 = .ok (nAttr, r9) ∧
      assertMarkerIf (ver 1055) c 33 r9 = .ok r10 ∧
      readListF32 nAttr r10 = .ok (attrs, r11) ∧
      p.player_type = pt ∧ p.relations = rel ∧ p.diplomacy = dip ∧ p.attributes = attrs) ∧
    p.userpatch_data.isSome = f32Eq c.version (ver 1197) ∧
    (p.gaia.isSome = true ↔ p.player_type = 2) ∧
    (∃ o rX rY, readPlayerAIGuard P p.player_type rX = .ok (o, rY) ∧
      (o.isSome = true → p.player_type = 3) ∧
      ¬(o.isSome = true ∧ p.gaia.isSome = true)) ∧
    (∃ rX rY, readUnitTypesBlock P c rX = .ok (p.unit_types, rY)) := by
  unfold playerReadFrom at h
  rw [ebind_ok_iff] at h
  obtain ⟨⟨pt, r1⟩, h1, h⟩ := h
  try dsimp only at h
  rw [ebind_ok_iff] at h
  obtain ⟨r2, h2, h⟩ := h
  try dsimp only at h
  rw [ebind_ok_iff] at h
  obtain ⟨⟨rel, r3⟩, h3, h⟩ := h
  try dsimp only at h
  rw [ebind_ok_iff] at h
  obtain ⟨⟨dip, r4⟩, h4, h⟩ := h
  try dsimp only at h
  rw [ebind_ok_iff] at h
  obtain ⟨⟨w1, r5⟩, h5, h⟩ := h
  try dsimp only at h
  rw [ebind_ok_iff] at h
  obtain ⟨⟨b1, r6⟩, h6, h⟩ := h
  try dsimp only at h
  rw [ebind_ok_iff] at h
  obtain ⟨⟨nm, r7⟩, h7, h⟩ := h
  try dsimp only at h
  rw [ebind_ok_iff] at h
  obtain ⟨r8, h8, h⟩ := h
  try dsimp only at h
  rw [ebind_ok_iff] at h
  obtain ⟨⟨nAttr, r9⟩, h9, h⟩ := h
  try dsimp only at h
  rw [ebind_ok_iff] at h
  obtain ⟨r10, h10, h⟩ := h
  try dsimp only at h
  rw [ebind_ok_iff] at h
  obtain ⟨⟨attrs, r11⟩, h11, h⟩ := h
  try dsimp only at h
  rw [ebind_ok_iff] at h
  obtain ⟨r12, h12, h⟩ := h
  try dsimp only at h
  rw [ebind_ok_iff] at h
  obtain ⟨r13, h13, h⟩ := h
  try dsimp only at h
  rw [ebind_ok_iff] at h
  obtain ⟨⟨iv0, r14⟩, h14, h⟩ := h
  try dsimp only at h
  rw [ebind_ok_iff] at h
  obtain ⟨⟨iv1, r15⟩, h15, h⟩ := h
  try dsimp only at h
  rw [ebind_ok_iff] at h
  obtain ⟨⟨sv, r16⟩, h16, h⟩ := h
  try dsimp only at h
  rw [ebind_ok_iff] at h
  obtain ⟨⟨sp0, r17⟩, h17, h⟩ := h
  try dsimp only at h
  rw [ebind_ok_iff] at h
  obtain ⟨⟨sp1, r18⟩, h18, h⟩ := h
  try dsimp only at h
  rw [ebind_ok_iff] at h
  obtain ⟨⟨cu1, r19⟩, h19, h⟩ := h
  try dsimp only at h
  rw [ebind_ok_iff] at h
  obtain ⟨⟨cv1, r20⟩, h20, h⟩ := h
  try dsimp only at h
  rw [ebind_ok_iff] at h
  obtain ⟨⟨gs1, r21⟩, h21, h⟩ := h
  try dsimp only at h
  rw [ebind_ok_iff] at h
  obtain ⟨⟨rs1, r22⟩, h22, h⟩ := h
  try dsimp only at h
  rw [ebind_ok_iff] at h
  obtain ⟨r23, h23, h⟩ := h
  try dsimp only at h
  rw [ebind_ok_iff] at h
  obtain ⟨⟨col, r24⟩, h24, h⟩ := h
  try dsimp only at h
  rw [ebind_ok_iff] at h
  obtain ⟨r25, h25, h⟩ := h
  try dsimp only at h
  rw [ebind_ok_iff] at h
  obtain ⟨⟨pac, r26⟩, h26, h⟩ := h
  try dsimp only at h
  rw [ebind_ok_iff] at h
  obtain ⟨⟨pdc, r27⟩, h27, h⟩ := h
  try dsimp only at h
  rw [ebind_ok_iff] at h
  obtain ⟨r28, h28, h⟩ := h
  try dsimp only at h
  rw [ebind_ok_iff] at h
  obtain ⟨r29, h29, h⟩ := h
  try dsimp only at h
  rw [ebind_ok_iff] at h
  obtain ⟨r30, h30, h⟩ := h
  try dsimp only at h
  rw [ebind_ok_iff] at h
  obtain ⟨r31, h31, h⟩ := h
  try dsimp only at h
  rw [ebind_ok_iff] at h
  obtain ⟨r32, h32, h⟩ := h
  try dsimp only at h
  rw [ebind_ok_iff] at h
  obtain ⟨r33, h33, h⟩ := h
  try dsimp only at h
  rw [ebind_ok_iff] at h
  obtain ⟨⟨dg, r34⟩, h34, h⟩ := h
  try dsimp only at h
  rw [ebind_ok_iff] at h
  obtain ⟨⟨ty1, r35⟩, h35, h⟩ := h
  try dsimp only at h
  rw [ebind_ok_iff] at h
  obtain ⟨⟨uc1, r36⟩, h36, h⟩ := h
  try dsimp only at h
  rw [ebind_ok_iff] at h
  obtain ⟨⟨uc2, r37⟩, h37, h⟩ := h
  try dsimp only at h
  rw [ebind_ok_iff] at h
  obtain ⟨r38, h38, h⟩ := h
  try dsimp only at h
  rw [ebind_ok_iff] at h
  obtain ⟨⟨fog, r39⟩, h39, h⟩ := h
  try dsimp only at h
  rw [ebind_ok_iff] at h
  obtain ⟨⟨ut1, r40⟩, h40, h⟩ := h
  try dsimp only at h
  rw [ebind_ok_iff] at h
  obtain ⟨⟨up, r41⟩, h41, h⟩ := h
  try dsimp only at h
  rw [ebind_ok_iff] at h
  obtain ⟨⟨ts, r42⟩, h42, h⟩ := h
  try dsimp only at h
  rw [ebind_ok_iff] at h
  obtain ⟨⟨uhc, r43⟩, h43, h⟩ := h
  try dsimp only at h
  rw [ebind_ok_iff] at h
  obtain ⟨r44, h44, h⟩ := h
  try dsimp only at h
  rw [ebind_ok_iff] at h
  obtain ⟨⟨hi, r45⟩, h45, h⟩ := h
  try dsimp only at h
  rw [ebind_ok_iff] at h
  obtain ⟨r46, h46, h⟩ := h
  try dsimp only at h
  rw [ebind_ok_iff] at h
  obtain ⟨r47, h47, h⟩ := h
  try dsimp only at h
  rw [ebind_ok_iff] at h
  obtain ⟨r48, h48, h⟩ := h
  try dsimp only at h
  rw [ebind_ok_iff] at h
  obtain ⟨r49, h49, h⟩ := h
  try dsimp only at h
  rw [ebind_ok_iff] at h
  obtain ⟨r50, h50, h⟩ := h
  try dsimp only at h
  rw [ebind_ok_iff] at h
  obtain ⟨r51, h51, h⟩ := h
  try dsimp only at h
  rw [ebind_ok_iff] at h
  obtain ⟨r52, h52, h⟩ := h
  try dsimp only at h
  rw [ebind_ok_iff] at h
  obtain ⟨r53, h53, h⟩ := h
  try dsimp only at h
  rw [ebind_ok_iff] at h
  obtain ⟨r54, h54, h⟩ := h
  try dsimp only at h
  rw [ebind_ok_iff] at h
  obtain ⟨r55, h55, h⟩ := h
  try dsimp only at h
  rw [ebind_ok_iff] at h
  obtain ⟨r56, h56, h⟩ := h
  try dsimp only at h
  rw [ebind_ok_iff] at h
  obtain ⟨r57, h57, h⟩ := h
  try dsimp only at h
  rw [ebind_ok_iff] at h
  obtain ⟨⟨tt, r58⟩, h58, h⟩ := h
  try dsimp only at h
  rw [ebind_ok_iff] at h
  obtain ⟨r59, h59, h⟩ := h
  try dsimp only at h
  rw [ebind_ok_iff] at h
  obtain ⟨r60, h60, h⟩ := h
  try dsimp only at h
  rw [ebind_ok_iff] at h
  obtain ⟨⟨aio, r61⟩, h61, h⟩ := h
  try dsimp only at h
  rw [ebind_ok_iff] at h
  obtain ⟨r62, h62, h⟩ := h
  try dsimp only at h
  rw [ebind_ok_iff] at h
  obtain ⟨⟨ga, r63⟩, h63, h⟩ := h
  try dsimp only at h
  rw [ebind_ok_iff] at h
  obtain ⟨r64, h64, h⟩ := h
  try dsimp only at h
  rw [ebind_ok_iff] at h
  obtain ⟨⟨uts, r65⟩, h65, h⟩ := h
  try dsimp only at h
  rw [ebind_ok_iff] at h
  obtain ⟨r66, h66, h⟩ := h
  try dsimp only at h
  rw [ebind_ok_iff] at h
  obtain ⟨⟨vm, r67⟩, h67, h⟩ := h
  try dsimp only at h
  rw [ebind_ok_iff] at h
  obtain ⟨⟨vr, r68⟩, h68, h⟩ := h
  try dsimp only at h
  rw [ebind_ok_iff] at h
  obtain ⟨r69, h69, h⟩ := h
  try dsimp only at h
  rw [ebind_ok_iff] at h
  obtain ⟨⟨us, r70⟩, h70, h⟩ := h
  try dsimp only at h
  rw [ebind_ok_iff] at h
  obtain ⟨r71, h71, h⟩ := h
  try dsimp only at h
  rw [ebind_ok_iff] at h
  obtain ⟨⟨sus, r72⟩, h72, h⟩ := h
  try dsimp only at h
  rw [ebind_ok_iff] at h
  obtain ⟨r73, h73, h⟩ := h
  try dsimp only at h
  rw [ebind_ok_iff] at h
  obtain ⟨⟨dus, r74⟩, h74, h⟩ := h
  try dsimp only at h
  rw [ebind_ok_iff] at h
  obtain ⟨r75, h75, h⟩ := h
  try dsimp only at h
  have hfin := h
  simp only [Except.ok.injEq, Prod.mk.injEq] at hfin
  obtain ⟨hp, hrE⟩ := hfin
  subst hp
  have hup := readUserPatchGate_ok h41
  have hga := readGaiaGate_ok h63
  have hai := readPlayerAIGuard_ok h61
  refine ⟨⟨pt, r1, r2, rel, r3, dip, r4, w1, r5, b1, r6, nm, r7, r8, nAttr, r9,
      r10, attrs, r11, h1, h2, h3, h4, h5, h6, h7, h8, h9, h10, h11,
      rfl, rfl, rfl, rfl⟩, hup.1, hga.1, ⟨aio, r60, r61, h61, hai.1, ?_⟩,
      ⟨r64, r65, h65⟩⟩
  rintro ⟨hsome, hgsome⟩
  have h3' := hai.1 hsome
  have h2' := hga.1.mp hgsome
  rw [h3'] at h2'
  exact absurd h2' (by decide)

theorem readListU16_consume : ∀ (n p : Nat) (a rest : List Nat), a.length = 2 * n →
    ∃ l, readListU16 n ⟨p, a ++ rest⟩ = .ok (l, ⟨p + 2 * n, rest⟩) := by
  intro n
  induction n with
  | zero =>
    intro p a rest ha
    have : a = [] := List.length_eq_zero.mp (by omega)
    subst this
    exact ⟨[], by simp [readListU16]⟩
  | succ k ih =>
    intro p a rest ha
    match a with
    | b0 :: b1 :: a' =>
      obtain ⟨l, hl⟩ := ih (p + 2) a' rest (by simp at ha; omega)
      refine ⟨(b0 + 256 * b1) :: l, ?_⟩
      show readListU16 (k + 1) ⟨p, b0 :: b1 :: (a' ++ rest)⟩ = _
      unfold readListU16
      have h1 : readU16 ⟨p, b0 :: b1 :: (a' ++ rest)⟩ =
          .ok (b0 + 256 * b1, ⟨p + 2, a' ++ rest⟩) := rfl
      rw [h1, ebind_ok]
      dsimp only
      rw [hl, ebind_ok]
      dsimp only
      simp only [Except.ok.injEq, Prod.mk.injEq, Rd.mk.injEq, and_true, true_and]
      omega

theorem upReadFrom_segments (p0 : Nat) (s1 s2 s3 s4 rest : List Nat)
    (h1 : s1.length = 4080) (h2 : s2.length = 1800) (h3 : s3.length = 200)
    (h4 : s4.length = 2096) :
    UserPatchData.read_from ⟨p0, s1 ++ (s2 ++ (s3 ++ (s4 ++ rest)))⟩ =
      .ok (⟨⟩, ⟨p0 + 8176, rest⟩) := by
  obtain ⟨l2, hl2⟩ := readListU16_consume 900 (p0 + 4080) s2 (s3 ++ (s4 ++ rest))
    (by omega)
  obtain ⟨l3, hl3⟩ := readListU16_consume 100 (p0 + 4080 + 2 * 900) s3 (s4 ++ rest)
    (by omega)
  have hb1 : readBytes 4080 ⟨p0, s1 ++ (s2 ++ (s3 ++ (s4 ++ rest)))⟩ =
      .ok (s1, ⟨p0 + 4080, s2 ++ (s3 ++ (s4 ++ rest))⟩) :=
    readBytes_append 4080 p0 s1 _ h1
  have hb4 : readBytes 2096 ⟨p0 + 4080 + 2 * 900 + 2 * 100, s4 ++ rest⟩ =
      .ok (s4, ⟨p0 + 4080 + 2 * 900 + 2 * 100 + 2096, rest⟩) :=
    readBytes_append 2096 _ s4 rest h4
  unfold UserPatchData.read_from
  simp only [hb1, ebind_ok, hl2, hl3, hb4]

/-- C3: the player decoder reads a `UserPatchData` block between
`update_time` and `PlayerTech` exactly when `f32_eq!(version, 11.97)` holds
(true at 11.97, false at 11.96 and 11.98), and the block consumes 4080
opaque bytes, then 900 u16 category priorities, then 100 u16 group
priorities, then 2096 further opaque bytes — 8176 bytes in all. -/
theorem c3_userpatch_gate {TT CU AI UN : Type} (P : Peers TT CU AI UN) (c : Ctx)
    (r : Rd) (p : Player TT CU UN) (rE : Rd)
    (h : playerReadFrom P c r = .ok (p, rE)) :
    p.userpatch_data.isSome = f32Eq c.version (ver 1197) ∧
    f32Eq (ver 1197) (ver 1197) = true ∧
    f32Eq (ver 1196) (ver 1197) = false ∧
    f32Eq (ver 1198) (ver 1197) = false ∧
    (∀ (p0 : Nat) (s1 s2 s3 s4 rest : List Nat), s1.length = 4080 →
      s2.length = 1800 → s3.length = 200 → s4.length = 2096 →
      UserPatchData.read_from ⟨p0, s1 ++ (s2 ++ (s3 ++ (s4 ++ rest)))⟩ =
        .ok (⟨⟩, ⟨p0 + 8176, rest⟩)) ∧
    (∀ (rI : Rd) (up : Option UserPatchData) (rO : Rd),
      readUserPatchGate c rI = .ok (up, rO) →
      up.isSome = f32Eq c.version (ver 1197) ∧
      (f32Eq c.version (ver 1197) = false → up = none ∧ rO = rI) ∧
      (f32Eq c.version (ver 1197) = true → rO.pos = rI.pos + 8176)) := by
  refine ⟨(playerReadFrom_inv h).2.1, by decide, by decide, by decide,
    fun p0 s1 s2 s3 s4 rest h1 h2 h3 h4 =>
      upReadFrom_segments p0 s1 s2 s3 s4 rest h1 h2 h3 h4,
    fun rI up rO hg => readUserPatchGate_ok hg⟩

/-- Witness for C3 at concrete inputs: the sample version-10.55 decode
carries no UserPatch block, the 8176-byte zero payload is consumed exactly
at version 11.97, and the gate consumes nothing at other versions. -/
theorem c3_userpatch_gate_witness :
    samplePlayer1055.userpatch_data.isSome = f32Eq ctx1055.version (ver 1197) ∧
    UserPatchData.read_from ⟨0, List.replicate 4080 0 ++ (List.replicate 1800 0 ++
      (List.replicate 200 0 ++ (List.replicate 2096 0 ++ [])))⟩ =
      .ok (⟨⟩, ⟨8176, []⟩) ∧
    readUserPatchGate ctx1197 ⟨0, List.replicate 4080 0 ++ (List.replicate 1800 0 ++
      (List.replicate 200 0 ++ (List.replicate 2096 0 ++ [])))⟩ =
      .ok (some ⟨⟩, ⟨8176, []⟩) := by
  have h := c3_userpatch_gate peersW ctx1055 ⟨0, smp1⟩ samplePlayer1055 ⟨4731, []⟩
    sample1055_decode
  have hup : UserPatchData.read_from ⟨0, List.replicate 4080 0 ++
      (List.replicate 1800 0 ++ (List.replicate 200 0 ++ (List.replicate 2096 0 ++ [])))⟩ =
      .ok (⟨⟩, ⟨8176, []⟩) := by
    have := h.2.2.2.2.1 0 (List.replicate 4080 0) (List.replicate 1800 0)
      (List.replicate 200 0) (List.replicate 2096 0) []
      (List.length_replicate 4080 0) (List.length_replicate 1800 0)
      (List.length_replicate 200 0) (List.length_replicate 2096 0)
    exact this
  refine ⟨h.1, hup, ?_⟩
  unfold readUserPatchGate
  rw [if_pos (by decide), hup]
  rfl

/-- C4: `gaia` is present exactly when `player_type = 2`; the `PlayerAI`
record is read exactly when `player_type = 3` and the u32 probe word
equals 1, the probe not being read at all for any other player type; so
gaia and the player-ai record are never both present. -/
theorem c4_gaia_ai_discriminator {TT CU AI UN : Type} (P : Peers TT CU AI UN) (c : Ctx)
    (r : Rd) (p : Player TT CU UN) (rE : Rd)
    (h : playerReadFrom P c r = .ok (p, rE)) :
    (p.gaia.isSome = true ↔ p.player_type = 2) ∧
    (∃ o rX rY, readPlayerAIGuard P p.player_type rX = .ok (o, rY) ∧
      ¬(o.isSome = true ∧ p.gaia.isSome = true)) ∧
    (∀ (pt : Nat) (rI : Rd) (o : Option AI) (rO : Rd),
      readPlayerAIGuard P pt rI = .ok (o, rO) →
      (o.isSome = true → pt = 3) ∧
      (pt ≠ 3 → o = none ∧ rO = rI) ∧
      (pt = 3 → ∃ w r1, readU32 rI = .ok (w, r1) ∧
        (w = 1 → o.isSome = true) ∧ (w ≠ 1 → o = none ∧ rO = r1))) := by
  have hinv := playerReadFrom_inv h
  obtain ⟨o, rX, rY, hg, _, hnb⟩ := hinv.2.2.2.1
  exact ⟨hinv.2.2.1, ⟨o, rX, rY, hg, hnb⟩,
    fun pt rI o rO hg => readPlayerAIGuard_ok hg⟩

/-- Witness for C4 at concrete inputs: the sample decode (player type 2)
has gaia present, and a concrete guard run with player type 5 reads no
probe word and yields no player-ai record. -/
theorem c4_gaia_ai_discriminator_witness :
    (samplePlayer1055.gaia.isSome = true ↔ samplePlayer1055.player_type = 2) ∧
    ((none : Option Unit) = none ∧ (⟨0, ([7] : List Nat)⟩ : Rd) = ⟨0, [7]⟩) := by
  have h := c4_gaia_ai_discriminator peersW ctx1055 ⟨0, smp1⟩ samplePlayer1055
    ⟨4731, []⟩ sample1055_decode
  exact ⟨h.1, (h.2.2 5 ⟨0, [7]⟩ none ⟨0, [7]⟩ (by decide)).2.1 (by decide)⟩

/-- C6: for every successfully decoded player, `relations` has one entry
per match player, `diplomacy` has exactly 9 entries, `attributes` has
exactly the decoded attribute count, and the unit-type vector has one
entry per availability-mask word, populated exactly where the mask word
is non-zero. -/
theorem c6_length_structure {TT CU AI UN : Type} (P : Peers TT CU AI UN) (c : Ctx)
    (r : Rd) (p : Player TT CU UN) (rE : Rd)
    (h : playerReadFrom P c r = .ok (p, rE)) :
    p.relations.length = c.numPlayers ∧
    p.diplomacy.length = 9 ∧
    (∃ pt r1 r2 rel r3 dip r4 w1 r5 b1 r6 nm r7 r8 nAttr r9 r10 attrs r11,
      readU8 r = .ok (pt, r1) ∧
      assertMarkerIf (ver 1055) c 11 r1 = .ok r2 ∧
      readBytes c.numPlayers r2 = .ok (rel, r3) ∧
      readListU32 9 r3 = .ok (dip, r4) ∧
      readU32 r4 = .ok (w1, r5) ∧
      readU8 r5 = .ok (b1, r6) ∧
      readU16LengthPrefixedStr r6 = .ok (nm, r7) ∧
      assertMarkerIf (ver 1055) c 22 r7 = .ok r8 ∧
      readU32 r8 = .ok (nAttr, r9) ∧
      assertMarkerIf (ver 1055) c 33 r9 = .ok r10 ∧
      readListF32 nAttr r10 = .ok (attrs, r11) ∧
      p.attributes = attrs ∧ p.attributes.length = nAttr) ∧
    (∃ rX rY, readUnitTypesBlock P c rX = .ok (p.unit_types, rY)) ∧
    (∀ (rI : Rd) (uts : List (Option CU)) (rO : Rd),
      readUnitTypesBlock P c rI = .ok (uts, rO) →
      ∃ n r1 ws r2 r3, readU32 rI = .ok (n, r1) ∧ readListU32 n r1 = .ok (ws, r2) ∧
        assertMarkerIf (ver 1055) c 11 r2 = .ok r3 ∧ ws.length = n ∧
        uts.length = ws.length ∧
        ∀ i, (uts.getD i none).isSome = (ws.getD i 0 != 0)) := by
  have hinv := playerReadFrom_inv h
  obtain ⟨pt, r1, r2, rel, r3, dip, r4, w1, r5, b1, r6, nm, r7, r8, nAttr, r9,
    r10, attrs, r11, h1, h2, h3, h4, h5, h6, h7, h8, h9, h10, h11,
    hpt, hrel, hdip, hattrs⟩ := hinv.1
  refine ⟨?_, ?_, ⟨pt, r1, r2, rel, r3, dip, r4, w1, r5, b1, r6, nm, r7, r8,
    nAttr, r9, r10, attrs, r11, h1, h2, h3, h4, h5, h6, h7, h8, h9, h10, h11,
    hattrs, ?_⟩, hinv.2.2.2.2, fun rI uts rO hb => readUnitTypesBlock_ok hb⟩
  · rw [hrel]; exact (readBytes_ok h3).1
  · rw [hdip]; exact (readListU32_ok h4).1
  · rw [hattrs]; exact (readListF32_ok h11).1

/-- Witness for C6 at concrete inputs: the sample decode has a one-entry
relations vector and nine diplomacy words, and a concrete unit-type block
with mask `[1, 0]` yields a populated first entry and an absent second. -/
theorem c6_length_structure_witness :
    samplePlayer1055.relations.length = ctx1055.numPlayers ∧
    samplePlayer1055.diplomacy.length = 9 ∧
    samplePlayer1055.attributes.length = 0 ∧
    readUnitTypesBlock peersW ctx1055
      ⟨0, [2, 0, 0, 0, 1, 0, 0, 0, 0, 0, 0, 0, 11, 22, 33]⟩ =
      .ok ([some (), none], ⟨15, []⟩) ∧
    (([some (), none] : List (Option Unit)).getD 0 none).isSome = ((1 : Nat) != 0) ∧
    (([some (), none] : List (Option Unit)).getD 1 none).isSome = ((0 : Nat) != 0) := by
  have h := c6_length_structure peersW ctx1055 ⟨0, smp1⟩ samplePlayer1055
    ⟨4731, []⟩ sample1055_decode
  exact ⟨h.1, h.2.1, rfl, by decide, by decide, by decide⟩

theorem readU16_valid {r : Rd} {w : Nat} {r' : Rd} (hv : validBytes r.data)
    (h : readU16 r = .ok (w, r')) : w < 65536 ∧ validBytes r'.data := by
  unfold readU16 at h
  split at h
  next b0 b1 rest heq =>
    simp only [Except.ok.injEq, Prod.mk.injEq] at h
    obtain ⟨rfl, rfl⟩ := h
    rw [heq] at hv
    have hb0 : b0 < 256 := hv b0 (by simp)
    have hb1 : b1 < 256 := hv b1 (by simp)
    exact ⟨by omega, fun b hb => hv b (by simp [hb])⟩
  next => exact absurd h (by simp)

theorem readU8_valid {r : Rd} {b : Nat} {r' : Rd} (hv : validBytes r.data)
    (h : readU8 r = .ok (b, r')) : b < 256 ∧ validBytes r'.data := by
  unfold readU8 at h
  split at h
  · exact absurd h (by simp)
  next b0 rest heq =>
    simp only [Except.ok.injEq, Prod.mk.injEq] at h
    obtain ⟨rfl, rfl⟩ := h
    rw [heq] at hv
    exact ⟨hv b0 (by simp), fun x hx => hv x (by simp [hx])⟩

theorem toI16_range {w : Nat} (hw : w < 65536) : -32768 ≤ toI16 w ∧ toI16 w < 32768 := by
  unfold toI16
  split <;> omega

theorem toI8_range {b : Nat} (hb : b < 256) : -128 ≤ toI8 b ∧ toI8 b < 128 := by
  unfold toI8
  split <;> omega

theorem readListI16_ok : ∀ {n : Nat} {r : Rd} {l : List Int} {r' : Rd},
    validBytes r.data → readListI16 n r = .ok (l, r') →
    l.length = n ∧ r'.pos = r.pos + 2 * n ∧
    ∀ t ∈ l, -32768 ≤ t ∧ t < 32768 := by
  intro n
  induction n with
  | zero =>
    intro r l r' _ h
    unfold readListI16 at h
    simp only [Except.ok.injEq, Prod.mk.injEq] at h
    obtain ⟨rfl, rfl⟩ := h
    simp
  | succ k ih =>
    intro r l r' hv h
    unfold readListI16 at h
    simp only [ebind_ok_iff, Prod.exists] at h
    obtain ⟨x, r1, hx, xs, r2, hxs, hfin⟩ := h
    simp only [Except.ok.injEq, Prod.mk.injEq] at hfin
    obtain ⟨rfl, rfl⟩ := hfin
    unfold readI16 at hx
    cases hu : readU16 r with
    | error e => rw [hu] at hx; exact absurd hx (by simp [Except.map])
    | ok a =>
      rw [hu] at hx
      obtain ⟨w, rw1⟩ := a
      simp only [Except.map, Except.ok.injEq, Prod.mk.injEq] at hx
      obtain ⟨rfl, rfl⟩ := hx
      have hval := readU16_valid hv hu
      have hpos := readU16_ok hu
      have hrec := ih hval.2 hxs
      refine ⟨by simp [hrec.1], by omega, fun t ht => ?_⟩
      rcases List.mem_cons.mp ht with h1 | h2
      · subst h1; exact toI16_range hval.1
      · exact hrec.2.2 t h2

theorem readListI8_ok : ∀ {n : Nat} {r : Rd} {l : List Int} {r' : Rd},
    validBytes r.data → readListI8 n r = .ok (l, r') →
    l.length = n ∧ r'.pos = r.pos + 1 * n ∧
    ∀ t ∈ l, -128 ≤ t ∧ t < 128 := by
  intro n
  induction n with
  | zero =>
    intro r l r' _ h
    unfold readListI8 at h
    simp only [Except.ok.injEq, Prod.mk.injEq] at h
    obtain ⟨rfl, rfl⟩ := h
    simp
  | succ k ih =>
    intro r l r' hv h
    unfold readListI8 at h
    simp only [ebind_ok_iff, Prod.exists] at h
    obtain ⟨x, r1, hx, xs, r2, hxs, hfin⟩ := h
    simp only [Except.ok.injEq, Prod.mk.injEq] at hfin
    obtain ⟨rfl, rfl⟩ := hfin
    unfold readI8 at hx
    cases hu : readU8 r with
    | error e => rw [hu] at hx; exact absurd hx (by simp [Except.map])
    | ok a =>
      rw [hu] at hx
      obtain ⟨w, rw1⟩ := a
      simp only [Except.map, Except.ok.injEq, Prod.mk.injEq] at hx
      obtain ⟨rfl, rfl⟩ := hx
      have hval := readU8_valid hv hu
      have hpos := readU8_ok hu
      have hrec := ih hval.2 hxs
      refine ⟨by simp [hrec.1], by omega, fun t ht => ?_⟩
      rcases List.mem_cons.mp ht with h1 | h2
      · subst h1; exact toI8_range hval.1
      · exact hrec.2.2 t h2

/-- C7 (amended): the decoded tile vector has `width * height` entries
with the product computed as the wrapping u32 multiplication the source
performs (equal to the plain product whenever it is below `2^32`); each
tile is a signed 16-bit value, read as i16 on `DefinitiveEdition` and
later and as an i8 widened sign-preservingly (so in `[-128, 128)`) on
earlier editions; the explored-tiles count word is read if and only if
the version is at least 6.70 (visible in the consumed-byte count). -/
theorem c7_visible_map (c : Ctx) (r : Rd) (m : VisibleMap) (r' : Rd)
    (hv : validBytes r.data)
    (h : VisibleMap.read_from c r = .ok (m, r')) :
    m.tiles.length = m.width * m.height % 4294967296 ∧
    r'.pos = r.pos + 8 + (if ver 670 ≤ c.version then 4 else 0) + 2 +
      (if variantGeDE c.variant then 2 else 1) * m.tiles.length ∧
    (∀ t ∈ m.tiles, -32768 ≤ t ∧ t < 32768) ∧
    (variantGeDE c.variant = false → ∀ t ∈ m.tiles, -128 ≤ t ∧ t < 128) := by
  unfold VisibleMap.read_from at h
  simp only [ebind_ok_iff, Prod.exists] at h
  obtain ⟨w, r1, hw, ht, r2, hht, ex, r3, hex, pid, r4, hpid, tiles, r5, htiles, hfin⟩ := h
  simp only [Except.ok.injEq, Prod.mk.injEq] at hfin
  obtain ⟨rfl, rfl⟩ := hfin
  dsimp only
  have hw1 := readU32_ok hw
  have hh1 := readU32_ok hht
  have hval1 : validBytes r1.data := by
    unfold readU32 at hw
    split at hw
    next b0 b1 b2 b3 rest heq =>
      simp only [Except.ok.injEq, Prod.mk.injEq] at hw
      obtain ⟨-, rfl⟩ := hw
      rw [heq] at hv
      exact fun b hb => hv b (by simp [hb])
    next => exact absurd hw (by simp)
  have hval2 : validBytes r2.data := by
    unfold readU32 at hht
    split at hht
    next b0 b1 b2 b3 rest heq =>
      simp only [Except.ok.injEq, Prod.mk.injEq] at hht
      obtain ⟨-, rfl⟩ := hht
      rw [heq] at hval1
      exact fun b hb => hval1 b (by simp [hb])
    next => exact absurd hht (by simp)
  have hexsplit : (ver 670 ≤ c.version ∧ readU32 r2 = .ok (ex, r3)) ∨
      (¬ ver 670 ≤ c.version ∧ ex = 0 ∧ r3 = r2) := by
    by_cases h670 : ver 670 ≤ c.version
    · rw [if_pos h670] at hex; exact Or.inl ⟨h670, hex⟩
    · rw [if_neg h670] at hex
      simp only [Except.ok.injEq, Prod.mk.injEq] at hex
      exact Or.inr ⟨h670, hex.1.symm, hex.2.symm⟩
  have hval3 : validBytes r3.data := by
    rcases hexsplit with ⟨-, hex'⟩ | ⟨-, -, rfl⟩
    · unfold readU32 at hex'
      split at hex'
      next b0 b1 b2 b3 rest heq =>
        simp only [Except.ok.injEq, Prod.mk.injEq] at hex'
        obtain ⟨-, rfl⟩ := hex'
        rw [heq] at hval2
        exact fun b hb => hval2 b (by simp [hb])
      next => exact absurd hex' (by simp)
    · exact hval2
  have hpid1 := readU16_ok hpid
  have hval4 : validBytes r4.data := (readU16_valid hval3 hpid).2
  have hpos3 : r3.pos = r2.pos + (if ver 670 ≤ c.version then 4 else 0) := by
    rcases hexsplit with ⟨h670, hex'⟩ | ⟨h670, -, rfl⟩
    · rw [if_pos h670]; exact (readU32_ok hex').1
    · rw [if_neg h670]; omega
  by_cases hde : variantGeDE c.variant
  · rw [if_pos hde] at htiles
    have hrec := readListI16_ok hval4 htiles
    rw [if_pos hde]
    refine ⟨hrec.1, by omega, hrec.2.2, fun hcon => absurd hde (by simp [hcon])⟩
  · rw [if_neg hde] at htiles
    have hrec := readListI8_ok hval4 htiles
    rw [if_neg hde]
    refine ⟨hrec.1, by omega, fun t ht => ?_, fun _ t ht => hrec.2.2 t ht⟩
    have := hrec.2.2 t ht
    omega

/-- C7 as stated is false at the wrapping corner: a map declaring
`width = height = 65536` decodes successfully with an empty tile vector,
because the source computes the tile count with a wrapping u32
multiplication, and `0 ≠ 65536 * 65536`. -/
theorem c7_visible_map_counterexample :
    VisibleMap.read_from ctx1055 ⟨0, [0, 0, 1, 0, 0, 0, 1, 0, 0, 0, 0, 0, 0, 0]⟩ =
      .ok (⟨65536, 65536, 0, 0, []⟩, ⟨14, []⟩) ∧
    (⟨65536, 65536, 0, 0, []⟩ : VisibleMap).tiles.length ≠ 65536 * 65536 := by
  exact ⟨by decide, by decide⟩

/-- Witness for C7 at concrete inputs: a 2×2 non-definitive map whose four
tile bytes `0, 255, 127, 128` decode to the sign-extended tiles
`0, -1, 127, -128`. -/
theorem c7_visible_map_witness :
    VisibleMap.read_from ctx1055
      ⟨0, [2, 0, 0, 0, 2, 0, 0, 0, 0, 0, 0, 0, 0, 0, 0, 255, 127, 128]⟩ =
      .ok (⟨2, 2, 0, 0, [0, -1, 127, -128]⟩, ⟨18, []⟩) ∧
    ([0, -1, 127, -128] : List Int).length = 2 * 2 % 4294967296 ∧
    (18 : Nat) = 0 + 8 + (if ver 670 ≤ ctx1055.version then 4 else 0) + 2 +
      (if variantGeDE ctx1055.variant then 2 else 1) *
        ([0, -1, 127, -128] : List Int).length := by
  have hdec : VisibleMap.read_from ctx1055
      ⟨0, [2, 0, 0, 0, 2, 0, 0, 0, 0, 0, 0, 0, 0, 0, 0, 255, 127, 128]⟩ =
      .ok (⟨2, 2, 0, 0, [0, -1, 127, -128]⟩, ⟨18, []⟩) := by decide
  have h := c7_visible_map ctx1055 _ _ _ (by decide) hdec
  exact ⟨hdec, h.1, h.2.1⟩

theorem readU32_wU32 {n : Nat} (hn : n < 4294967296) (p : Nat) (rest : List Nat) :
    readU32 ⟨p, wU32 n ++ rest⟩ = .ok (n, ⟨p + 4, rest⟩) := by
  have h : readU32 ⟨p, wU32 n ++ rest⟩
      = .ok (n % 256 + 256 * (n / 256 % 256) + 65536 * (n / 65536 % 256)
          + 16777216 * (n / 16777216 % 256), ⟨p + 4, rest⟩) := rfl
  have hv : n % 256 + 256 * (n / 256 % 256) + 65536 * (n / 65536 % 256)
      + 16777216 * (n / 16777216 % 256) = n := by omega
  rw [h, hv]

theorem wU32_combine {b0 b1 b2 b3 : Nat} (h0 : b0 < 256) (h1 : b1 < 256)
    (h2 : b2 < 256) (h3 : b3 < 256) :
    wU32 (b0 + 256 * b1 + 65536 * b2 + 16777216 * b3) = [b0, b1, b2, b3] := by
  simp only [wU32, List.cons.injEq, and_true]
  omega

theorem emod_eq_mod (i m : Int) : i.emod m = i % m := rfl

theorem emod_toNat_lt (i : Int) : (i.emod 4294967296).toNat < 4294967296 := by
  rw [emod_eq_mod]
  omega

theorem readI32_wI32 {i : Int} (hi : inI32 i) (p : Nat) (rest : List Nat) :
    readI32 ⟨p, wI32 i ++ rest⟩ = .ok (i, ⟨p + 4, rest⟩) := by
  unfold readI32 wI32
  rw [readU32_wU32 (emod_toNat_lt i) p rest]
  simp only [Except.map]
  obtain ⟨hlo, hhi⟩ := hi
  have htoi : toI32 ((i.emod 4294967296).toNat) = i := by
    rw [emod_eq_mod]
    unfold toI32
    split <;> omega
  rw [htoi]

theorem wI32_toI32 {b0 b1 b2 b3 : Nat} (h0 : b0 < 256) (h1 : b1 < 256)
    (h2 : b2 < 256) (h3 : b3 < 256) :
    wI32 (toI32 (b0 + 256 * b1 + 65536 * b2 + 16777216 * b3)) = [b0, b1, b2, b3] := by
  unfold wI32
  have hn : ((toI32 (b0 + 256 * b1 + 65536 * b2 + 16777216 * b3)).emod
      4294967296).toNat = b0 + 256 * b1 + 65536 * b2 + 16777216 * b3 := by
    rw [emod_eq_mod]
    unfold toI32
    split <;> omega
  rw [hn]
  exact wU32_combine h0 h1 h2 h3

theorem toI32_range {w : Nat} (hw : w < 4294967296) : inI32 (toI32 w) := by
  unfold inI32 toI32
  split <;> omega

theorem readI8_wI8 {i : Int} (hi : inI8 i) (p : Nat) (rest : List Nat) :
    readI8 ⟨p, wI8 i ++ rest⟩ = .ok (i, ⟨p + 1, rest⟩) := by
  unfold readI8 wI8
  show Except.map _ (readU8 ⟨p, (i.emod 256).toNat :: rest⟩) = _
  unfold readU8
  simp only [Except.map]
  obtain ⟨hlo, hhi⟩ := hi
  have htoi : toI8 ((i.emod 256).toNat) = i := by
    rw [emod_eq_mod]
    unfold toI8
    split <;> omega
  rw [htoi]

theorem wI8_toI8 {b : Nat} (hb : b < 256) : wI8 (toI8 b) = [b] := by
  unfold wI8 toI8
  rw [emod_eq_mod]
  split <;> (simp only [List.cons.injEq, and_true]; omega)

theorem readU16_00 (p : Nat) (rest : List Nat) :
    readU16 ⟨p, 0 :: 0 :: rest⟩ = .ok (0, ⟨p + 2, rest⟩) := rfl

theorem readU16_wU16_0 (p : Nat) (rest : List Nat) :
    readU16 ⟨p, wU16 0 ++ rest⟩ = .ok (0, ⟨p + 2, rest⟩) := rfl

theorem readU32_wI32_nonneg {i : Int} (h0 : 0 ≤ i) (h1 : i < 2147483648)
    (p : Nat) (rest : List Nat) :
    readU32 ⟨p, wI32 i ++ rest⟩ = .ok (i.toNat, ⟨p + 4, rest⟩) := by
  unfold wI32
  rw [readU32_wU32 (emod_toNat_lt i) p rest]
  have hmod : (i.emod 4294967296).toNat = i.toNat := by
    rw [emod_eq_mod]
    omega
  rw [hmod]

theorem wI32_ofNat {b0 b1 b2 b3 : Nat} (h0 : b0 < 256) (h1 : b1 < 256)
    (h2 : b2 < 256) (h3 : b3 < 128) :
    wI32 ((b0 + 256 * b1 + 65536 * b2 + 16777216 * b3 : Nat) : Int) = [b0, b1, b2, b3] := by
  unfold wI32
  have hn : (((b0 + 256 * b1 + 65536 * b2 + 16777216 * b3 : Nat) : Int).emod
      4294967296).toNat = b0 + 256 * b1 + 65536 * b2 + 16777216 * b3 := by
    rw [emod_eq_mod]
    omega
  rw [hn]
  exact wU32_combine h0 h1 h2 (by omega)

/-- C5: at version ≥ 11.62, a negative signed saved-view count yields the
empty saved-view list with no further bytes consumed, and a non-negative
count yields exactly that many `f32` pairs, so the list length is the
decoded count clamped at zero. -/
theorem c5_saved_view_clamp (c : Ctx) (hv : ver 1162 ≤ c.version)
    (r : Rd) (n : Int) (r1 : Rd) (hn : readI32 r = .ok (n, r1)) :
    (n < 0 → readSavedViews c r = .ok ([], r1)) ∧
    (0 ≤ n → ∀ l r2, readSavedViews c r = .ok (l, r2) →
      l.length = n.toNat ∧ r2.pos = r1.pos + 8 * n.toNat) := by
  have hred : readSavedViews c r =
      readPairsF32 (if n < 0 then 0 else n.toNat) r1 := by
    unfold readSavedViews
    rw [if_pos hv]
    show readI32 r >>= _ = _
    rw [hn, ebind_ok]
  constructor
  · intro hneg
    rw [hred, if_pos hneg]
    rfl
  · intro hpos l r2 hl
    rw [hred, if_neg (by omega)] at hl
    exact readPairsF32_ok hl

theorem scanForAux_found (m : Nat) : ∀ (g : List Nat), m ∉ g → ∀ (s p : Nat) (rest : List Nat),
    scanForAux m s p (g ++ m :: rest) = .ok (s + g.length, ⟨p + g.length + 1, rest⟩) := by
  intro g
  induction g with
  | nil =>
    intro _ s p rest
    unfold scanForAux
    simp
  | cons a g' ih =>
    intro hm s p rest
    have ha : a ≠ m := fun hc => hm (by simp [hc])
    have hg' : m ∉ g' := fun hc => hm (by simp [hc])
    show scanForAux m s p (a :: (g' ++ m :: rest)) = _
    unfold scanForAux
    rw [if_neg ha, ih hg' (s + 1) (p + 1) rest]
    simp only [List.length_cons, Except.ok.injEq, Prod.mk.injEq, Rd.mk.injEq, and_true]
    omega

theorem scanForAux_absent (m : Nat) : ∀ (g : List Nat), m ∉ g → ∀ (s p : Nat),
    scanForAux m s p g = .error .unexpectedEnd := by
  intro g
  induction g with
  | nil => intro _ s p; rfl
  | cons a g' ih =>
    intro hm s p
    have ha : a ≠ m := fun hc => hm (by simp [hc])
    have hg' : m ∉ g' := fun hc => hm (by simp [hc])
    unfold scanForAux
    rw [if_neg ha, ih hg']

theorem assertMarker_ok (v : Rat) (m p : Nat) (rest : List Nat) :
    assertMarker v m ⟨p, m :: rest⟩ = .ok ⟨p + 1, rest⟩ := by
  unfold assertMarker readU8
  simp

theorem assertMarker_mismatch (v : Rat) (m p b : Nat) (g rest : List Nat)
    (hb : b ≠ m) (hg : m ∉ g) :
    assertMarker v m ⟨p, b :: (g ++ m :: rest)⟩ =
      .error (.headerError (p + 1) (.missingMarker v m b (1 + g.length))) := by
  have hr : readU8 ⟨p, b :: (g ++ m :: rest)⟩ = .ok (b, ⟨p + 1, g ++ m :: rest⟩) := rfl
  unfold assertMarker
  rw [hr]
  dsimp only
  rw [if_neg hb, scanForAux_found m g hg 1 (p + 1) rest]
  dsimp only
  simp only [Except.error.injEq, Err.headerError.injEq]
  exact ⟨by omega, trivial⟩

theorem assertMarker_mismatch_absent (v : Rat) (m p b : Nat) (g : List Nat)
    (hb : b ≠ m) (hg : m ∉ g) :
    assertMarker v m ⟨p, b :: g⟩ = .error .unexpectedEnd := by
  have hr : readU8 ⟨p, b :: g⟩ = .ok (b, ⟨p + 1, g⟩) := rfl
  unfold assertMarker
  rw [hr]
  dsimp only
  rw [if_neg hb, scanForAux_absent m g hg]

/-- C1 (amended): at a sentinel joint checked via the `assert_marker!`
macro (here the first joint of the block, after `player_type`, for version
≥ 10.55), a mismatched byte makes `Player::read_from` return
`HeaderError(offset, MissingMarker(version, 11, observed, skipped))` —
with the offset just past the mismatched byte — provided the expected
marker value occurs later in the stream, and `UnexpectedEnd` otherwise;
but at the six joints the source checks with `assert_eq!` (after
`resigned`, after `color`, after the unit-types block, after
`VisibleResources`, after the sleeping-units list and after the
doppelganger-units list) a mismatch panics instead of returning a
`MissingMarker` error, as the concrete 70-byte run reaching the
`resigned` joint shows. -/
theorem c1_sentinel_mismatch {TT CU AI UN : Type} (P : Peers TT CU AI UN) (c : Ctx)
    (hv : ver 1055 ≤ c.version) (p pt b : Nat) (g rest : List Nat)
    (hb : b ≠ 11) (hg : 11 ∉ g) :
    playerReadFrom P c ⟨p, pt :: b :: (g ++ 11 :: rest)⟩ =
      .error (.headerError (p + 2) (.missingMarker c.version 11 b (1 + g.length))) ∧
    playerReadFrom P c ⟨p, pt :: b :: g⟩ = .error .unexpectedEnd ∧
    playerReadFrom peersW ctx1055 ⟨0, c1PanicBytes⟩ = .error .panicAssert := by
  refine ⟨?_, ?_, by decide⟩
  · have h1 : readU8 ⟨p, pt :: b :: (g ++ 11 :: rest)⟩ =
        .ok (pt, ⟨p + 1, b :: (g ++ 11 :: rest)⟩) := rfl
    have h2 : assertMarkerIf (ver 1055) c 11 ⟨p + 1, b :: (g ++ 11 :: rest)⟩ =
        .error (.headerError (p + 2) (.missingMarker c.version 11 b (1 + g.length))) := by
      unfold assertMarkerIf
      rw [if_pos hv]
      exact assertMarker_mismatch c.version 11 (p + 1) b g rest hb hg
    simp only [playerReadFrom, h1, ebind_ok, h2, ebind_err]
  · have h1 : readU8 ⟨p, pt :: b :: g⟩ = .ok (pt, ⟨p + 1, b :: g⟩) := rfl
    have h2 : assertMarkerIf (ver 1055) c 11 ⟨p + 1, b :: g⟩ =
        .error .unexpectedEnd := by
      unfold assertMarkerIf
      rw [if_pos hv]
      exact assertMarker_mismatch_absent c.version 11 (p + 1) b g hb hg
    simp only [playerReadFrom, h1, ebind_ok, h2, ebind_err]

/-- Witness for C1 at concrete inputs: version 10.55, a stray byte 7 at the
first sentinel joint with the marker three bytes later. -/
theorem c1_sentinel_mismatch_witness :
    playerReadFrom peersW ctx1055 ⟨0, 2 :: 7 :: ([5, 6] ++ 11 :: [])⟩ =
      .error (.headerError 2 (.missingMarker ctx1055.version 11 7 3)) := by
  have h := (c1_sentinel_mismatch peersW ctx1055 (by decide) 0 2 7 [5, 6] []
    (by decide) (by decide)).1
  simpa using h

/-- C1 as stated is false: at the joint after `resigned` the decoder
panics (`assert_eq!`), it does not return a `HeaderError`-wrapped
`MissingMarker`. -/
theorem c1_sentinel_counterexample :
    playerReadFrom peersW ctx1055 ⟨0, c1PanicBytes⟩ = .error .panicAssert ∧
    isMissingMarkerFailure (playerReadFrom peersW ctx1055 ⟨0, c1PanicBytes⟩) = false := by
  exact ⟨by decide, by decide⟩

theorem skipN_append (n p : Nat) (a b : List Nat) (ha : a.length = n) :
    skipN n ⟨p, a ++ b⟩ = .ok ⟨p + n, b⟩ := by
  unfold skipN
  rw [if_pos (by simp [ha])]
  subst ha
  rw [List.drop_left]

theorem hasPair11_cons_false {a : Nat} {l : List Nat} (h : hasPair11 (a :: l) = false) :
    hasPair11 l = false := by
  cases l with
  | nil => rfl
  | cons b t =>
    unfold hasPair11 at h
    simp only [Bool.or_eq_false_iff] at h
    exact h.2

theorem scanDoubleMarker_finds : ∀ (n : Nat) (g : List Nat), g.length ≤ n →
    hasPair11 (g ++ [11]) = false → ∀ (p : Nat) (rest : List Nat),
    scanDoubleMarker p (g ++ 11 :: 11 :: rest) = .ok ⟨p + g.length + 2, rest⟩ := by
  intro n
  induction n with
  | zero =>
    intro g hlen _ p rest
    have : g = [] := List.length_eq_zero.mp (Nat.le_zero.mp hlen)
    subst this
    show scanDoubleMarker p (11 :: 11 :: rest) = _
    unfold scanDoubleMarker
    simp
  | succ k ih =>
    intro g hlen hpair p rest
    match g with
    | [] =>
      show scanDoubleMarker p (11 :: 11 :: rest) = _
      unfold scanDoubleMarker
      simp
    | a :: g' =>
      by_cases ha : a = 11
      · subst ha
        match g' with
        | [] => simp [hasPair11] at hpair
        | c :: g'' =>
          have hc : c ≠ 11 := by
            intro hc
            subst hc
            simp [hasPair11] at hpair
          have hpair'' : hasPair11 (g'' ++ [11]) = false :=
            hasPair11_cons_false (hasPair11_cons_false (by simpa using hpair))
          show scanDoubleMarker p (11 :: c :: (g'' ++ 11 :: 11 :: rest)) = _
          unfold scanDoubleMarker
          rw [if_pos rfl]
          dsimp only
          rw [if_neg hc,
            ih g'' (by simp at hlen; omega) hpair'' (p + 2) rest]
          simp only [Except.ok.injEq, Rd.mk.injEq, List.length_cons, and_true]
          omega
      · have hpair' : hasPair11 (g' ++ [11]) = false :=
          hasPair11_cons_false (by simpa using hpair)
        show scanDoubleMarker p (a :: (g' ++ 11 :: 11 :: rest)) = _
        unfold scanDoubleMarker
        rw [if_neg ha, ih g' (by simp at hlen; omega) hpair' (p + 1) rest]
        simp only [Except.ok.injEq, Rd.mk.injEq, List.length_cons, and_true]
        omega

/-- C2 (amended): for a version-13.34 `DefinitiveEdition` player block, the
decoder skips exactly `32435 + 8 + 1 + 5 + 4 = 32453` bytes after the
selection group and then consumes bytes until two consecutive bytes of
value 11; for every run of `N` intervening bytes containing no `11 11`
pair before the marker pair, decoding succeeds — but no
`DesyncRecovered{skipped: N}` diagnostic is produced: the source scans
silently, so the diagnostic channel stays empty. -/
theorem c2_de_resync (c : Ctx) (hvar : c.variant = .definitiveEdition)
    (hver : c.version = ver 1334) (p : Nat) (pre g rest : List Nat)
    (hpre : pre.length = 32453) (hg : hasPair11 (g ++ [11]) = false) :
    deResyncPreSkip (ver 1334) = 32453 ∧
    deResyncBlock c ⟨p, pre ++ (g ++ 11 :: 11 :: rest)⟩ =
      .ok ([], ⟨p + 32453 + g.length + 2, rest⟩) := by
  refine ⟨by decide, ?_⟩
  have hskip : skipN (deResyncPreSkip c.version) ⟨p, pre ++ (g ++ 11 :: 11 :: rest)⟩ =
      .ok ⟨p + 32453, g ++ 11 :: 11 :: rest⟩ := by
    rw [hver]
    rw [show deResyncPreSkip (ver 1334) = 32453 from by decide]
    exact skipN_append 32453 p pre _ hpre
  have hscan : scanDoubleMarker (p + 32453) (g ++ 11 :: 11 :: rest) =
      .ok ⟨p + 32453 + g.length + 2, rest⟩ :=
    scanDoubleMarker_finds g.length g le_rfl hg (p + 32453) rest
  unfold deResyncBlock
  rw [if_pos hvar]
  simp only [hskip, ebind_ok, hscan, ebind_err]

/-- C2 as stated is false: with three intervening bytes `[1, 2, 3]` before
the `11 11` pair, decoding succeeds, but the diagnostic output is the
empty list, not a `DesyncRecovered{skipped: 3}`. -/
theorem c2_de_resync_counterexample :
    deResyncBlock ⟨ver 1334, .definitiveEdition, 8⟩
        ⟨0, List.replicate 32453 0 ++ ([1, 2, 3] ++ 11 :: 11 :: [])⟩ =
      .ok ([], ⟨32458, []⟩) ∧
    ([] : List Diag) ≠ [Diag.desyncRecovered 3] := by
  constructor
  · have hskip : skipN (deResyncPreSkip (ver 1334))
        ⟨0, List.replicate 32453 0 ++ ([1, 2, 3] ++ 11 :: 11 :: [])⟩ =
        .ok ⟨32453, [1, 2, 3] ++ 11 :: 11 :: []⟩ := by
      rw [show deResyncPreSkip (ver 1334) = 32453 from by decide]
      have := skipN_append 32453 0 (List.replicate 32453 0)
        ([1, 2, 3] ++ 11 :: 11 :: []) (List.length_replicate 32453 0)
      exact this
    have hscan : scanDoubleMarker 32453 ([1, 2, 3] ++ 11 :: 11 :: []) =
        .ok ⟨32458, []⟩ := by
      have := scanDoubleMarker_finds 3 [1, 2, 3] le_rfl (by decide) 32453 []
      simpa using this
    unfold deResyncBlock
    rw [if_pos rfl]
    simp only [hskip, ebind_ok, hscan, ebind_err]
  · decide

/-- Witness for C2 at concrete inputs: three nonsense bytes before the
pair; the decoder lands just past the `11 11` pair. -/
theorem c2_de_resync_witness :
    deResyncBlock ⟨ver 1334, .definitiveEdition, 8⟩
        ⟨7, List.replicate 32453 9 ++ ([4, 5, 6] ++ 11 :: 11 :: [8])⟩ =
      .ok ([], ⟨7 + 32453 + 3 + 2, [8]⟩) := by
  have h := (c2_de_resync ⟨ver 1334, .definitiveEdition, 8⟩ rfl rfl 7
    (List.replicate 32453 9) [4, 5, 6] [8] (List.length_replicate 32453 9) (by decide)).2
  exact h

/-- Witness for C5 at concrete inputs: a count of −1 at version 11.62
produces the empty list right after the count word, and a count of 1
produces a single pair. -/
theorem c5_saved_view_clamp_witness :
    readSavedViews ⟨ver 1162, .userPatch, 1⟩ ⟨0, [255, 255, 255, 255]⟩ = .ok ([], ⟨4, []⟩) ∧
    [((0 : Nat), (0 : Nat))].length = (1 : Int).toNat := by
  constructor
  · exact (c5_saved_view_clamp ⟨ver 1162, .userPatch, 1⟩ (by decide) _ (-1) ⟨4, []⟩
      (by decide)).1 (by norm_num)
  · exact ((c5_saved_view_clamp ⟨ver 1162, .userPatch, 1⟩ (by decide)
      ⟨0, [1, 0, 0, 0, 0, 0, 0, 0, 0, 0, 0, 0]⟩ 1 ⟨4, [0, 0, 0, 0, 0, 0, 0, 0]⟩
      (by decide)).2 (by norm_num) [(0, 0)] ⟨12, []⟩ (by decide)).1

/-- C8: round-trip of the six fixed-layout record codecs, amended.  For
every well-formed value (all fields in their machine-integer ranges, and,
for `RandomMapElevation`, a non-negative `percent`, since a negative one
makes the decoder panic, see the counterexample), decode after encode
returns the value and consumes exactly the record length; and for every
byte string of the record's fixed length whose padding bytes are zero (and,
for `RandomMapElevation`, whose `percent` high bit is clear), decode
succeeds and encode reproduces the string byte for byte. -/
theorem c8_fixed_layout_roundtrip :
    (∀ (v : ColorTable), v.wf → ∀ (p : Nat) (rest : List Nat),
      ColorTable.read_from ⟨p, v.write_to ++ rest⟩ = .ok (v, ⟨p + 36, rest⟩)) ∧
    (∀ (p b0 b1 b2 b3 b4 b5 b6 b7 b8 b9 b10 b11 b12 b13 b14 b15 b16 b17 b18 b19 b20 b21
        b22 b23 b24 b25 b26 b27 b28 b29 b30 b31 b32 b33 b34 b35 : Nat),
      validBytes [b0, b1, b2, b3, b4, b5, b6, b7, b8, b9, b10, b11, b12, b13, b14, b15, b16, b17, b18,
        b19, b20, b21, b22, b23, b24, b25, b26, b27, b28, b29, b30, b31, b32, b33,
        b34, b35] →
      ∃ v, ColorTable.read_from ⟨p, [b0, b1, b2, b3, b4, b5, b6, b7, b8, b9, b10, b11, b12, b13, b14, b15, b16, b17, b18,
        b19, b20, b21, b22, b23, b24, b25, b26, b27, b28, b29, b30, b31, b32, b33,
        b34, b35]⟩ = .ok (v, ⟨p + 36, []⟩) ∧
        ColorTable.write_to v = [b0, b1, b2, b3, b4, b5, b6, b7, b8, b9, b10, b11, b12, b13, b14, b15, b16, b17, b18,
        b19, b20, b21, b22, b23, b24, b25, b26, b27, b28, b29, b30, b31, b32, b33,
        b34, b35]) ∧
    (∀ (v : RandomMapTerrain), v.wf → ∀ (p : Nat) (rest : List Nat),
      RandomMapTerrain.read_from ⟨p, v.write_to ++ rest⟩ = .ok (v, ⟨p + 24, rest⟩)) ∧
    (∀ (p b0 b1 b2 b3 b4 b5 b6 b7 b8 b9 b10 b11 b12 b13 b14 b15 b16 b17 b18 b19 b20 b21
        b22 b23 : Nat),
      validBytes [b0, b1, b2, b3, b4, b5, b6, b7, b8, b9, b10, b11, b12, b13, b14, b15, b16, b17, b18,
        b19, b20, b21, b22, b23] →
      ∃ v, RandomMapTerrain.read_from ⟨p, [b0, b1, b2, b3, b4, b5, b6, b7, b8, b9, b10, b11, b12, b13, b14, b15, b16, b17, b18,
        b19, b20, b21, b22, b23]⟩ = .ok (v, ⟨p + 24, []⟩) ∧
        RandomMapTerrain.write_to v = [b0, b1, b2, b3, b4, b5, b6, b7, b8, b9, b10, b11, b12, b13, b14, b15, b16, b17, b18,
        b19, b20, b21, b22, b23]) ∧
    (∀ (v : RandomMapObject), v.wf → ∀ (p : Nat) (rest : List Nat),
      RandomMapObject.read_from ⟨p, v.write_to ++ rest⟩ = .ok (v, ⟨p + 44, rest⟩)) ∧
    (∀ (p b0 b1 b2 b3 b4 b5 b6 b7 b8 b9 b12 b13 b14 b15 b16 b17 b18 b19 b20 b21 b22 b23
        b24 b25 b26 b27 b28 b29 b30 b31 b32 b33 b34 b35 b36 b37 b38 b39 b40 b41 b42
        b43 : Nat),
      validBytes [b0, b1, b2, b3, b4, b5, b6, b7, b8, b9, 0, 0, b12, b13, b14, b15, b16, b17, b18,
        b19, b20, b21, b22, b23, b24, b25, b26, b27, b28, b29, b30, b31, b32, b33,
        b34, b35, b36, b37, b38, b39, b40, b41, b42, b43] →
      ∃ v, RandomMapObject.read_from ⟨p, [b0, b1, b2, b3, b4, b5, b6, b7, b8, b9, 0, 0, b12, b13, b14, b15, b16, b17, b18,
        b19, b20, b21, b22, b23, b24, b25, b26, b27, b28, b29, b30, b31, b32, b33,
        b34, b35, b36, b37, b38, b39, b40, b41, b42, b43]⟩ = .ok (v, ⟨p + 44, []⟩) ∧
        RandomMapObject.write_to v = [b0, b1, b2, b3, b4, b5, b6, b7, b8, b9, 0, 0, b12, b13, b14, b15, b16, b17, b18,
        b19, b20, b21, b22, b23, b24, b25, b26, b27, b28, b29, b30, b31, b32, b33,
        b34, b35, b36, b37, b38, b39, b40, b41, b42, b43]) ∧
    (∀ (v : RandomMapElevation), v.wf → ∀ (p : Nat) (rest : List Nat),
      RandomMapElevation.read_from ⟨p, v.write_to ++ rest⟩ = .ok (v, ⟨p + 24, rest⟩)) ∧
    (∀ (p b0 b1 b2 b3 b4 b5 b6 b7 b8 b9 b10 b11 b12 b13 b14 b15 b16 b17 b18 b19 b20 b21
        b22 b23 : Nat),
      validBytes [b0, b1, b2, b3, b4, b5, b6, b7, b8, b9, b10, b11, b12, b13, b14, b15, b16, b17, b18,
        b19, b20, b21, b22, b23] → b3 < 128 →
      ∃ v, RandomMapElevation.read_from ⟨p, [b0, b1, b2, b3, b4, b5, b6, b7, b8, b9, b10, b11, b12, b13, b14, b15, b16, b17, b18,
        b19, b20, b21, b22, b23]⟩ = .ok (v, ⟨p + 24, []⟩) ∧
        RandomMapElevation.write_to v = [b0, b1, b2, b3, b4, b5, b6, b7, b8, b9, b10, b11, b12, b13, b14, b15, b16, b17, b18,
        b19, b20, b21, b22, b23]) ∧
    (∀ (v : GaiaCreature), v.wf → ∀ (p : Nat) (rest : List Nat),
      GaiaCreature.read_from ⟨p, v.write_to ++ rest⟩ = .ok (v, ⟨p + 12, rest⟩)) ∧
    (∀ (p b0 b1 b2 b3 b4 b5 b6 b7 b8 b9 b10 b11 : Nat),
      validBytes [b0, b1, b2, b3, b4, b5, b6, b7, b8, b9, b10, b11] →
      ∃ v, GaiaCreature.read_from ⟨p, [b0, b1, b2, b3, b4, b5, b6, b7, b8, b9, b10, b11]⟩ = .ok (v, ⟨p + 12, []⟩) ∧
        GaiaCreature.write_to v = [b0, b1, b2, b3, b4, b5, b6, b7, b8, b9, b10, b11]) ∧
    (∀ (v : GaiaWolfInfo), v.wf → ∀ (p : Nat) (rest : List Nat),
      GaiaWolfInfo.read_from ⟨p, v.write_to ++ rest⟩ = .ok (v, ⟨p + 8, rest⟩)) ∧
    (∀ (p b0 b1 b2 b3 b4 b5 b6 b7 : Nat),
      validBytes [b0, b1, b2, b3, b4, b5, b6, b7] →
      ∃ v, GaiaWolfInfo.read_from ⟨p, [b0, b1, b2, b3, b4, b5, b6, b7]⟩ = .ok (v, ⟨p + 8, []⟩) ∧
        GaiaWolfInfo.write_to v = [b0, b1, b2, b3, b4, b5, b6, b7]) := by
  refine ⟨?_, ?_, ?_, ?_, ?_, ?_, ?_, ?_, ?_, ?_, ?_, ?_⟩
  · intro v hv p rest
    obtain ⟨w1, w2, w3, w4, w5, w6, w7, w8, w9⟩ := hv
    simp only [ColorTable.read_from, ColorTable.write_to, List.append_assoc,
      readI32_wI32 w1, readI32_wI32 w2, readI32_wI32 w3, readI32_wI32 w4,
      readI32_wI32 w5, readI32_wI32 w6, readI32_wI32 w7, readI32_wI32 w8,
      readI32_wI32 w9, ebind_ok]
  · intro p b0 b1 b2 b3 b4 b5 b6 b7 b8 b9 b10 b11 b12 b13 b14 b15 b16 b17 b18 b19 b20
          b21 b22 b23 b24 b25 b26 b27 b28 b29 b30 b31 b32 b33 b34 b35 h
    simp only [validBytes, List.forall_mem_cons] at h
    obtain ⟨h0, h1, h2, h3, h4, h5, h6, h7, h8, h9, h10, h11, h12, h13, h14, h15,
      h16, h17, h18, h19, h20, h21, h22, h23, h24, h25, h26, h27, h28, h29, h30, h31,
      h32, h33, h34, h35, -⟩ := h
    refine ⟨_, rfl, ?_⟩
    simp only [ColorTable.write_to]
    rw [wI32_toI32 h0 h1 h2 h3, wI32_toI32 h4 h5 h6 h7, wI32_toI32 h8 h9 h10 h11,
      wI32_toI32 h12 h13 h14 h15, wI32_toI32 h16 h17 h18 h19,
      wI32_toI32 h20 h21 h22 h23, wI32_toI32 h24 h25 h26 h27,
      wI32_toI32 h28 h29 h30 h31, wI32_toI32 h32 h33 h34 h35]
    rfl
  · intro v hv p rest
    obtain ⟨w1, w2, w3, w4, w5, w6⟩ := hv
    simp only [RandomMapTerrain.read_from, RandomMapTerrain.write_to,
      List.append_assoc, readI32_wI32 w1, readI32_wI32 w2, readI32_wI32 w3,
      readI32_wI32 w4, readI32_wI32 w5, readI32_wI32 w6, ebind_ok]
  · intro p b0 b1 b2 b3 b4 b5 b6 b7 b8 b9 b10 b11 b12 b13 b14 b15 b16 b17 b18 b19 b20
          b21 b22 b23 h
    simp only [validBytes, List.forall_mem_cons] at h
    obtain ⟨h0, h1, h2, h3, h4, h5, h6, h7, h8, h9, h10, h11, h12, h13, h14, h15,
      h16, h17, h18, h19, h20, h21, h22, h23, -⟩ := h
    refine ⟨_, rfl, ?_⟩
    simp only [RandomMapTerrain.write_to]
    rw [wI32_toI32 h0 h1 h2 h3, wI32_toI32 h4 h5 h6 h7, wI32_toI32 h8 h9 h10 h11,
      wI32_toI32 h12 h13 h14 h15, wI32_toI32 h16 h17 h18 h19,
      wI32_toI32 h20 h21 h22 h23]
    rfl
  · intro v hv p rest
    obtain ⟨w1, w2, w3, w4, w5, w6, w7, w8, w9, w10, w11, w12⟩ := hv
    simp only [RandomMapObject.read_from, RandomMapObject.write_to,
      List.append_assoc, readU32_wU32 w1, readI32_wI32 w2, readI8_wI8 w3,
      readI8_wI8 w4, readU16_wU16_0, readI32_wI32 w5, readI32_wI32 w6,
      readI32_wI32 w7, readI32_wI32 w8, readI32_wI32 w9, readI32_wI32 w10,
      readI32_wI32 w11, readI32_wI32 w12, ebind_ok]
  · intro p b0 b1 b2 b3 b4 b5 b6 b7 b8 b9 b12 b13 b14 b15 b16 b17 b18 b19 b20 b21 b22
          b23 b24 b25 b26 b27 b28 b29 b30 b31 b32 b33 b34 b35 b36 b37 b38 b39 b40 b41
          b42 b43 h
    simp only [validBytes, List.forall_mem_cons] at h
    obtain ⟨h0, h1, h2, h3, h4, h5, h6, h7, h8, h9, -, -, h12, h13, h14, h15, h16,
      h17, h18, h19, h20, h21, h22, h23, h24, h25, h26, h27, h28, h29, h30, h31, h32,
      h33, h34, h35, h36, h37, h38, h39, h40, h41, h42, h43, -⟩ := h
    refine ⟨_, rfl, ?_⟩
    simp only [RandomMapObject.write_to]
    rw [wU32_combine h0 h1 h2 h3, wI32_toI32 h4 h5 h6 h7, wI8_toI8 h8, wI8_toI8 h9,
      wI32_toI32 h12 h13 h14 h15, wI32_toI32 h16 h17 h18 h19,
      wI32_toI32 h20 h21 h22 h23, wI32_toI32 h24 h25 h26 h27,
      wI32_toI32 h28 h29 h30 h31, wI32_toI32 h32 h33 h34 h35,
      wI32_toI32 h36 h37 h38 h39, wI32_toI32 h40 h41 h42 h43]
    rfl
  · intro v hv p rest
    obtain ⟨w1, w2, w3, w4, w5, w6, w7⟩ := hv
    have hcast : ((v.percent.toNat : Nat) : Int) = v.percent := Int.toNat_of_nonneg w1
    have hlt : v.percent.toNat < 2147483648 := by omega
    simp only [RandomMapElevation.read_from, RandomMapElevation.write_to,
      List.append_assoc, readU32_wI32_nonneg w1 w2, ebind_ok, hlt, if_true,
      readI32_wI32 w3, readI32_wI32 w4, readI32_wI32 w5, readI32_wI32 w6,
      readI32_wI32 w7, hcast]
  · intro p b0 b1 b2 b3 b4 b5 b6 b7 b8 b9 b10 b11 b12 b13 b14 b15 b16 b17 b18 b19 b20
          b21 b22 b23 h hb3
    simp only [validBytes, List.forall_mem_cons] at h
    obtain ⟨h0, h1, h2, h3, h4, h5, h6, h7, h8, h9, h10, h11, h12, h13, h14, h15,
      h16, h17, h18, h19, h20, h21, h22, h23, -⟩ := h
    have hguard : b0 + 256 * b1 + 65536 * b2 + 16777216 * b3 < 2147483648 := by omega
    have hdec : RandomMapElevation.read_from ⟨p, [b0, b1, b2, b3, b4, b5, b6, b7, b8, b9, b10, b11, b12, b13, b14, b15, b16, b17, b18,
        b19, b20, b21, b22, b23]⟩ =
        .ok (⟨((b0 + 256 * b1 + 65536 * b2 + 16777216 * b3 : Nat) : Int),
          toI32 (b4 + 256 * b5 + 65536 * b6 + 16777216 * b7),
          toI32 (b8 + 256 * b9 + 65536 * b10 + 16777216 * b11),
          toI32 (b12 + 256 * b13 + 65536 * b14 + 16777216 * b15),
          toI32 (b16 + 256 * b17 + 65536 * b18 + 16777216 * b19),
          toI32 (b20 + 256 * b21 + 65536 * b22 + 16777216 * b23)⟩, ⟨p + 24, []⟩) := by
      simp only [RandomMapElevation.read_from]
      rw [show readU32 ⟨p, [b0, b1, b2, b3, b4, b5, b6, b7, b8, b9, b10, b11, b12, b13, b14, b15, b16, b17, b18,
        b19, b20, b21, b22, b23]⟩
        = .ok (b0 + 256 * b1 + 65536 * b2 + 16777216 * b3, ⟨p + 4,
          [b4, b5, b6, b7, b8, b9, b10, b11, b12, b13, b14, b15, b16, b17, b18, b19, b20, b21,
          b22, b23]⟩) from rfl, ebind_ok]
      dsimp only
      rw [if_pos hguard]
      rfl
    refine ⟨_, hdec, ?_⟩
    simp only [RandomMapElevation.write_to]
    rw [wI32_ofNat h0 h1 h2 hb3, wI32_toI32 h4 h5 h6 h7, wI32_toI32 h8 h9 h10 h11,
      wI32_toI32 h12 h13 h14 h15, wI32_toI32 h16 h17 h18 h19,
      wI32_toI32 h20 h21 h22 h23]
    rfl
  · intro v hv p rest
    obtain ⟨w1, w2, w3⟩ := hv
    simp only [GaiaCreature.read_from, GaiaCreature.write_to, List.append_assoc,
      readF32, readU32_wU32 w1, readU32_wU32 w2, readU32_wU32 w3, ebind_ok]
  · intro p b0 b1 b2 b3 b4 b5 b6 b7 b8 b9 b10 b11 h
    simp only [validBytes, List.forall_mem_cons] at h
    obtain ⟨h0, h1, h2, h3, h4, h5, h6, h7, h8, h9, h10, h11, -⟩ := h
    refine ⟨_, rfl, ?_⟩
    simp only [GaiaCreature.write_to]
    rw [wU32_combine h0 h1 h2 h3, wU32_combine h4 h5 h6 h7, wU32_combine h8 h9 h10 h11]
    rfl
  · intro v hv p rest
    obtain ⟨w1, w2⟩ := hv
    simp only [GaiaWolfInfo.read_from, GaiaWolfInfo.write_to, List.append_assoc,
      readF32, readU32_wU32 w1, readU32_wU32 w2, ebind_ok]
  · intro p b0 b1 b2 b3 b4 b5 b6 b7 h
    simp only [validBytes, List.forall_mem_cons] at h
    obtain ⟨h0, h1, h2, h3, h4, h5, h6, h7, -⟩ := h
    refine ⟨_, rfl, ?_⟩
    simp only [GaiaWolfInfo.write_to]
    rw [wU32_combine h0 h1 h2 h3, wU32_combine h4 h5 h6 h7]
    rfl

/-- Counterexample for C8 as stated: `RandomMapElevation` breaks the
round-trip law.  A 24-byte string whose first word has the high bit set is
rejected with a panic (the source converts the `u32` with
try_into().unwrap(), which aborts when the word does not fit an `i32`), so
encode after decode is not the identity on every byte string of the fixed
length; and decoding the encoding of the legal value with `percent = -1`
panics as well, so decode after encode is not the identity on values
either. -/
theorem c8_fixed_layout_counterexample :
    RandomMapElevation.read_from ⟨0, [0, 0, 0, 128] ++ List.replicate 20 0⟩ =
      .error .panicAssert ∧
    RandomMapElevation.read_from
        ⟨0, RandomMapElevation.write_to ⟨-1, 0, 0, 0, 0, 0⟩⟩ =
      .error .panicAssert :=
  ⟨rfl, rfl⟩

/-- Witness for C8 at concrete inputs: one value round-trip and one
byte-string round-trip for each of the six record types. -/
theorem c8_fixed_layout_roundtrip_witness :
    (ColorTable.read_from ⟨0, ColorTable.write_to (⟨1, -2, 3, (4, -5), (6, 7, -8), 9⟩ : ColorTable) ++ [9]⟩ =
      .ok ((⟨1, -2, 3, (4, -5), (6, 7, -8), 9⟩ : ColorTable), ⟨0 + 36, [9]⟩)) ∧
    (∃ v, ColorTable.read_from ⟨0, [13, 20, 27, 34, 41, 48, 55, 62, 69, 76, 83, 90, 97, 104, 111, 118, 125, 132, 139,
        146, 153, 160, 167, 174, 181, 188, 195, 202, 209, 216, 223, 230, 237, 244,
        251, 2]⟩ =
      .ok (v, ⟨0 + 36, []⟩) ∧ ColorTable.write_to v = [13, 20, 27, 34, 41, 48, 55, 62, 69, 76, 83, 90, 97, 104, 111, 118, 125, 132, 139,
        146, 153, 160, 167, 174, 181, 188, 195, 202, 209, 216, 223, 230, 237, 244,
        251, 2]) ∧
    (RandomMapTerrain.read_from ⟨0, RandomMapTerrain.write_to (⟨1, -2, 3, -4, 5, -6⟩ : RandomMapTerrain) ++ [9]⟩ =
      .ok ((⟨1, -2, 3, -4, 5, -6⟩ : RandomMapTerrain), ⟨0 + 24, [9]⟩)) ∧
    (∃ v, RandomMapTerrain.read_from ⟨0, [13, 20, 27, 34, 41, 48, 55, 62, 69, 76, 83, 90, 97, 104, 111, 118, 125, 132, 139,
        146, 153, 160, 167, 174]⟩ =
      .ok (v, ⟨0 + 24, []⟩) ∧ RandomMapTerrain.write_to v = [13, 20, 27, 34, 41, 48, 55, 62, 69, 76, 83, 90, 97, 104, 111, 118, 125, 132, 139,
        146, 153, 160, 167, 174]) ∧
    (RandomMapObject.read_from ⟨0, RandomMapObject.write_to (⟨7, -1, 2, -3, 10, 20, 30, 40, -50, 60, -70, 80⟩ : RandomMapObject) ++ [9]⟩ =
      .ok ((⟨7, -1, 2, -3, 10, 20, 30, 40, -50, 60, -70, 80⟩ : RandomMapObject), ⟨0 + 44, [9]⟩)) ∧
    (∃ v, RandomMapObject.read_from ⟨0, [13, 20, 27, 34, 41, 48, 55, 62, 69, 76, 0, 0, 97, 104, 111, 118, 125, 132, 139, 146,
        153, 160, 167, 174, 181, 188, 195, 202, 209, 216, 223, 230, 237, 244, 251, 2,
        9, 16, 23, 30, 37, 44, 51, 58]⟩ =
      .ok (v, ⟨0 + 44, []⟩) ∧ RandomMapObject.write_to v = [13, 20, 27, 34, 41, 48, 55, 62, 69, 76, 0, 0, 97, 104, 111, 118, 125, 132, 139, 146,
        153, 160, 167, 174, 181, 188, 195, 202, 209, 216, 223, 230, 237, 244, 251, 2,
        9, 16, 23, 30, 37, 44, 51, 58]) ∧
    (RandomMapElevation.read_from ⟨0, RandomMapElevation.write_to (⟨5, -1, 2, -3, 4, -6⟩ : RandomMapElevation) ++ [9]⟩ =
      .ok ((⟨5, -1, 2, -3, 4, -6⟩ : RandomMapElevation), ⟨0 + 24, [9]⟩)) ∧
    (∃ v, RandomMapElevation.read_from ⟨0, [13, 20, 27, 5, 41, 48, 55, 62, 69, 76, 83, 90, 97, 104, 111, 118, 125, 132, 139,
        146, 153, 160, 167, 174]⟩ =
      .ok (v, ⟨0 + 24, []⟩) ∧ RandomMapElevation.write_to v = [13, 20, 27, 5, 41, 48, 55, 62, 69, 76, 83, 90, 97, 104, 111, 118, 125, 132, 139,
        146, 153, 160, 167, 174]) ∧
    (GaiaCreature.read_from ⟨0, GaiaCreature.write_to (⟨1, 2, 3⟩ : GaiaCreature) ++ [9]⟩ =
      .ok ((⟨1, 2, 3⟩ : GaiaCreature), ⟨0 + 12, [9]⟩)) ∧
    (∃ v, GaiaCreature.read_from ⟨0, [13, 20, 27, 34, 41, 48, 55, 62, 69, 76, 83, 90]⟩ =
      .ok (v, ⟨0 + 12, []⟩) ∧ GaiaCreature.write_to v = [13, 20, 27, 34, 41, 48, 55, 62, 69, 76, 83, 90]) ∧
    (GaiaWolfInfo.read_from ⟨0, GaiaWolfInfo.write_to (⟨4, 5⟩ : GaiaWolfInfo) ++ [9]⟩ =
      .ok ((⟨4, 5⟩ : GaiaWolfInfo), ⟨0 + 8, [9]⟩)) ∧
    (∃ v, GaiaWolfInfo.read_from ⟨0, [13, 20, 27, 34, 41, 48, 55, 62]⟩ =
      .ok (v, ⟨0 + 8, []⟩) ∧ GaiaWolfInfo.write_to v = [13, 20, 27, 34, 41, 48, 55, 62]) :=
  ⟨c8_fixed_layout_roundtrip.1 (⟨1, -2, 3, (4, -5), (6, 7, -8), 9⟩ : ColorTable) (by simp [ColorTable.wf, inI32]) 0 [9],
   c8_fixed_layout_roundtrip.2.1 0 13 20 27 34 41 48 55 62 69 76 83 90 97 104 111 118
     125 132 139 146 153 160 167 174 181 188 195 202 209 216 223 230 237 244 251 2 (by
     decide),
   c8_fixed_layout_roundtrip.2.2.1 (⟨1, -2, 3, -4, 5, -6⟩ : RandomMapTerrain) (by simp [RandomMapTerrain.wf, inI32]) 0 [9],
   c8_fixed_layout_roundtrip.2.2.2.1 0 13 20 27 34 41 48 55 62 69 76 83 90 97 104 111
     118 125 132 139 146 153 160 167 174 (by decide),
   c8_fixed_layout_roundtrip.2.2.2.2.1 (⟨7, -1, 2, -3, 10, 20, 30, 40, -50, 60, -70, 80⟩ : RandomMapObject) (by simp [RandomMapObject.wf, inI32, inI8]) 0 [9],
   c8_fixed_layout_roundtrip.2.2.2.2.2.1 0 13 20 27 34 41 48 55 62 69 76 97 104 111 118
     125 132 139 146 153 160 167 174 181 188 195 202 209 216 223 230 237 244 251 2 9 16
     23 30 37 44 51 58 (by decide),
   c8_fixed_layout_roundtrip.2.2.2.2.2.2.1 (⟨5, -1, 2, -3, 4, -6⟩ : RandomMapElevation) (by simp [RandomMapElevation.wf, inI32]) 0 [9],
   c8_fixed_layout_roundtrip.2.2.2.2.2.2.2.1 0 13 20 27 5 41 48 55 62 69 76 83 90 97
     104 111 118 125 132 139 146 153 160 167 174 (by decide) (by decide),
   c8_fixed_layout_roundtrip.2.2.2.2.2.2.2.2.1 (⟨1, 2, 3⟩ : GaiaCreature) (by simp [GaiaCreature.wf]) 0 [9],
   c8_fixed_layout_roundtrip.2.2.2.2.2.2.2.2.2.1 0 13 20 27 34 41 48 55 62 69 76 83 90
     (by decide),
   c8_fixed_layout_roundtrip.2.2.2.2.2.2.2.2.2.2.1 (⟨4, 5⟩ : GaiaWolfInfo) (by simp [GaiaWolfInfo.wf]) 0 [9],
   c8_fixed_layout_roundtrip.2.2.2.2.2.2.2.2.2.2.2 0 13 20 27 34 41 48 55 62 (by
     decide)⟩

theorem readU8_cons (p b : Nat) (rest : List Nat) :
    readU8 ⟨p, b :: rest⟩ = .ok (b, ⟨p + 1, rest⟩) := rfl

theorem skipUpTo_append {n : Nat} (a : List Nat) (h : a.length = n) (p : Nat) (b : List Nat) :
    skipUpTo n ⟨p, a ++ b⟩ = .ok ⟨p + n, b⟩ := by
  subst h
  simp only [skipUpTo, List.length_append, List.drop_left]
  have hmin : min a.length (a.length + b.length) = a.length := by omega
  rw [hmin]

theorem readCount_roundtrip {α : Type} (f : Rd → Except Err (α × Rd))
    (write : α → List Nat) (sz : Nat) :
    ∀ (l : List α), (∀ a ∈ l, ∀ (p : Nat) (rest : List Nat),
        f ⟨p, write a ++ rest⟩ = .ok (a, ⟨p + sz, rest⟩)) →
      ∀ (p : Nat) (rest : List Nat),
        readCount f l.length ⟨p, (l.map write).flatten ++ rest⟩ =
          .ok (l, ⟨p + sz * l.length, rest⟩) := by
  intro l
  induction l with
  | nil =>
      intro _ p rest
      simp [readCount]
  | cons a t ih =>
      intro hstep p rest
      have ha := hstep a (List.mem_cons_self a t) p ((t.map write).flatten ++ rest)
      have ht := ih (fun x hx => hstep x (List.mem_cons_of_mem a hx)) (p + sz) rest
      simp only [List.length_cons, List.map_cons, List.flatten_cons, List.append_assoc,
        readCount, ha, ebind_ok, ht]
      have harith : p + sz + sz * t.length = p + sz * (t.length + 1) := by ring
      rw [harith]

theorem flatten_map_length_const {α : Type} (write : α → List Nat) (sz : Nat)
    (l : List α) (h : ∀ a ∈ l, (write a).length = sz) :
    ((l.map write).flatten).length = sz * l.length := by
  induction l with
  | nil => simp
  | cons a t ih =>
      simp only [List.map_cons, List.flatten_cons, List.length_append, List.length_cons,
        h a (List.mem_cons_self a t), ih (fun x hx => h x (List.mem_cons_of_mem a hx))]
      ring

theorem randomMapLand_write_length (l : RandomMapLand) :
    (RandomMapLand.write_to l).length = 44 := by
  simp [RandomMapLand.write_to, wI32, wU32, wI8, wU16]

theorem randomMapTerrain_write_length (t : RandomMapTerrain) :
    (RandomMapTerrain.write_to t).length = 24 := by
  simp [RandomMapTerrain.write_to, wI32, wU32]

theorem randomMapObject_write_length (o : RandomMapObject) :
    (RandomMapObject.write_to o).length = 44 := by
  simp [RandomMapObject.write_to, wI32, wU32, wI8, wU16]

theorem randomMapElevation_write_length (e : RandomMapElevation) :
    (RandomMapElevation.write_to e).length = 24 := by
  simp [RandomMapElevation.write_to, wI32, wU32]

theorem randomMapLand_roundtrip (l : RandomMapLand) (hl : l.wf) (p : Nat) (rest : List Nat) :
    RandomMapLand.read_from ⟨p, l.write_to ++ rest⟩ = .ok (l, ⟨p + 44, rest⟩) := by
  obtain ⟨w1, w2, w3, w4, w5, w6, w7, w8, w9, w10, w11, w12, w13⟩ := hl
  have htt : l.terrain_type % 256 = l.terrain_type := Nat.mod_eq_of_lt w2
  simp only [RandomMapLand.read_from, RandomMapLand.write_to, List.append_assoc,
    List.singleton_append, List.cons_append, List.nil_append, htt, readU8_cons,
    readI32_wI32 w1, readU16_wU16_0,
    readI32_wI32 w3, readI32_wI32 w4, readI8_wI8 w5, readI8_wI8 w6,
    readI32_wI32 w7, readI32_wI32 w8, readI8_wI8 w9, readI8_wI8 w10,
    readI32_wI32 w11, readI32_wI32 w12, readI32_wI32 w13, ebind_ok]

theorem randomMapTerrain_roundtrip (t : RandomMapTerrain) (ht : t.wf) (p : Nat) (rest : List Nat) :
    RandomMapTerrain.read_from ⟨p, t.write_to ++ rest⟩ = .ok (t, ⟨p + 24, rest⟩) := by
  obtain ⟨w1, w2, w3, w4, w5, w6⟩ := ht
  simp only [RandomMapTerrain.read_from, RandomMapTerrain.write_to, List.append_assoc,
    readI32_wI32 w1, readI32_wI32 w2, readI32_wI32 w3, readI32_wI32 w4,
    readI32_wI32 w5, readI32_wI32 w6, ebind_ok]

theorem randomMapObject_roundtrip (o : RandomMapObject) (ho : o.wf) (p : Nat) (rest : List Nat) :
    RandomMapObject.read_from ⟨p, o.write_to ++ rest⟩ = .ok (o, ⟨p + 44, rest⟩) := by
  obtain ⟨w1, w2, w3, w4, w5, w6, w7, w8, w9, w10, w11, w12⟩ := ho
  simp only [RandomMapObject.read_from, RandomMapObject.write_to, List.append_assoc,
    readU32_wU32 w1, readI32_wI32 w2, readI8_wI8 w3, readI8_wI8 w4, readU16_wU16_0,
    readI32_wI32 w5, readI32_wI32 w6, readI32_wI32 w7, readI32_wI32 w8,
    readI32_wI32 w9, readI32_wI32 w10, readI32_wI32 w11, readI32_wI32 w12,
    ebind_ok]

theorem randomMapElevation_roundtrip (e : RandomMapElevation) (he : e.wf) (p : Nat)
    (rest : List Nat) :
    RandomMapElevation.read_from ⟨p, e.write_to ++ rest⟩ = .ok (e, ⟨p + 24, rest⟩) := by
  obtain ⟨w1, w2, w3, w4, w5, w6, w7⟩ := he
  have hcast : ((e.percent.toNat : Nat) : Int) = e.percent := Int.toNat_of_nonneg w1
  have hlt : e.percent.toNat < 2147483648 := by omega
  simp only [RandomMapElevation.read_from, RandomMapElevation.write_to,
    List.append_assoc, readU32_wI32_nonneg w1 w2, ebind_ok, hlt, if_true,
    readI32_wI32 w3, readI32_wI32 w4, readI32_wI32 w5, readI32_wI32 w6,
    readI32_wI32 w7, hcast]

/-- C9: the random-map commands round trip, amended.  For every well-formed
`RandomMapInfo`, the phase-1 header decoder on the header segment yields the
value with its child vectors preallocated and leaves the reader exactly at
the commands segment; phase 2 (`finish`) then consumes exactly the
`write_commands_to` output and recovers the value.  `write_commands_to`
therefore reproduces only the second (finish) segment of the on-disk data,
whose length is stated by the third conjunct, and not the combined
header-plus-finish segment, see the counterexample. -/
theorem c9_commands_roundtrip (v : RandomMapInfo) (hv : v.wf) (p : Nat) (extra : List Nat) :
    RandomMapInfo.read_from ⟨p, v.write_to ++ (v.write_commands_to ++ extra)⟩ =
      .ok ({ v with
          lands := List.replicate v.lands.length default,
          terrains := List.replicate v.terrains.length default,
          objects := List.replicate v.objects.length default,
          elevations := List.replicate v.elevations.length default },
        ⟨p + 72, v.write_commands_to ++ extra⟩) ∧
    RandomMapInfo.finish
        { v with
          lands := List.replicate v.lands.length default,
          terrains := List.replicate v.terrains.length default,
          objects := List.replicate v.objects.length default,
          elevations := List.replicate v.elevations.length default }
        ⟨p + 72, v.write_commands_to ++ extra⟩ =
      .ok (v, ⟨p + 72 + 44 + 44 * v.lands.length + 8 + 24 * v.terrains.length + 8 +
        44 * v.objects.length + 8 + 24 * v.elevations.length, extra⟩) ∧
    (v.write_commands_to).length = 44 + 44 * v.lands.length + 8 +
      24 * v.terrains.length + 8 + 44 * v.objects.length + 8 +
      24 * v.elevations.length := by
  obtain ⟨m1, m2, m3, m4, m5, m6, m7, m8, m9, n1, n2, n3, n4, hL, hT, hO, hE⟩ := hv
  have hz : inI32 0 := ⟨by norm_num, by norm_num⟩
  have hz32 : (0 : Nat) < 4294967296 := by norm_num
  refine ⟨?_, ?_, ?_⟩
  · simp only [RandomMapInfo.read_from, RandomMapInfo.write_to, List.append_assoc,
      readI32_wI32 m1, readI32_wI32 m2, readI32_wI32 m3, readI32_wI32 m4,
      readI32_wI32 m5, readI32_wI32 m6, readI32_wI32 m7, readI32_wI32 m8,
      readI32_wI32 m9, readI32_wI32 hz, readU32_wU32 n1, readU32_wU32 n2,
      readU32_wU32 n3, readU32_wU32 n4, readU32_wU32 hz32, ebind_ok]
  · have hA : (wI32 v.borders.1 ++ wI32 v.borders.2.1 ++ wI32 v.borders.2.2.1 ++
        wI32 v.borders.2.2.2 ++ wI32 v.border_fade ++ wI32 v.water_border ++
        wI32 v.base_terrain ++ wI32 v.land_percent ++ wU32 0 ++
        wU32 v.lands.length ++ wU32 0).length = 44 := by
      simp [wI32, wU32]
    have hB : (wU32 v.terrains.length ++ wU32 0).length = 8 := by simp [wU32]
    have hC : (wU32 v.objects.length ++ wU32 0).length = 8 := by simp [wU32]
    have hD : (wU32 v.elevations.length ++ wU32 0).length = 8 := by simp [wU32]
    have hsplit : v.write_commands_to ++ extra =
        (wI32 v.borders.1 ++ wI32 v.borders.2.1 ++ wI32 v.borders.2.2.1 ++
         wI32 v.borders.2.2.2 ++ wI32 v.border_fade ++ wI32 v.water_border ++
         wI32 v.base_terrain ++ wI32 v.land_percent ++ wU32 0 ++
         wU32 v.lands.length ++ wU32 0) ++
        ((v.lands.map RandomMapLand.write_to).flatten ++
         ((wU32 v.terrains.length ++ wU32 0) ++
          ((v.terrains.map RandomMapTerrain.write_to).flatten ++
           ((wU32 v.objects.length ++ wU32 0) ++
            ((v.objects.map RandomMapObject.write_to).flatten ++
             ((wU32 v.elevations.length ++ wU32 0) ++
              ((v.elevations.map RandomMapElevation.write_to).flatten ++
               extra))))))) := by
      simp only [RandomMapInfo.write_commands_to, List.append_assoc]
    have hlands := readCount_roundtrip RandomMapLand.read_from RandomMapLand.write_to
      44 v.lands (fun a ha p' rest' => randomMapLand_roundtrip a (hL a ha) p' rest')
    have hterr := readCount_roundtrip RandomMapTerrain.read_from RandomMapTerrain.write_to
      24 v.terrains (fun a ha p' rest' => randomMapTerrain_roundtrip a (hT a ha) p' rest')
    have hobj := readCount_roundtrip RandomMapObject.read_from RandomMapObject.write_to
      44 v.objects (fun a ha p' rest' => randomMapObject_roundtrip a (hO a ha) p' rest')
    have helev := readCount_roundtrip RandomMapElevation.read_from RandomMapElevation.write_to
      24 v.elevations (fun a ha p' rest' => randomMapElevation_roundtrip a (hE a ha) p' rest')
    simp only [RandomMapInfo.finish, hsplit, List.length_replicate,
      skipUpTo_append _ hA, skipUpTo_append _ hB, skipUpTo_append _ hC,
      skipUpTo_append _ hD, ebind_ok, hlands, hterr, hobj, helev]
  · have h1 := flatten_map_length_const RandomMapLand.write_to 44 v.lands
      (fun a _ => randomMapLand_write_length a)
    have h2 := flatten_map_length_const RandomMapTerrain.write_to 24 v.terrains
      (fun a _ => randomMapTerrain_write_length a)
    have h3 := flatten_map_length_const RandomMapObject.write_to 44 v.objects
      (fun a _ => randomMapObject_write_length a)
    have h4 := flatten_map_length_const RandomMapElevation.write_to 24 v.elevations
      (fun a _ => randomMapElevation_write_length a)
    simp only [RandomMapInfo.write_commands_to, List.length_append, h1, h2, h3, h4,
      wI32, wU32, List.length_cons, List.length_nil]

/-- Counterexample for C9 as stated: `write_commands_to` does not reproduce
the combined random-map segment.  The 140-byte all-zero string is accepted
by `RandomMapInfo::from` (72 bytes) followed by `finish` (68 bytes), all its
ignored pointer and padding bytes are zero, yet `write_commands_to` of the
decoded value is the 68-byte finish segment alone, not the 140-byte
combined input. -/
theorem c9_commands_counterexample :
    RandomMapInfo.read_from ⟨0, List.replicate 140 0⟩ =
      .ok (⟨0, (0, 0, 0, 0), 0, 0, 0, 0, [], [], [], []⟩, ⟨72, List.replicate 68 0⟩) ∧
    RandomMapInfo.finish ⟨0, (0, 0, 0, 0), 0, 0, 0, 0, [], [], [], []⟩
        ⟨72, List.replicate 68 0⟩ =
      .ok (⟨0, (0, 0, 0, 0), 0, 0, 0, 0, [], [], [], []⟩, ⟨140, []⟩) ∧
    RandomMapInfo.write_commands_to ⟨0, (0, 0, 0, 0), 0, 0, 0, 0, [], [], [], []⟩ ≠
      List.replicate 140 0 ∧
    RandomMapInfo.write_commands_to ⟨0, (0, 0, 0, 0), 0, 0, 0, 0, [], [], [], []⟩ =
      List.replicate 68 0 := by
  refine ⟨by decide, by decide, by decide, by decide⟩

/-- Witness for C9 at a concrete map with one land, one terrain, no objects
and one elevation record. -/
theorem c9_commands_roundtrip_witness :
    RandomMapInfo.read_from ⟨0, RandomMapInfo.write_to
        ⟨1, (2, -3, 4, 5), 6, 7, 8, 9, [⟨0, 0, 0, 0, 0, 0, 0, 0, 0, 0, 0, 0, 0⟩],
         [⟨0, 0, 0, 0, 0, 0⟩], [], [⟨0, 0, 0, 0, 0, 0⟩]⟩ ++
        (RandomMapInfo.write_commands_to
          ⟨1, (2, -3, 4, 5), 6, 7, 8, 9, [⟨0, 0, 0, 0, 0, 0, 0, 0, 0, 0, 0, 0, 0⟩],
           [⟨0, 0, 0, 0, 0, 0⟩], [], [⟨0, 0, 0, 0, 0, 0⟩]⟩ ++ [9])⟩ =
      .ok (⟨1, (2, -3, 4, 5), 6, 7, 8, 9, [⟨0, 0, 0, 0, 0, 0, 0, 0, 0, 0, 0, 0, 0⟩],
            [⟨0, 0, 0, 0, 0, 0⟩], [], [⟨0, 0, 0, 0, 0, 0⟩]⟩,
        ⟨0 + 72, RandomMapInfo.write_commands_to
          ⟨1, (2, -3, 4, 5), 6, 7, 8, 9, [⟨0, 0, 0, 0, 0, 0, 0, 0, 0, 0, 0, 0, 0⟩],
           [⟨0, 0, 0, 0, 0, 0⟩], [], [⟨0, 0, 0, 0, 0, 0⟩]⟩ ++ [9]⟩) ∧
    RandomMapInfo.finish
        ⟨1, (2, -3, 4, 5), 6, 7, 8, 9, [⟨0, 0, 0, 0, 0, 0, 0, 0, 0, 0, 0, 0, 0⟩],
         [⟨0, 0, 0, 0, 0, 0⟩], [], [⟨0, 0, 0, 0, 0, 0⟩]⟩
        ⟨0 + 72, RandomMapInfo.write_commands_to
          ⟨1, (2, -3, 4, 5), 6, 7, 8, 9, [⟨0, 0, 0, 0, 0, 0, 0, 0, 0, 0, 0, 0, 0⟩],
           [⟨0, 0, 0, 0, 0, 0⟩], [], [⟨0, 0, 0, 0, 0, 0⟩]⟩ ++ [9]⟩ =
      .ok (⟨1, (2, -3, 4, 5), 6, 7, 8, 9, [⟨0, 0, 0, 0, 0, 0, 0, 0, 0, 0, 0, 0, 0⟩],
            [⟨0, 0, 0, 0, 0, 0⟩], [], [⟨0, 0, 0, 0, 0, 0⟩]⟩,
        ⟨0 + 72 + 44 + 44 * 1 + 8 + 24 * 1 + 8 + 44 * 0 + 8 + 24 * 1, [9]⟩) ∧
    (RandomMapInfo.write_commands_to
        ⟨1, (2, -3, 4, 5), 6, 7, 8, 9, [⟨0, 0, 0, 0, 0, 0, 0, 0, 0, 0, 0, 0, 0⟩],
         [⟨0, 0, 0, 0, 0, 0⟩], [], [⟨0, 0, 0, 0, 0, 0⟩]⟩).length =
      44 + 44 * 1 + 8 + 24 * 1 + 8 + 44 * 0 + 8 + 24 * 1 :=
  ⟨(c9_commands_roundtrip
      ⟨1, (2, -3, 4, 5), 6, 7, 8, 9, [⟨0, 0, 0, 0, 0, 0, 0, 0, 0, 0, 0, 0, 0⟩],
       [⟨0, 0, 0, 0, 0, 0⟩], [], [⟨0, 0, 0, 0, 0, 0⟩]⟩
      (by simp [RandomMapInfo.wf, RandomMapLand.wf, RandomMapTerrain.wf,
        RandomMapObject.wf, RandomMapElevation.wf, inI32, inI8]) 0 [9]).1,
   (c9_commands_roundtrip
      ⟨1, (2, -3, 4, 5), 6, 7, 8, 9, [⟨0, 0, 0, 0, 0, 0, 0, 0, 0, 0, 0, 0, 0⟩],
       [⟨0, 0, 0, 0, 0, 0⟩], [], [⟨0, 0, 0, 0, 0, 0⟩]⟩
      (by simp [RandomMapInfo.wf, RandomMapLand.wf, RandomMapTerrain.wf,
        RandomMapObject.wf, RandomMapElevation.wf, inI32, inI8]) 0 [9]).2.1,
   (c9_commands_roundtrip
      ⟨1, (2, -3, 4, 5), 6, 7, 8, 9, [⟨0, 0, 0, 0, 0, 0, 0, 0, 0, 0, 0, 0, 0⟩],
       [⟨0, 0, 0, 0, 0, 0⟩], [], [⟨0, 0, 0, 0, 0, 0⟩]⟩
      (by simp [RandomMapInfo.wf, RandomMapLand.wf, RandomMapTerrain.wf,
        RandomMapObject.wf, RandomMapElevation.wf, inI32, inI8]) 0 [9]).2.2⟩

/-- C10: the resync branch is keyed to exactly `DefinitiveEdition`, the
other edition gates to `>= DefinitiveEdition`.  With the on-disk variant
exactly `DefinitiveEdition` the decoder pre-skips and scans for the first
`11 11` pair; with the variant strictly after `DefinitiveEdition`
(`laterEdition`) it instead demands a strict pair of `11` markers at
version ≥ 10.55, reporting `HeaderError`/`MissingMarker` on a mismatch;
while the duplicate-attribute skip, the 11-byte pad and the 4-byte pads
fire for every variant ≥ `DefinitiveEdition` and consume
`numAttributes * 4 mod 2^32`, 11, and 4 (8 for a non-gaia player type)
bytes respectively, and consume nothing below `DefinitiveEdition`. -/
theorem c10_variant_gating (c : Ctx) (hv : ver 1055 ≤ c.version) :
    (c.variant = .definitiveEdition →
      ∀ (p : Nat) (pre g rest : List Nat), pre.length = deResyncPreSkip c.version →
        hasPair11 (g ++ [11]) = false →
        deResyncBlock c ⟨p, pre ++ (g ++ 11 :: 11 :: rest)⟩ =
          .ok ([], ⟨p + deResyncPreSkip c.version + g.length + 2, rest⟩)) ∧
    (c.variant = .laterEdition →
      (∀ (p : Nat) (rest : List Nat),
        deResyncBlock c ⟨p, 11 :: 11 :: rest⟩ = .ok ([], ⟨p + 2, rest⟩)) ∧
      (∀ (p b : Nat) (g rest : List Nat), b ≠ 11 → 11 ∉ g →
        deResyncBlock c ⟨p, b :: (g ++ 11 :: rest)⟩ =
          .error (.headerError (p + 1) (.missingMarker c.version 11 b (1 + g.length))))) ∧
    (variantGeDE c.variant = false → ∀ (n : Nat) (r : Rd), skipAttrDup c n r = .ok r) ∧
    (variantGeDE c.variant = true → ∀ (n p : Nat) (a b : List Nat),
      a.length = n * 4 % 4294967296 →
      skipAttrDup c n ⟨p, a ++ b⟩ = .ok ⟨p + n * 4 % 4294967296, b⟩) ∧
    (variantGeDE c.variant = false → ∀ (r : Rd), readDEPadEleven c r = .ok r) ∧
    (variantGeDE c.variant = true → ∀ (p : Nat) (a b : List Nat), a.length = 11 →
      readDEPadEleven c ⟨p, a ++ b⟩ = .ok ⟨p + 11, b⟩) ∧
    (variantGeDE c.variant = false → ∀ (pt : Nat) (r : Rd), readDEPadFour c pt r = .ok r) ∧
    (variantGeDE c.variant = true → ∀ (p : Nat) (a b : List Nat), a.length = 4 →
      readDEPadFour c 2 ⟨p, a ++ b⟩ = .ok ⟨p + 4, b⟩) ∧
    (variantGeDE c.variant = true → ∀ (pt : Nat), pt ≠ 2 →
      ∀ (p : Nat) (a1 a2 b : List Nat), a1.length = 4 → a2.length = 4 →
      readDEPadFour c pt ⟨p, a1 ++ (a2 ++ b)⟩ = .ok ⟨p + 8, b⟩) := by
  refine ⟨?_, ?_, ?_, ?_, ?_, ?_, ?_, ?_, ?_⟩
  · intro hde p pre g rest hpre hpair
    have hskip := skipN_append (deResyncPreSkip c.version) p pre (g ++ 11 :: 11 :: rest) hpre
    have hscan := scanDoubleMarker_finds g.length g (Nat.le_refl _) hpair
      (p + deResyncPreSkip c.version) rest
    unfold deResyncBlock
    rw [if_pos hde]
    simp only [hskip, ebind_ok, hscan]
  · intro hlater
    have hne : ¬ c.variant = GameVariant.definitiveEdition := by
      rw [hlater]
      decide
    constructor
    · intro p rest
      have h1 := assertMarker_ok c.version 11 p (11 :: rest)
      have h2 := assertMarker_ok c.version 11 (p + 1) rest
      unfold deResyncBlock
      rw [if_neg hne, if_pos hv]
      simp only [h1, ebind_ok, h2]
    · intro p b g rest hb hg
      have h1 := assertMarker_mismatch c.version 11 p b g rest hb hg
      unfold deResyncBlock
      rw [if_neg hne, if_pos hv]
      simp only [h1, ebind_err]
  · intro h n r
    simp only [skipAttrDup, h, Bool.false_eq_true, if_false]
  · intro h n p a b ha
    simp only [skipAttrDup, h, if_true]
    exact skipN_append (n * 4 % 4294967296) p a b ha
  · intro h r
    simp only [readDEPadEleven, h, Bool.false_eq_true, if_false]
  · intro h p a b ha
    simp only [readDEPadEleven, h, if_true]
    exact skipN_append 11 p a b ha
  · intro h pt r
    simp only [readDEPadFour, h, Bool.false_eq_true, if_false]
  · intro h p a b ha
    have hsk := skipN_append 4 p a b ha
    simp only [readDEPadFour, h, if_true, hsk, ebind_ok]
    rw [if_neg (by decide : ¬ (2 : Nat) ≠ 2)]
  · intro h pt hpt p a1 a2 b ha1 ha2
    have hsk1 := skipN_append 4 p a1 (a2 ++ b) ha1
    have hsk2 := skipN_append 4 (p + 4) a2 b ha2
    simp only [readDEPadFour, h, if_true, hsk1, ebind_ok]
    rw [if_pos hpt, hsk2]

/-- Witness for C10 at concrete inputs: one instantiation per gate, over
the `DefinitiveEdition`, `laterEdition` and `UserPatch` variants. -/
theorem c10_variant_gating_witness :
    deResyncBlock ⟨ver 1334, .definitiveEdition, 1⟩
        ⟨0, List.replicate 32453 0 ++ ([4, 5, 6] ++ 11 :: 11 :: [9])⟩ =
      .ok ([], ⟨0 + deResyncPreSkip (ver 1334) + [4, 5, 6].length + 2, [9]⟩) ∧
    deResyncBlock ⟨ver 1055, .laterEdition, 1⟩ ⟨5, 11 :: 11 :: [7]⟩ =
      .ok ([], ⟨5 + 2, [7]⟩) ∧
    deResyncBlock ⟨ver 1055, .laterEdition, 1⟩ ⟨0, 9 :: ([8] ++ 11 :: [])⟩ =
      .error (.headerError 1 (.missingMarker (ver 1055) 11 9 2)) ∧
    skipAttrDup ⟨ver 1055, .userPatch, 1⟩ 7 ⟨3, [1, 2]⟩ = .ok ⟨3, [1, 2]⟩ ∧
    skipAttrDup ⟨ver 1055, .definitiveEdition, 1⟩ 2 ⟨0, [0, 0, 0, 0, 0, 0, 0, 0] ++ [5]⟩ =
      .ok ⟨0 + 2 * 4 % 4294967296, [5]⟩ ∧
    readDEPadEleven ⟨ver 1055, .userPatch, 1⟩ ⟨1, [2]⟩ = .ok ⟨1, [2]⟩ ∧
    readDEPadEleven ⟨ver 1055, .laterEdition, 1⟩
        ⟨0, [3, 3, 3, 3, 3, 3, 3, 3, 3, 3, 3] ++ [4]⟩ = .ok ⟨0 + 11, [4]⟩ ∧
    readDEPadFour ⟨ver 1055, .userPatch, 1⟩ 3 ⟨1, [2]⟩ = .ok ⟨1, [2]⟩ ∧
    readDEPadFour ⟨ver 1055, .definitiveEdition, 1⟩ 2 ⟨0, [1, 2, 3, 4] ++ [5]⟩ =
      .ok ⟨0 + 4, [5]⟩ ∧
    readDEPadFour ⟨ver 1055, .definitiveEdition, 1⟩ 3
        ⟨0, [1, 2, 3, 4] ++ ([5, 6, 7, 8] ++ [9])⟩ = .ok ⟨0 + 8, [9]⟩ :=
  ⟨(c10_variant_gating ⟨ver 1334, .definitiveEdition, 1⟩ (by decide)).1 rfl 0
      (List.replicate 32453 0) [4, 5, 6] [9]
      (by rw [List.length_replicate]; decide) (by decide),
   ((c10_variant_gating ⟨ver 1055, .laterEdition, 1⟩ (by decide)).2.1 rfl).1 5 [7],
   ((c10_variant_gating ⟨ver 1055, .laterEdition, 1⟩ (by decide)).2.1 rfl).2 0 9 [8] []
      (by decide) (by decide),
   (c10_variant_gating ⟨ver 1055, .userPatch, 1⟩ (by decide)).2.2.1 rfl 7 ⟨3, [1, 2]⟩,
   (c10_variant_gating ⟨ver 1055, .definitiveEdition, 1⟩ (by decide)).2.2.2.1 rfl 2 0
      [0, 0, 0, 0, 0, 0, 0, 0] [5] (by decide),
   (c10_variant_gating ⟨ver 1055, .userPatch, 1⟩ (by decide)).2.2.2.2.1 rfl ⟨1, [2]⟩,
   (c10_variant_gating ⟨ver 1055, .laterEdition, 1⟩ (by decide)).2.2.2.2.2.1 rfl 0
      [3, 3, 3, 3, 3, 3, 3, 3, 3, 3, 3] [4] (by decide),
   (c10_variant_gating ⟨ver 1055, .userPatch, 1⟩ (by decide)).2.2.2.2.2.2.1 rfl 3 ⟨1, [2]⟩,
   (c10_variant_gating ⟨ver 1055, .definitiveEdition, 1⟩ (by decide)).2.2.2.2.2.2.2.1 rfl 0
      [1, 2, 3, 4] [5] (by decide),
   (c10_variant_gating ⟨ver 1055, .definitiveEdition, 1⟩ (by decide)).2.2.2.2.2.2.2.2 rfl 3
      (by decide) 0 [1, 2, 3, 4] [5, 6, 7, 8] [9] (by decide) (by decide)⟩

end GenieSpec
